import Mathlib

/-!
# libsigrok acquisition driver runtime: device model and ASIX Sigma driver

A shallow embedding of `device.c` and of the hardware drivers under
`hardware/` (ASIX Sigma first), with theorems about their behaviour.

Conventions of the embedding:

* C `int` values are `Int`; unsigned machine words are `Nat`, reduced modulo
  `2^w` at the places where the C code truncates.
* Pointers to structures become values; a pointer that may be `NULL` becomes
  an `Option`.
* A function that mutates its argument returns the new value next to its
  return code.
* Everything the code obtains from the outside (FTDI/USB replies, the clock,
  the file system) is an explicit argument of the embedded function.
* Everything the code sends to the outside (datafeed packets, register
  writes, event-source registrations) is returned as a list of `Event`s, in
  program order.
-/

namespace Sigrok

/-! ## Return codes, status values and configuration keys (`libsigrok.h`) -/

/-- Modelled from the spec: `libsigrok.h` is not among the sources. `SR_OK` is
the "OK" outcome; its value 0 is the one of the public header, and the sources
agree with it (`sr_dev_open`: "SR_OK upon success, a negative error code upon
errors"). -/
abbrev SR_OK : Int := 0
/-- Modelled from the spec: generic error (public header value). -/
abbrev SR_ERR : Int := -1
/-- Modelled from the spec: allocation failure (public header value). -/
abbrev SR_ERR_MALLOC : Int := -2
/-- Modelled from the spec: argument error (public header value). -/
abbrev SR_ERR_ARG : Int := -3
/-- Modelled from the spec: internal invariant violated (public header value). -/
abbrev SR_ERR_BUG : Int := -4
/-- Modelled from the spec: value out of range for a samplerate (public header
value). -/
abbrev SR_ERR_SAMPLERATE : Int := -5
/-- Modelled from the spec: "not applicable" (public header value). -/
abbrev SR_ERR_NA : Int := -6
/-- Modelled from the spec: device closed (public header value). -/
abbrev SR_ERR_DEV_CLOSED : Int := -7

/-- Modelled from the spec: the device status, "status ∈ {Inactive,
Initializing, Active, Stopping}" (the C enumeration of `libsigrok.h` is not
among the sources). -/
inductive sr_status where
  | SR_ST_INITIALIZING
  | SR_ST_INACTIVE
  | SR_ST_ACTIVE
  | SR_ST_STOPPING
  deriving DecidableEq, Repr

export sr_status (SR_ST_INITIALIZING SR_ST_INACTIVE SR_ST_ACTIVE SR_ST_STOPPING)

/-- Modelled from the spec: probe kind Logic (the numeric value is the one of
the public header, only its difference from Analog matters). -/
abbrev SR_PROBE_LOGIC : Int := 10000
/-- Modelled from the spec: probe kind Analog. -/
abbrev SR_PROBE_ANALOG : Int := 10001

/-- Modelled from the spec: integer configuration keys of `libsigrok.h` (not
among the sources). Only the fact that different keys have different values
is used. -/
abbrev SR_CONF_LOGIC_ANALYZER : Int := 10000
/-- Modelled from the spec: configuration key "conn". -/
abbrev SR_CONF_CONN : Int := 20000
/-- Modelled from the spec: configuration key "serialcomm". -/
abbrev SR_CONF_SERIALCOMM : Int := 20001
/-- Modelled from the spec: configuration key "samplerate". -/
abbrev SR_CONF_SAMPLERATE : Int := 30000
/-- Modelled from the spec: configuration key "captureratio". -/
abbrev SR_CONF_CAPTURE_RATIO : Int := 30001
/-- Modelled from the spec: configuration key "pattern". -/
abbrev SR_CONF_PATTERN_MODE : Int := 30002
/-- Modelled from the spec: configuration key "rle". -/
abbrev SR_CONF_RLE : Int := 30003
/-- Modelled from the spec: configuration key "triggerslope". -/
abbrev SR_CONF_TRIGGER_SLOPE : Int := 30004
/-- Modelled from the spec: configuration key "triggersource". -/
abbrev SR_CONF_TRIGGER_SOURCE : Int := 30005
/-- Modelled from the spec: configuration key "horiz_triggerpos". -/
abbrev SR_CONF_HORIZ_TRIGGERPOS : Int := 30006
/-- Modelled from the spec: configuration key "buffersize". -/
abbrev SR_CONF_BUFFERSIZE : Int := 30007
/-- Modelled from the spec: configuration key "timebase". -/
abbrev SR_CONF_TIMEBASE : Int := 30008
/-- Modelled from the spec: configuration key "filter". -/
abbrev SR_CONF_FILTER : Int := 30009
/-- Modelled from the spec: configuration key "vdiv". -/
abbrev SR_CONF_VDIV : Int := 30010
/-- Modelled from the spec: configuration key "coupling". -/
abbrev SR_CONF_COUPLING : Int := 30011
/-- Modelled from the spec: configuration key "triggertype". -/
abbrev SR_CONF_TRIGGER_TYPE : Int := 30012
/-- Modelled from the spec: configuration key "external_clock". -/
abbrev SR_CONF_EXTERNAL_CLOCK : Int := 30013
/-- Modelled from the spec: configuration key "swap". -/
abbrev SR_CONF_SWAP : Int := 30014
/-- Modelled from the spec: key of the scan-options query. -/
abbrev SR_CONF_SCAN_OPTIONS : Int := 40000
/-- Modelled from the spec: key of the device-options query. -/
abbrev SR_CONF_DEVICE_OPTIONS : Int := 40001
/-- Modelled from the spec: configuration key "limit_msec". -/
abbrev SR_CONF_LIMIT_MSEC : Int := 50000
/-- Modelled from the spec: configuration key "limit_samples". -/
abbrev SR_CONF_LIMIT_SAMPLES : Int := 50001
/-- Modelled from the spec: configuration key "limit_frames". -/
abbrev SR_CONF_LIMIT_FRAMES : Int := 50002

/-- Modelled from the spec: configuration key "spl_weight_freq". -/
abbrev SR_CONF_SPL_WEIGHT_FREQ : Int := 30015
/-- Modelled from the spec: configuration key "spl_weight_time". -/
abbrev SR_CONF_SPL_WEIGHT_TIME : Int := 30016
/-- Modelled from the spec: configuration key "spl_meas_range". -/
abbrev SR_CONF_SPL_MEASUREMENT_RANGE : Int := 30017
/-- Modelled from the spec: configuration key "hold_max". -/
abbrev SR_CONF_HOLD_MAX : Int := 30018
/-- Modelled from the spec: configuration key "hold_min". -/
abbrev SR_CONF_HOLD_MIN : Int := 30019
/-- Modelled from the spec: configuration key "voltage_threshold". -/
abbrev SR_CONF_VOLTAGE_THRESHOLD : Int := 30020
/-- Modelled from the spec: configuration key "logic_probes". -/
abbrev SR_CONF_NUM_LOGIC_PROBES : Int := 30021
/-- Modelled from the spec: configuration key "analog_probes". -/
abbrev SR_CONF_NUM_ANALOG_PROBES : Int := 30022
/-- Modelled from the spec: configuration key "power_off". -/
abbrev SR_CONF_POWER_OFF : Int := 40006
/-- Modelled from the spec: configuration key "data_source". -/
abbrev SR_CONF_DATA_SOURCE : Int := 40007
/-- Modelled from the spec: configuration key "datalog". -/
abbrev SR_CONF_DATALOG : Int := 50004

/-- Modelled from the spec: the semantic types of configuration values,
"semantic type ∈ {string, uint64, bool, double, rational-pair, range}" (the
C enumeration of `libsigrok.h` is not among the sources; the values are those
of the public header, only their being different matters). -/
abbrev SR_T_UINT64 : Int := 10000
/-- Modelled from the spec: semantic type string. -/
abbrev SR_T_CHAR : Int := 10001
/-- Modelled from the spec: semantic type bool. -/
abbrev SR_T_BOOL : Int := 10002
/-- Modelled from the spec: semantic type double. -/
abbrev SR_T_FLOAT : Int := 10003
/-- Modelled from the spec: semantic type rational pair, a period. -/
abbrev SR_T_RATIONAL_PERIOD : Int := 10004
/-- Modelled from the spec: semantic type rational pair, a voltage. -/
abbrev SR_T_RATIONAL_VOLT : Int := 10005
/-- Modelled from the spec: semantic type key-value. -/
abbrev SR_T_KEYVALUE : Int := 10006
/-- Modelled from the spec: semantic type range of uint64. -/
abbrev SR_T_UINT64_RANGE : Int := 10007
/-- Modelled from the spec: semantic type range of double. -/
abbrev SR_T_DOUBLE_RANGE : Int := 10008
/-- Modelled from the spec: semantic type int32. -/
abbrev SR_T_INT32 : Int := 10009

/-- The macro `SR_KHZ(n)` of `libsigrok.h`: `n * 1000ULL`. -/
abbrev SR_KHZ (n : Nat) : Nat := n * 1000
/-- The macro `SR_MHZ(n)` of `libsigrok.h`: `n * 1000000ULL`. -/
abbrev SR_MHZ (n : Nat) : Nat := n * 1000000

/-! ## Machine arithmetic -/

/-- Decrement of a `w`-bit unsigned value: `(v - 1) mod 2^w`. -/
def wrap_dec (w : Nat) (v : Nat) : Nat :=
  if v % 2 ^ w = 0 then 2 ^ w - 1 else v % 2 ^ w - 1

/-- Subtraction of 16-bit unsigned values: `(a - b) mod 2^16`. -/
def wrap_sub16 (a b : Nat) : Nat :=
  if b % 65536 ≤ a % 65536 then a % 65536 - b % 65536
  else a % 65536 + 65536 - b % 65536

/-! ## Typed configuration values (`GVariant`) -/

/-- The GVariant values the drivers exchange with the frontend. The type of
the floating-point payload is a parameter. -/
inductive GVariant (D : Type) where
  | uint64 (v : Nat)
  | boolean (b : Bool)
  | string (s : String)
  | double (d : D)
  | int32 (v : Int)
  | tuple_tt (p q : Nat)
  | fixed_array_int32 (l : List Int)
  | fixed_array_uint64 (l : List Nat)
  | vardict (entries : List (String × List Nat))

/-- The glib accessor `g_variant_get_uint64`: the 64-bit payload, and 0 for a value of
another type (glib checks the type and returns 0). -/
def g_variant_get_uint64 {D : Type} : GVariant D → Nat
  | .uint64 v => v % 2 ^ 64
  | _ => 0

/-- The glib accessor `g_variant_get_fixed_array` with element size
`sizeof(int32_t)`: the elements of an array of 32-bit integers, and no element
for a value of another type (glib checks the element size and returns zero elements). -/
def g_variant_get_fixed_array_int32 {D : Type} : GVariant D → List Int
  | .fixed_array_int32 l => l
  | _ => []

/-! ## The device model (`device.c`) -/

/-- A probe, `struct sr_probe`: index, type, enabled flag, name and trigger
string (the last two may be `NULL`). -/
structure sr_probe where
  index : Int
  type : Int
  enabled : Bool
  name : Option String
  trigger : Option String
  deriving DecidableEq, Repr

/-- A USB connection, `struct sr_usb_dev_inst`: bus, address and the libusb
device handle (`none`: `NULL`, not open). -/
structure sr_usb_dev_inst where
  bus : Nat
  address : Nat
  devhdl : Option Nat
  deriving DecidableEq, Repr

/-- A serial connection, `struct sr_serial_dev_inst`: port name and
communication parameters. -/
structure sr_serial_dev_inst where
  port : String
  serialcomm : String
  deriving DecidableEq, Repr

/-- What the field `conn` of a device instance points to. -/
inductive sr_conn where
  | usb (u : sr_usb_dev_inst)
  | serial (s : sr_serial_dev_inst)
  deriving DecidableEq, Repr

/-- Modelled from the spec: instance type USB (value of the public header). -/
abbrev SR_INST_USB : Int := 10000
/-- A device instance, `struct sr_dev_inst`, with the driver-private context
`priv` of type `α`. The driver is referred to by name (`none`: a virtual
device without driver). -/
structure sr_dev_inst (α : Type) where
  driver : Option String
  index : Int
  status : sr_status
  inst_type : Int
  vendor : Option String
  model : Option String
  version : Option String
  probes : List sr_probe
  conn : Option sr_conn
  priv : α

/-- The constructor `sr_dev_inst_new` (allocation succeeding): no driver, the given index, status
and copies of the strings, instance type -1, no probes, no connection. The
private context, which the C code leaves `NULL` for the caller to fill in, is
passed in as `priv`. -/
def sr_dev_inst_new {α : Type} (index : Int) (status : sr_status)
    (vendor model version : Option String) (priv : α) : sr_dev_inst α :=
  { driver := none, index := index, status := status, inst_type := -1, vendor := vendor,
    model := model, version := version, probes := [], conn := none, priv := priv }

/-- The constructor `sr_probe_new` (allocation succeeding): zeroed structure, then index, type,
enabled flag and a copy of the name. -/
def sr_probe_new (index type : Int) (enabled : Bool) (name : Option String) : sr_probe :=
  { index := index, type := type, enabled := enabled, name := name, trigger := none }

/-- The scan loop shared by the three probe setters of `device.c`:
walk the list, apply `upd` to the first probe whose index is `probenum` and
stop; `SR_ERR_ARG` when the end of the list is reached. -/
def probe_scan (upd : sr_probe → sr_probe) (probenum : Int) : List sr_probe → Int × List sr_probe
  | [] => (SR_ERR_ARG, [])
  | p :: l =>
    if p.index = probenum then (SR_OK, upd p :: l)
    else ((probe_scan upd probenum l).1, p :: (probe_scan upd probenum l).2)

/-- The setter `sr_dev_probe_name_set`: a `NULL` device is an argument error; otherwise
the first probe with index `probenum` gets a copy of `name`. -/
def sr_dev_probe_name_set {α : Type} (sdi : Option (sr_dev_inst α)) (probenum : Int)
    (name : Option String) : Int × Option (sr_dev_inst α) :=
  match sdi with
  | none => (SR_ERR_ARG, none)
  | some d =>
    ((probe_scan (fun p => { p with name := name }) probenum d.probes).1,
     some { d with probes := (probe_scan (fun p => { p with name := name }) probenum d.probes).2 })

/-- The setter `sr_dev_probe_enable`: a `NULL` device is an argument error; otherwise
the first probe with index `probenum` gets the enabled flag `state`. -/
def sr_dev_probe_enable {α : Type} (sdi : Option (sr_dev_inst α)) (probenum : Int)
    (state : Bool) : Int × Option (sr_dev_inst α) :=
  match sdi with
  | none => (SR_ERR_ARG, none)
  | some d =>
    ((probe_scan (fun p => { p with enabled := state }) probenum d.probes).1,
     some { d with probes := (probe_scan (fun p => { p with enabled := state }) probenum d.probes).2 })

/-- The setter `sr_dev_trigger_set`: a `NULL` device is an argument error; otherwise the
first probe with index `probenum` has its trigger freed and replaced by a copy
of `trigger`. -/
def sr_dev_trigger_set {α : Type} (sdi : Option (sr_dev_inst α)) (probenum : Int)
    (trigger : Option String) : Int × Option (sr_dev_inst α) :=
  match sdi with
  | none => (SR_ERR_ARG, none)
  | some d =>
    ((probe_scan (fun p => { p with trigger := trigger }) probenum d.probes).1,
     some { d with probes := (probe_scan (fun p => { p with trigger := trigger }) probenum d.probes).2 })

/-- Modelled from the spec: a probe group, `struct sr_probe_group` of the
absent public header: a name and the probes it groups. -/
structure sr_probe_group where
  name : String
  probes : List sr_probe
  deriving DecidableEq, Repr

/-- A driver descriptor, `struct sr_dev_driver`, with the members the
configuration wrappers use: the name and the function pointers `config_get`,
`config_set` and `config_list` (`none`: `NULL`). A get or list function gives
its code and the value it stores in `*data` (`none`: nothing stored); a set
function gives its code and the device after the call (`none`: the call does
not return). -/
structure sr_dev_driver (D α : Type) where
  name : String
  config_get :
    Option (Int → Option (sr_dev_inst α) → Option sr_probe_group → Int × Option (GVariant D))
  config_set :
    Option (Int → GVariant D → sr_dev_inst α → Option sr_probe_group →
      Option (Int × sr_dev_inst α))
  config_list :
    Option (Int → Option (sr_dev_inst α) → Option sr_probe_group → Int × Option (GVariant D))

/-- A call through one of the function pointers of a driver descriptor, with
the arguments passed. -/
inductive driver_call (D α : Type) where
  | config_get (key : Int) (sdi : Option (sr_dev_inst α)) (probe_group : Option sr_probe_group)
  | config_set (key : Int) (data : GVariant D) (sdi : sr_dev_inst α)
      (probe_group : Option sr_probe_group)
  | config_list (key : Int) (sdi : Option (sr_dev_inst α)) (probe_group : Option sr_probe_group)

/-- The query `sr_dev_has_option(sdi, key)` of `device.c`. `drivers` is what the driver
pointer of a device instance points to, `uninit` what the local `gvar` holds
when the driver stores nothing. FALSE for a `NULL` device, a device without
driver, a driver without `config_list` and a device-options query that does not
give `SR_OK`; otherwise the search for `key` in the int32 array. -/
def sr_dev_has_option {D α : Type} (drivers : String → sr_dev_driver D α) (uninit : GVariant D)
    (sdi : Option (sr_dev_inst α)) (key : Int) : Bool :=
  match sdi with
  | none => false
  | some d =>
    match d.driver with
    | none => false
    | some n =>
      match (drivers n).config_list with
      | none => false
      | some f =>
        if (f SR_CONF_DEVICE_OPTIONS none none).1 ≠ SR_OK then false
        else
          ((g_variant_get_fixed_array_int32
            ((f SR_CONF_DEVICE_OPTIONS none none).2.getD uninit)).any fun o => o = key)

/-! ## The configuration wrappers (`hwdriver.c`) -/

/-- What `*data` holds after a driver function ran: the value stored by the
function, and the previous content when it stored nothing. -/
def data_after {D : Type} (stored slot : Option (GVariant D)) : Option (GVariant D) :=
  match stored with
  | some v => some v
  | none => slot

/-- The wrapper `sr_config_get(driver, sdi, probe_group, key, data)`. `data` is the pointer
argument (`none`: `NULL`) with what it points to. The result is the code, what
`*data` holds afterwards and the calls made through the descriptor. -/
def sr_config_get {D α : Type} (driver : Option (sr_dev_driver D α))
    (sdi : Option (sr_dev_inst α)) (probe_group : Option sr_probe_group) (key : Int)
    (data : Option (Option (GVariant D))) :
    Int × Option (Option (GVariant D)) × List (driver_call D α) :=
  match driver, data with
  | none, _ => (SR_ERR, data, [])
  | some _, none => (SR_ERR, data, [])
  | some drv, some slot =>
    match drv.config_get with
    | none => (SR_ERR_ARG, data, [])
    | some f =>
      ((f key sdi probe_group).1,
        some (data_after (f key sdi probe_group).2 slot),
        [driver_call.config_get key sdi probe_group])

/-- The wrapper `sr_config_set(sdi, probe_group, key, data)`. `drivers` is what the driver
pointer of a device instance points to. The result is the code, the device
afterwards and the calls made through the descriptor; `none`: the call does not
return. -/
def sr_config_set {D α : Type} (drivers : String → sr_dev_driver D α)
    (sdi : Option (sr_dev_inst α)) (probe_group : Option sr_probe_group) (key : Int)
    (data : Option (GVariant D)) :
    Option (Int × Option (sr_dev_inst α) × List (driver_call D α)) :=
  match sdi, data with
  | none, _ => some (SR_ERR, sdi, [])
  | some d, none => some (SR_ERR, some d, [])
  | some d, some v =>
    match d.driver with
    | none => some (SR_ERR, some d, [])
    | some n =>
      match (drivers n).config_set with
      | none => some (SR_ERR_ARG, some d, [])
      | some f =>
        (f key v d probe_group).map fun r =>
          (r.1, some r.2, [driver_call.config_set key v d probe_group])

/-- The wrapper `sr_config_list(driver, sdi, probe_group, key, data)`, with the same conventions
as `sr_config_get`. -/
def sr_config_list {D α : Type} (driver : Option (sr_dev_driver D α))
    (sdi : Option (sr_dev_inst α)) (probe_group : Option sr_probe_group) (key : Int)
    (data : Option (Option (GVariant D))) :
    Int × Option (Option (GVariant D)) × List (driver_call D α) :=
  match driver, data with
  | none, _ => (SR_ERR, data, [])
  | some _, none => (SR_ERR, data, [])
  | some drv, some slot =>
    match drv.config_list with
    | none => (SR_ERR_ARG, data, [])
    | some f =>
      ((f key sdi probe_group).1,
        some (data_after (f key sdi probe_group).2 slot),
        [driver_call.config_list key sdi probe_group])

/-! ## The catalog of configuration keys (`hwdriver.c`) -/

/-- Modelled from the spec: a catalog entry, `struct sr_config_info` of the
absent public header, "{integer key, semantic type, name}": key, data type,
id, name and description, in the order of the initialisers of
`sr_config_info_data[]` (`none`: `NULL`). -/
structure sr_config_info where
  key : Int
  datatype : Int
  id : Option String
  name : Option String
  description : Option String
  deriving DecidableEq, Repr

/-- The table `sr_config_info_data[]`, with its terminating entry of key 0. -/
def sr_config_info_data : List sr_config_info :=
  [⟨SR_CONF_CONN, SR_T_CHAR, some "conn", some "Connection", none⟩,
   ⟨SR_CONF_SERIALCOMM, SR_T_CHAR, some "serialcomm", some "Serial communication", none⟩,
   ⟨SR_CONF_SAMPLERATE, SR_T_UINT64, some "samplerate", some "Sample rate", none⟩,
   ⟨ SR_CONF_CAPTURE_RATIO, SR_T_UINT64, some "captureratio", some "Pre-trigger capture ratio",
     none⟩,
   ⟨SR_CONF_PATTERN_MODE, SR_T_CHAR, some "pattern", some "Pattern generator mode", none⟩,
   ⟨SR_CONF_TRIGGER_TYPE, SR_T_CHAR, some "triggertype", some "Trigger types", none⟩,
   ⟨SR_CONF_EXTERNAL_CLOCK, SR_T_BOOL, some "external_clock", some "External clock mode", none⟩,
   ⟨SR_CONF_SWAP, SR_T_BOOL, some "swap", some "Swap channel order", none⟩,
   ⟨SR_CONF_RLE, SR_T_BOOL, some "rle", some "Run Length Encoding", none⟩,
   ⟨SR_CONF_TRIGGER_SLOPE, SR_T_UINT64, some "triggerslope", some "Trigger slope", none⟩,
   ⟨SR_CONF_TRIGGER_SOURCE, SR_T_CHAR, some "triggersource", some "Trigger source", none⟩,
   ⟨SR_CONF_HORIZ_TRIGGERPOS, SR_T_FLOAT, some "horiz_triggerpos",
     some "Horizontal trigger position", none⟩,
   ⟨SR_CONF_BUFFERSIZE, SR_T_UINT64, some "buffersize", some "Buffer size", none⟩,
   ⟨SR_CONF_TIMEBASE, SR_T_RATIONAL_PERIOD, some "timebase", some "Time base", none⟩,
   ⟨SR_CONF_FILTER, SR_T_CHAR, some "filter", some "Filter targets", none⟩,
   ⟨SR_CONF_VDIV, SR_T_RATIONAL_VOLT, some "vdiv", some "Volts/div", none⟩,
   ⟨SR_CONF_COUPLING, SR_T_CHAR, some "coupling", some "Coupling", none⟩,
   ⟨SR_CONF_DATALOG, SR_T_BOOL, some "datalog", some "Datalog", none⟩,
   ⟨SR_CONF_SPL_WEIGHT_FREQ, SR_T_CHAR, some "spl_weight_freq",
     some "Sound pressure level frequency weighting", none⟩,
   ⟨SR_CONF_SPL_WEIGHT_TIME, SR_T_CHAR, some "spl_weight_time",
     some "Sound pressure level time weighting", none⟩,
   ⟨SR_CONF_HOLD_MAX, SR_T_BOOL, some "hold_max", some "Hold max", none⟩,
   ⟨SR_CONF_HOLD_MIN, SR_T_BOOL, some "hold_min", some "Hold min", none⟩,
   ⟨SR_CONF_SPL_MEASUREMENT_RANGE, SR_T_UINT64_RANGE, some "spl_meas_range",
     some "Sound pressure level measurement range", none⟩,
   ⟨SR_CONF_VOLTAGE_THRESHOLD, SR_T_DOUBLE_RANGE, some "voltage_threshold",
     some "Voltage threshold", none⟩,
   ⟨SR_CONF_POWER_OFF, SR_T_BOOL, some "power_off", some "Power off", none⟩,
   ⟨SR_CONF_DATA_SOURCE, SR_T_CHAR, some "data_source", some "Data source", none⟩,
   ⟨SR_CONF_NUM_LOGIC_PROBES, SR_T_INT32, some "logic_probes", some "Number of logic probes",
     none⟩,
   ⟨SR_CONF_NUM_ANALOG_PROBES, SR_T_INT32, some "analog_probes",
     some "Number of analog probes", none⟩,
   ⟨0, 0, none, none, none⟩]

/-- The loop `for (i = 0; sr_config_info_data[i].key; i++)` shared by the two lookups, over the
entries from index `i` on: it ends without result at the first entry of key
0, and returns the index of the first entry before it that passes the test
(the pointer returned is the address of that entry). The end of the list is
not reached, the table ending with an entry of key 0. -/
def config_info_scan (test : sr_config_info → Bool) : List sr_config_info → Nat → Option Nat
  | [], _ => none
  | e :: l, i =>
    if e.key = 0 then none
    else if test e then some i
    else config_info_scan test l (i + 1)

/-- The lookup `sr_config_info_get(key)`: the index of the entry returned, `none` for `NULL`. -/
def sr_config_info_get (key : Int) : Option Nat :=
  config_info_scan (fun e => e.key = key) sr_config_info_data 0

/-- The lookup `sr_config_info_name_get(optname)`, with the test `!strcmp(id, optname)`: the index of the
entry returned, `none` for `NULL`. -/
def sr_config_info_name_get (optname : String) : Option Nat :=
  config_info_scan (fun e => e.id = some optname) sr_config_info_data 0

/-! ## Datafeed packets -/

/-- A datafeed packet as the consumer sees it. A logic packet carries its
length in bytes, its unit size and the sample units it points to. -/
inductive sr_datafeed_packet where
  | SR_DF_HEADER
  | SR_DF_END
  | SR_DF_TRIGGER
  | SR_DF_LOGIC (length unitsize : Nat) (data : List Nat)
  | SR_DF_FRAME_BEGIN
  | SR_DF_FRAME_END
  deriving DecidableEq, Repr

export sr_datafeed_packet (SR_DF_HEADER SR_DF_END SR_DF_TRIGGER SR_DF_LOGIC)

/-! ## The ASIX Sigma driver (`hardware/asix-sigma/asix-sigma.c`) -/

namespace Sigma

/-- The supported samplerates, the table `samplerates[]`. -/
def samplerates : List Nat :=
  [SR_KHZ 200, SR_KHZ 250, SR_KHZ 500, SR_MHZ 1, SR_MHZ 5, SR_MHZ 10, SR_MHZ 25, SR_MHZ 50,
   SR_MHZ 100, SR_MHZ 200]

/-- The probe names, the table `probe_names[]` up to its `NULL` terminator. -/
def probe_names : List String :=
  ["1", "2", "3", "4", "5", "6", "7", "8", "9", "10", "11", "12", "13", "14", "15", "16"]

/-- The device options, the table `hwcaps[]`. -/
def hwcaps : List Int :=
  [SR_CONF_LOGIC_ANALYZER, SR_CONF_SAMPLERATE, SR_CONF_CAPTURE_RATIO, SR_CONF_LIMIT_MSEC]

/-- Modelled from the spec: `asix-sigma.h` is not among the sources. "chunks of
64 clusters", and the comment of `decode_chunk_ts`: "chunk of 1024 bytes,
64 clusters, 7 events per cluster". -/
abbrev CHUNK_SIZE : Nat := 1024
/-- Modelled from the spec: events per cluster, see `CHUNK_SIZE`. -/
abbrev EVENTS_PER_CLUSTER : Nat := 7
/-- Modelled from the spec: bit number of the first LED selector in the
trigger-select register (value of the absent `asix-sigma.h`). -/
abbrev LEDSEL0 : Nat := 6
/-- Modelled from the spec: bit number of the second LED selector in the
trigger-select register (value of the absent `asix-sigma.h`). -/
abbrev LEDSEL1 : Nat := 7

/-- Modelled from the spec: the write registers the driver names (the
enumeration is in the absent `asix-sigma.h`). -/
inductive sigma_write_register where
  | WRITE_CLOCK_SELECT
  | WRITE_TRIGGER_SELECT0
  | WRITE_TRIGGER_SELECT1
  | WRITE_MODE
  | WRITE_MEMROW
  | WRITE_POST_TRIGGER
  | WRITE_TRIGGER_OPTION
  deriving DecidableEq, Repr

export sigma_write_register (WRITE_CLOCK_SELECT WRITE_TRIGGER_SELECT0 WRITE_TRIGGER_SELECT1
  WRITE_MODE WRITE_MEMROW WRITE_POST_TRIGGER WRITE_TRIGGER_OPTION)

/-- Modelled from the spec: the trigger configuration `struct sigma_trigger`
(absent `asix-sigma.h`), four 16-bit masks as `configure_probes` and
`get_trigger_offset` use them. -/
structure sigma_trigger where
  risingmask : Nat
  fallingmask : Nat
  simplemask : Nat
  simplevalue : Nat
  deriving DecidableEq, Repr

/-- Modelled from the spec: the acquisition states of `struct sigma_state`
(absent `asix-sigma.h`). -/
inductive sigma_acq_state where
  | SIGMA_UNINITIALIZED
  | SIGMA_IDLE
  | SIGMA_CAPTURE
  | SIGMA_DOWNLOAD
  deriving DecidableEq, Repr

export sigma_acq_state (SIGMA_UNINITIALIZED SIGMA_IDLE SIGMA_CAPTURE SIGMA_DOWNLOAD)

/-- Modelled from the spec: `struct sigma_state` (absent `asix-sigma.h`):
32-bit positions, 16-bit last timestamp and sample, `int` chunk counters. -/
structure sigma_state where
  state : sigma_acq_state
  stoppos : Nat
  triggerpos : Nat
  lastts : Nat
  lastsample : Nat
  triggerchunk : Int
  chunks_downloaded : Int
  deriving DecidableEq, Repr

/-- The C structure `struct timeval`. -/
structure timeval where
  tv_sec : Int
  tv_usec : Int
  deriving DecidableEq, Repr

/-- Modelled from the spec: the driver-private context `struct dev_context`
(absent `asix-sigma.h`), with the fields `asix-sigma.c` reads and writes.
`ftdic_open` stands for the FTDI context: whether its USB device is open. -/
structure dev_context where
  ftdic_open : Bool
  cur_samplerate : Nat
  period_ps : Nat
  limit_msec : Nat
  start_tv : timeval
  cur_firmware : Int
  num_probes : Int
  samples_per_event : Int
  capture_ratio : Int
  trigger : sigma_trigger
  use_triggers : Int
  state : sigma_state
  cb_data : Nat
  deriving DecidableEq, Repr

/-- Modelled from the spec: the parameter block of `struct triggerlut`
(absent `asix-sigma.h`). -/
structure triggerlut_params where
  selc : Nat
  selpresc : Nat
  selinc : Nat
  selres : Nat
  sela : Nat
  selb : Nat
  cmpb : Nat
  cmpa : Nat
  deriving DecidableEq, Repr

/-- Modelled from the spec: the trigger look-up tables `struct triggerlut`
(absent `asix-sigma.h`); `m0d`, `m1d`, `m2d` have four 16-bit entries. -/
structure triggerlut where
  m0d : List Nat
  m1d : List Nat
  m2d : List Nat
  m3 : Nat
  m3s : Nat
  m4 : Nat
  params : triggerlut_params
  deriving DecidableEq, Repr

/-- What a register write carries: plain bytes, or one of the structures the
driver sends as raw memory (their layout is in the absent header, so they are
kept as structures). -/
inductive reg_data where
  | bytes (l : List Nat)
  | triggerinout (trgout_bytrigger trgout_enable : Nat)
  | clockselect_50 (async fraction disabled_probes : Nat)
  | lut_params (p : triggerlut_params)
  deriving DecidableEq, Repr

/-- Everything the driver does to the outside, in program order. -/
inductive Event where
  | send (p : sr_datafeed_packet)
  | write_register (reg : sigma_write_register) (data : reg_data)
  | ftdi_write (data : List Nat)
  | firmware_write (firmware_idx : Int)
  | read_pos
  | read_mode
  | read_dram (startchunk numchunks : Nat)
  | source_add (fd : Int) (timeout : Int)
  | source_remove (fd : Int)
  | ftdi_usb_close
  deriving DecidableEq, Repr

/-- The datafeed packets of a trace. -/
def packets : List Event → List sr_datafeed_packet
  | [] => []
  | Event.send p :: l => p :: packets l
  | _ :: l => packets l

/-- The event-source registrations of a trace. -/
def sources_added : List Event → List Event
  | [] => []
  | Event.source_add fd t :: l => Event.source_add fd t :: sources_added l
  | _ :: l => sources_added l

/-- The call `sigma_set_register(reg, value)`: a register write of one byte. -/
def sigma_set_register (reg : sigma_write_register) (value : Nat) : Event :=
  Event.write_register reg (reg_data.bytes [value % 256])

/-- The array `suicide[]`: force the FPGA to reboot. -/
def suicide : List Nat := [0x84, 0x84, 0x88, 0x84, 0x88, 0x84, 0x88, 0x84]
/-- The array `init_array[]`: prepare to upload firmware. -/
def init_array : List Nat := [0x03, 0x03, 0x01, 0x01, 0x01, 0x01, 0x01, 0x01, 0x01]
/-- The array `logic_mode_start[]`: initialize the logic analyzer mode. -/
def logic_mode_start : List Nat :=
  [0x00, 0x40, 0x0f, 0x25, 0x35, 0x40, 0x2a, 0x3a, 0x40, 0x03, 0x20, 0x38]

/-- What the outside answers during one `upload_firmware` call: the return
values of the FTDI calls, the byte seen after each one-byte read while waiting
for INIT_B, the return code of `bin2bitbang` (which reads the firmware file),
the return values of the one-byte reads that discard garbage, and the reply
to `logic_mode_start`. -/
structure fw_io where
  usb_open_desc : Int
  set_bitmode_bitbang : Int
  set_baudrate : Int
  initb_reads : List Nat
  bin2bitbang_ret : Int
  set_bitmode_reset : Int
  garbage_reads : List Int
  reply_ret : Int
  reply : List Nat

/-- The loop "wait until the FPGA asserts INIT_B": `true` when one of the
bytes read has bit `0x20`; `false` when the device never sends one (the loop
does not end). -/
def wait_init_b : List Nat → Bool
  | [] => false
  | r :: rs => if r % 256 &&& 0x20 ≠ 0 then true else wait_init_b rs

/-- The loop "discard garbage": reads while a read returns 1; `false` when
every read returns 1 (the loop does not end). -/
def discard_garbage : List Int → Bool
  | [] => false
  | r :: rs => if r = 1 then discard_garbage rs else true

/-- The function `upload_firmware(firmware_idx, devc)`. `none`: the call does not return
(one of its two polling loops never ends). Returns the code, the context and
the trace. -/
def upload_firmware (fw : fw_io) (firmware_idx : Int) (devc : dev_context) :
    Option (Int × dev_context × List Event) :=
  if fw.usb_open_desc < 0 then some (0, devc, [])
  else
    let devc1 := { devc with ftdic_open := true }
    if fw.set_bitmode_bitbang < 0 then some (0, devc1, [])
    else if fw.set_baudrate < 0 then some (0, devc1, [])
    else
      let t1 := [Event.ftdi_write suicide, Event.ftdi_write suicide, Event.ftdi_write suicide,
                 Event.ftdi_write suicide, Event.ftdi_write init_array]
      if wait_init_b fw.initb_reads = false then none
      else if fw.bin2bitbang_ret ≠ SR_OK then some (fw.bin2bitbang_ret, devc1, t1)
      else
        let t2 := t1 ++ [Event.firmware_write firmware_idx]
        if fw.set_bitmode_reset < 0 then some (SR_ERR, devc1, t2)
        else if discard_garbage fw.garbage_reads = false then none
        else
          let t3 := t2 ++ [Event.ftdi_write logic_mode_start]
          if fw.reply_ret ≠ 3 ∨ fw.reply.getD 0 0 % 256 ≠ 0xa6 ∨ fw.reply.getD 1 0 % 256 ≠ 0x55
              ∨ fw.reply.getD 2 0 % 256 ≠ 0xaa then
            some (SR_ERR, devc1, t3)
          else some (SR_OK, { devc1 with cur_firmware := firmware_idx }, t3)

/-- The function `dev_open`: open the FTDI device; on failure `return 0`, on success the
status becomes Active. `usb_open_desc` is the return value of
`ftdi_usb_open_desc`. -/
def dev_open (usb_open_desc : Int) (sdi : sr_dev_inst dev_context) :
    Int × sr_dev_inst dev_context :=
  if usb_open_desc < 0 then (0, sdi)
  else (SR_OK, { sdi with status := SR_ST_ACTIVE, priv := { sdi.priv with ftdic_open := true } })

/-- The search loop of `set_samplerate`: the first index `i` with
`samplerates[i] == samplerate`, and `ARRAY_SIZE(samplerates)` when there is
none. -/
def samplerate_index (samplerate : Nat) : Nat :=
  samplerates.findIdx (fun r => r == samplerate)

/-- The read `samplerates[i]`. The table has ten entries; `past` is the 64-bit word that
follows it in memory, which is what the read at index 10 yields. -/
def samplerates_at (past : Nat) (i : Nat) : Nat :=
  samplerates.getD i past

/-- The function `set_samplerate(sdi, samplerate)` on the device context. `none`: the call does not return
(a polling loop of `upload_firmware` never ends, or a division by zero
traps). -/
def set_samplerate (past : Nat) (fw : fw_io) (devc : dev_context) (samplerate : Nat) :
    Option (Int × dev_context × List Event) :=
  if samplerates_at past (samplerate_index samplerate) = 0 then
    some (SR_ERR_SAMPLERATE, devc, [])
  else
    let r1 : Option (Int × dev_context × List Event) :=
      if samplerate ≤ SR_MHZ 50 then
        (upload_firmware fw 0 devc).map
          fun r => (r.1, { r.2.1 with num_probes := 16 }, r.2.2)
      else some (SR_OK, devc, [])
    let r2 : Option (Int × dev_context × List Event) :=
      r1.bind fun r =>
        if samplerate = SR_MHZ 100 then
          (upload_firmware fw 1 r.2.1).map
            fun q => (q.1, { q.2.1 with num_probes := 8 }, r.2.2 ++ q.2.2)
        else if samplerate = SR_MHZ 200 then
          (upload_firmware fw 2 r.2.1).map
            fun q => (q.1, { q.2.1 with num_probes := 4 }, r.2.2 ++ q.2.2)
        else some r
    r2.bind fun r =>
      if samplerate = 0 then none
      else if r.2.1.num_probes = 0 then none
      else
        some (r.1,
          { r.2.1 with
            cur_samplerate := samplerate
            period_ps := 1000000000000 / samplerate
            samples_per_event := Int.tdiv 16 r.2.1.num_probes
            state := { r.2.1.state with state := SIGMA_IDLE } },
          r.2.2)

/-- The first character `trigger[0]` of a trigger string (the terminating NUL for the
empty string). -/
def trigger0 (s : String) : Char := s.data.headD (Char.ofNat 0)

/-- The loop of `configure_probes` over the probe list, from the current
trigger configuration `t`, `use_triggers` flag `u` and counter `trigger_set`.
Returns the code, the trigger configuration and the flag. Probe indices are
taken non-negative, as `sr_probe_new` is called with them. -/
def configure_probes_loop (cur_samplerate : Nat) :
    List sr_probe → sigma_trigger → Int → Int → Int × sigma_trigger × Int
  | [], t, u, _ => (SR_OK, t, u)
  | probe :: l, t, u, trigger_set =>
    let probebit : Nat := 1 <<< probe.index.toNat
    match probe.enabled, probe.trigger with
    | true, some trig =>
      if cur_samplerate ≥ SR_MHZ 100 then
        if trigger_set ≠ 0 then (SR_ERR, t, u)
        else if trigger0 trig = 'f' then
          configure_probes_loop cur_samplerate l
            { t with fallingmask := (t.fallingmask ||| probebit) % 65536 } 1 (trigger_set + 1)
        else if trigger0 trig = 'r' then
          configure_probes_loop cur_samplerate l
            { t with risingmask := (t.risingmask ||| probebit) % 65536 } 1 (trigger_set + 1)
        else (SR_ERR, t, u)
      else
        let r : sigma_trigger × Int :=
          if trigger0 trig = '1' then
            ({ t with simplevalue := (t.simplevalue ||| probebit) % 65536,
                      simplemask := (t.simplemask ||| probebit) % 65536 }, trigger_set)
          else if trigger0 trig = '0' then
            ({ t with simplevalue := t.simplevalue &&& (65535 ^^^ (probebit % 65536)),
                      simplemask := (t.simplemask ||| probebit) % 65536 }, trigger_set)
          else if trigger0 trig = 'f' then
            ({ t with fallingmask := (t.fallingmask ||| probebit) % 65536 }, trigger_set + 1)
          else if trigger0 trig = 'r' then
            ({ t with risingmask := (t.risingmask ||| probebit) % 65536 }, trigger_set + 1)
          else (t, trigger_set)
        if r.2 > 1 then (SR_ERR, r.1, u)
        else configure_probes_loop cur_samplerate l r.1 (if r.2 ≠ 0 then 1 else u) r.2
    | _, _ => configure_probes_loop cur_samplerate l t u trigger_set

/-- The function `configure_probes(sdi)`: clear the trigger configuration, then run the loop. -/
def configure_probes (sdi : sr_dev_inst dev_context) : Int × sr_dev_inst dev_context :=
  let r := configure_probes_loop sdi.priv.cur_samplerate sdi.probes
    { risingmask := 0, fallingmask := 0, simplemask := 0, simplevalue := 0 }
    sdi.priv.use_triggers 0
  (r.1, { sdi with priv := { sdi.priv with trigger := r.2.1, use_triggers := r.2.2 } })

/-- The first character of the trigger spec of a probe the loop of
`configure_probes` looks at: an enabled probe with a trigger string; `none` for
a probe the loop skips (disabled, or trigger `NULL`). -/
def trigger_char (p : sr_probe) : Option Char :=
  match p.enabled, p.trigger with
  | true, some trig => some (trigger0 trig)
  | _, _ => none

/-- The function `dev_close`: close the FTDI device when the status is Active; the status
becomes Inactive; `SR_OK`. -/
def dev_close (sdi : sr_dev_inst dev_context) : Int × sr_dev_inst dev_context × List Event :=
  if sdi.status = SR_ST_ACTIVE then
    (SR_OK, { sdi with status := SR_ST_INACTIVE, priv := { sdi.priv with ftdic_open := false } },
      [Event.ftdi_usb_close])
  else (SR_OK, { sdi with status := SR_ST_INACTIVE }, [])

/-- The function `config_get(id, data, sdi, probe_group)`: the code and the value stored in
`*data` (`none` when nothing is stored). -/
def config_get {D : Type} (id : Int) (sdi : Option (sr_dev_inst dev_context)) :
    Int × Option (GVariant D) :=
  if id = SR_CONF_SAMPLERATE then
    match sdi with
    | some d => (SR_OK, some (GVariant.uint64 d.priv.cur_samplerate))
    | none => (SR_ERR, none)
  else (SR_ERR_NA, none)

/-- Conversion of a 64-bit unsigned value to a 32-bit `int`. -/
def int_of_uint64 (v : Nat) : Int :=
  if v % 2 ^ 32 < 2 ^ 31 then (v % 2 ^ 32 : Nat) else (v % 2 ^ 32 : Nat) - 2 ^ 32

/-- The function `config_set(id, data, sdi, probe_group)`. `past` and `fw` are what
`set_samplerate` gets from the outside. `none`: the call does not return. -/
def config_set {D : Type} (past : Nat) (fw : fw_io) (id : Int) (data : GVariant D)
    (sdi : sr_dev_inst dev_context) : Option (Int × sr_dev_inst dev_context × List Event) :=
  if sdi.status ≠ SR_ST_ACTIVE then some (SR_ERR_DEV_CLOSED, sdi, [])
  else if id = SR_CONF_SAMPLERATE then
    (set_samplerate past fw sdi.priv (g_variant_get_uint64 data)).map
      fun r => (r.1, { sdi with priv := r.2.1 }, r.2.2)
  else if id = SR_CONF_LIMIT_MSEC then
    some (if g_variant_get_uint64 data > 0 then SR_OK else SR_ERR,
      { sdi with priv := { sdi.priv with limit_msec := g_variant_get_uint64 data } }, [])
  else if id = SR_CONF_CAPTURE_RATIO then
    some (if int_of_uint64 (g_variant_get_uint64 data) < 0
            ∨ int_of_uint64 (g_variant_get_uint64 data) > 100 then SR_ERR else SR_OK,
      { sdi with priv :=
          { sdi.priv with capture_ratio := int_of_uint64 (g_variant_get_uint64 data) } }, [])
  else some (SR_ERR_NA, sdi, [])

/-- The trigger types the driver announces, the constant `TRIGGER_TYPE`. -/
def TRIGGER_TYPE : String := "rf10"

/-- The function `config_list(key, data, sdi, probe_group)`; device and probe group are
not used. The code and the value stored in `*data` (`none` when nothing is
stored). -/
def config_list {D : Type} (key : Int) : Int × Option (GVariant D) :=
  if key = SR_CONF_DEVICE_OPTIONS then (SR_OK, some (GVariant.fixed_array_int32 hwcaps))
  else if key = SR_CONF_SAMPLERATE then
    (SR_OK, some (GVariant.vardict [("samplerates", samplerates)]))
  else if key = SR_CONF_TRIGGER_TYPE then (SR_OK, some (GVariant.string TRIGGER_TYPE))
  else (SR_ERR_NA, none)

/-- The driver descriptor `asix_sigma_driver_info`: name and the three configuration
functions. `past` and `fw` are what `config_set` gets from the outside. -/
def asix_sigma_driver_info {D : Type} (past : Nat) (fw : fw_io) : sr_dev_driver D dev_context :=
  { name := "asix-sigma",
    config_get := some fun key sdi _ => config_get key sdi,
    config_set := some fun key data sdi _ =>
      (config_set past fw key data sdi).map fun r => (r.1, r.2.1),
    config_list := some fun key _ _ => config_list key }

/-- The loop of `get_trigger_offset` with `k` iterations left, at index `i`. -/
def get_trigger_offset_loop (samples : Nat → Nat) (t : sigma_trigger) :
    Nat → Nat → Nat → Nat
  | 0, i, _ => i
  | k + 1, i, last_sample =>
    let last := if i > 0 then samples (i - 1) else last_sample
    if samples i &&& t.simplemask ≠ t.simplevalue then
      get_trigger_offset_loop samples t k (i + 1) last
    else if last &&& t.risingmask ≠ 0 ∨ samples i &&& t.risingmask ≠ t.risingmask then
      get_trigger_offset_loop samples t k (i + 1) last
    else if last &&& t.fallingmask ≠ t.fallingmask ∨ samples i &&& t.fallingmask ≠ 0 then
      get_trigger_offset_loop samples t k (i + 1) last
    else i

/-- The software trigger `get_trigger_offset(samples, last_sample, t)`: the loop over `i = 0..7`, and
`i & 0x7` of the index it stops at. -/
def get_trigger_offset (samples : Nat → Nat) (last_sample : Nat) (t : sigma_trigger) : Nat :=
  get_trigger_offset_loop samples t 8 0 last_sample &&& 0x7

/-- A 16-bit read `*(uint16_t *)&buf[off]` on the (little-endian) host; the same as
the macro `RL16`. -/
def RL16 (buf : Nat → Nat) (off : Nat) : Nat :=
  buf off % 256 + 256 * (buf (off + 1) % 256)

/-- The innermost loop of `decode_chunk_ts`, "for each probe": the sample
number `k` of the event `ev`. -/
def decode_sample (devc : dev_context) (ev : Nat) (k : Nat) : Nat :=
  (List.range devc.num_probes.toNat).foldl
    (fun cur l =>
      (cur ||| ((if Nat.testBit ev (l * devc.samples_per_event.toNat + k) then 1 else 0) <<< l))
        % 65536) 0

/-- A logic packet over `tosend` units of `samples` starting at `sent`
(`unitsize` 2, `length` in bytes). -/
def logic_packet (samples : Nat → Nat) (sent tosend : Nat) : Event :=
  Event.send (SR_DF_LOGIC (tosend * 2) 2 ((List.range tosend).map fun j => samples (sent + j)))

/-- The loop `while (sent < n)` of `decode_chunk_ts`, in segments of at
most 2048 units; `fuel` bounds the number of iterations. -/
def send_pending (samples : Nat → Nat) : Nat → Nat → Nat → List Event
  | 0, _, _ => []
  | fuel + 1, sent, n =>
    if sent < n then
      logic_packet samples sent (min 2048 (n - sent))
        :: send_pending samples fuel (sent + min 2048 (n - sent)) n
    else []

/-- The variables `decode_chunk_ts` carries from one cluster to the next:
`*lastts`, `*lastsample`, the array `samples`, the count `n`, and the trace so
far. -/
structure decode_state where
  lastts : Nat
  lastsample : Nat
  samples : Nat → Nat
  n : Nat
  out : List Event

/-- The number `numpad` of `decode_chunk_ts` for a cluster with timestamp
`ts` decoded after the timestamp `lastts`: `tsdiff * samples_per_event -
clustersize`, with the 16-bit difference `tsdiff = ts - *lastts`. -/
def numpad (devc : dev_context) (ts lastts : Nat) : Int :=
  ((wrap_sub16 ts lastts : Nat) : Int) * devc.samples_per_event
    - (EVENTS_PER_CLUSTER : Int) * devc.samples_per_event

/-- The array `samples` after the step "pad last sample up to current
point". -/
def pad_samples (devc : dev_context) (ts : Nat) (st : decode_state) : Nat → Nat :=
  if numpad devc ts st.lastts > 0 then
    fun j => if j < (numpad devc ts st.lastts).toNat then st.lastsample else st.samples j
  else st.samples

/-- The count `n` after the step "pad last sample up to current point": set
to `numpad` when that is positive, and otherwise left as the previous
iteration set it. -/
def pad_n (devc : dev_context) (ts : Nat) (st : decode_state) : Nat :=
  if numpad devc ts st.lastts > 0 then (numpad devc ts st.lastts).toNat else st.n

/-- The array `samples` after the loops "for each event in cluster, for each
sample in event" of cluster `i`, which fill it from index 0. -/
def cluster_samples (devc : dev_context) (buf : Nat → Nat) (i : Nat) (samples : Nat → Nat) :
    Nat → Nat :=
  fun idx =>
    if idx < 7 * devc.samples_per_event.toNat then
      decode_sample devc (RL16 buf (i * 16 + 2 + 2 * (idx / devc.samples_per_event.toNat)))
        (idx % devc.samples_per_event.toNat)
    else samples idx

/-- The packets of the step "send data up to trigger point (if triggered)",
for the offset `tosend` the software trigger returned. -/
def trigger_out (devc : dev_context) (samples : Nat → Nat) (tosend : Nat) : List Event :=
  (if tosend > 0 then [logic_packet samples 0 tosend] else [])
    ++ (if devc.use_triggers ≠ 0 then [Event.send SR_DF_TRIGGER] else [])

/-- The packet of the step "send rest of the chunk to sigrok": `n - sent`
units from `sent` on, when that count is positive. -/
def rest_out (samples : Nat → Nat) (n sent : Nat) : List Event :=
  if (n : Int) - sent > 0 then [logic_packet samples sent (n - sent)] else []

/-- What one iteration of the loop "for each ts" sends, when it does not
return: the pending samples, the data up to the trigger and the Trigger
packet when `i` is the trigger cluster, and the rest of the cluster. -/
def cluster_out (devc : dev_context) (buf : Nat → Nat) (triggerts : Int) (i : Nat)
    (st : decode_state) : List Event :=
  let ts := RL16 buf (i * 16)
  let samples2 := cluster_samples devc buf i (pad_samples devc ts st)
  send_pending (pad_samples devc ts st) (pad_n devc ts st) 0 (pad_n devc ts st)
    ++ (if (i : Int) = triggerts then
          trigger_out devc samples2 (get_trigger_offset samples2 st.lastsample devc.trigger)
            ++ rest_out samples2 (7 * devc.samples_per_event.toNat)
                (get_trigger_offset samples2 st.lastsample devc.trigger)
        else rest_out samples2 (7 * devc.samples_per_event.toNat) 0)

/-- One iteration of the loop "for each ts" of `decode_chunk_ts`, for the
cluster `i`. The flag is `false` when the iteration returns from the function
(partial chunk). `under` is what the read `samples[n - 1]` yields when `n` is
0, a read below the array. -/
def decode_cluster (devc : dev_context) (buf : Nat → Nat) (triggerts : Int) (limit_chunk : Nat)
    (under : Nat) (i : Nat) (st : decode_state) : decode_state × Bool :=
  if limit_chunk ≠ 0 ∧ RL16 buf (i * 16) > limit_chunk then
    ({ st with lastts := RL16 buf (i * 16) }, false)
  else
    ({ lastts := RL16 buf (i * 16)
       lastsample :=
        if 7 * devc.samples_per_event.toNat = 0 then under
        else cluster_samples devc buf i (pad_samples devc (RL16 buf (i * 16)) st)
          (7 * devc.samples_per_event.toNat - 1)
       samples := cluster_samples devc buf i (pad_samples devc (RL16 buf (i * 16)) st)
       n := 7 * devc.samples_per_event.toNat
       out := st.out ++ cluster_out devc buf triggerts i st }, true)

/-- The loop "for each ts" of `decode_chunk_ts` from cluster `i`, with `k`
clusters left. -/
def decode_loop (devc : dev_context) (buf : Nat → Nat) (triggerts : Int) (limit_chunk : Nat)
    (under : Nat) : Nat → Nat → decode_state → decode_state
  | 0, _, st => st
  | k + 1, i, st =>
    if (decode_cluster devc buf triggerts limit_chunk under i st).2 then
      decode_loop devc buf triggerts limit_chunk under k (i + 1)
        (decode_cluster devc buf triggerts limit_chunk under i st).1
    else (decode_cluster devc buf triggerts limit_chunk under i st).1

/-- The cluster of the trigger, `triggerts`, as `decode_chunk_ts` derives it
from `triggerpos` (-1: the trigger is not in this chunk). -/
def trigger_cluster (devc : dev_context) (triggerpos : Int) : Int :=
  if triggerpos ≠ -1 then
    let p1 := if devc.cur_samplerate ≤ SR_MHZ 50 then triggerpos - (EVENTS_PER_CLUSTER - 1)
      else triggerpos
    let p2 := if p1 < 0 then 0 else p1
    Int.tdiv p2 7
  else -1

/-- The function `decode_chunk_ts(buf, lastts, lastsample, triggerpos, limit_chunk, cb_data)`:
the new `*lastts`, the new `*lastsample` and the packets sent. `stack` is the
content of the uninitialised array `samples` at entry, `under` the half-word
below it. -/
def decode_chunk_ts (devc : dev_context) (buf : Nat → Nat) (lastts lastsample : Nat)
    (triggerpos : Int) (limit_chunk : Nat) (stack : Nat → Nat) (under : Nat) :
    Nat × Nat × List Event :=
  let st := decode_loop devc buf (trigger_cluster devc triggerpos) limit_chunk under 64 0
    { lastts := lastts, lastsample := lastsample, samples := stack, n := 0, out := [] }
  (st.lastts, st.lastsample, st.out)

/-- The function `sigma_read_pos(stoppos, triggerpos, devc)` on the six bytes `result[]` the device
answers: the new `*stoppos` and `*triggerpos`. Both are assembled from three
bytes; `--*stoppos` decrements the stop position (32-bit); `*--triggerpos`
moves the local pointer and leaves the trigger position as read; the two
`-= 64` act on the local pointers only. -/
def sigma_read_pos (result : List Nat) : Nat × Nat :=
  (wrap_dec 32
    (result.getD 3 0 % 256 + (result.getD 4 0 % 256) * 256 + (result.getD 5 0 % 256) * 65536),
   result.getD 0 0 % 256 + (result.getD 1 0 % 256) * 256 + (result.getD 2 0 % 256) * 65536)

/-- The function `dev_acquisition_stop(sdi, cb_data)` for a device with a private context: remove the
event source, stop the acquisition, read the positions (`pos`: the reply to
`sigma_read_pos`) and the mode register (`modestatus`), and enter the download
state. -/
def dev_acquisition_stop (pos : List Nat) (modestatus : Nat) (sdi : sr_dev_inst dev_context) :
    Int × sr_dev_inst dev_context × List Event :=
  (SR_OK,
   { sdi with priv := { sdi.priv with state :=
      { sdi.priv.state with
        stoppos := (sigma_read_pos pos).1
        triggerpos := (sigma_read_pos pos).2
        triggerchunk :=
          if modestatus % 256 &&& 0x20 ≠ 0 then (((sigma_read_pos pos).2 / 512 : Nat) : Int)
          else -1
        chunks_downloaded := 0
        state := SIGMA_DOWNLOAD } } },
   [Event.source_remove 0, sigma_set_register WRITE_MODE 0x11, sigma_set_register WRITE_MODE 0x02,
    Event.read_pos, Event.read_mode])

/-- What the outside answers during one `receive_data` call: the reply to the
position read at entry, the clock, the replies to the reads made by
`dev_acquisition_stop`, the content of `buf` after `sigma_read_dram`, and for
the chunk number `i` of this read the initial content of the array `samples`
of `decode_chunk_ts` and the half-word below it. -/
structure rd_io where
  pos : List Nat
  now : timeval
  stop_pos : List Nat
  modestatus : Nat
  dram : Nat → Nat
  stack : Nat → Nat → Nat
  under : Nat → Nat

/-- The loop "decode chunks and send them to sigrok" of `receive_data`, at
chunk `i` of this read with `k` chunks left. -/
def download_loop (io : rd_io) (numchunks : Int) :
    Nat → Nat → dev_context → List Event → dev_context × List Event
  | 0, _, devc, out => (devc, out)
  | k + 1, i, devc, out =>
    let limit_chunk : Int :=
      if devc.state.chunks_downloaded = numchunks - 1 then
        ((devc.state.stoppos % 512 + devc.state.lastts : Nat) : Int)
      else 0
    let triggerpos : Int :=
      if devc.state.chunks_downloaded + i = devc.state.triggerchunk then
        ((devc.state.triggerpos &&& 0x1ff : Nat) : Int)
      else -1
    let r := decode_chunk_ts devc (fun j => io.dram (i * CHUNK_SIZE + j)) devc.state.lastts
      devc.state.lastsample triggerpos (limit_chunk.toNat % 65536) (io.stack i) (io.under i)
    download_loop io numchunks k (i + 1)
      { devc with state :=
        { devc.state with
          lastts := r.1
          lastsample := r.2.1
          chunks_downloaded := devc.state.chunks_downloaded + 1 } }
      (out ++ r.2.2)

/-- The block `if (devc->state.state == SIGMA_DOWNLOAD)` of `receive_data`. -/
def receive_data_download (io : rd_io) (numchunks : Int) (devc : dev_context) :
    dev_context × List Event :=
  if devc.state.state = SIGMA_DOWNLOAD then
    if devc.state.chunks_downloaded ≥ numchunks then
      ({ devc with state := { devc.state with state := SIGMA_IDLE } }, [Event.send SR_DF_END])
    else
      let newchunks : Nat := (min 32 (numchunks - devc.state.chunks_downloaded)).toNat
      let devc1 : dev_context :=
        if devc.state.chunks_downloaded = 0 then
          { devc with state :=
            { devc.state with lastts := wrap_dec 16 (RL16 io.dram 0), lastsample := 0 } }
        else devc
      download_loop io numchunks newchunks 0 devc1
        [Event.read_dram (devc.state.chunks_downloaded.toNat % 65536) newchunks]
  else (devc, [])

/-- The elapsed time `running_msec` of `receive_data`, a 64-bit unsigned
value computed from two `timeval`s. -/
def running_msec (now start : timeval) : Nat :=
  (((now.tv_sec - start.tv_sec) * 1000 + Int.tdiv (now.tv_usec - start.tv_usec) 1000)
    % (2 ^ 64 : Int)).toNat

/-- The callback `receive_data(fd, revents, cb_data)`: the device after the call and the trace
(the return value is always `TRUE`). -/
def receive_data (io : rd_io) (sdi : sr_dev_inst dev_context) :
    sr_dev_inst dev_context × List Event :=
  let sdi0 : sr_dev_inst dev_context :=
    { sdi with priv := { sdi.priv with state :=
      { sdi.priv.state with
        stoppos := (sigma_read_pos io.pos).1, triggerpos := (sigma_read_pos io.pos).2 } } }
  let numchunks : Int := ((((sigma_read_pos io.pos).1 + 511) % 2 ^ 32 / 512 : Nat) : Int)
  if sdi0.priv.state.state = SIGMA_IDLE then (sdi0, [Event.read_pos])
  else if sdi0.priv.state.state = SIGMA_CAPTURE then
    if running_msec io.now sdi0.priv.start_tv < sdi0.priv.limit_msec ∧ numchunks < 32767 then
      (sdi0, [Event.read_pos])
    else
      let r := dev_acquisition_stop io.stop_pos io.modestatus sdi0
      let q := receive_data_download io numchunks r.2.1.priv
      ({ r.2.1 with priv := q.1 }, Event.read_pos :: r.2.2 ++ q.2)
  else
    let q := receive_data_download io numchunks sdi0.priv
    ({ sdi0 with priv := q.1 }, Event.read_pos :: q.2)

/-- The function `build_lut_entry(value, mask, entry)`: the four 16-bit entries. -/
def build_lut_entry (value mask : Nat) : List Nat :=
  (List.range 4).map fun i =>
    (List.range 16).foldl
      (fun entry j =>
        (List.range 4).foldl
          (fun entry k =>
            if (mask &&& (1 <<< (i * 4 + k)) ≠ 0)
                ∧ (decide (value &&& (1 <<< (i * 4 + k)) = 0) ≠ decide (j &&& (1 <<< k) = 0)) then
              entry &&& (0xffff ^^^ (1 <<< j))
            else entry)
          entry)
      0xffff

/-- Modelled from the spec: the trigger operations `enum triggerop` (absent
`asix-sigma.h`). -/
inductive triggerop where
  | OP_LEVEL | OP_NOT | OP_RISE | OP_FALL | OP_RISEFALL | OP_NOTRISE | OP_NOTFALL
  | OP_NOTRISEFALL
  deriving DecidableEq, Repr

/-- Modelled from the spec: the logical functions `enum triggerfunc` (absent
`asix-sigma.h`). -/
inductive triggerfunc where
  | FUNC_AND | FUNC_NAND | FUNC_OR | FUNC_NOR | FUNC_XOR | FUNC_NXOR
  deriving DecidableEq, Repr

open triggerop triggerfunc

/-- The table `x[2][2]` of `add_trigger_function` after the `switch`, as a
function of its two indices. -/
def trigger_detect (oper : triggerop) (b a : Nat) : Nat :=
  match oper with
  | OP_LEVEL => if (b, a) = (0, 1) ∨ (b, a) = (1, 1) then 1 else 0
  | OP_NOT => if (b, a) = (0, 0) ∨ (b, a) = (1, 0) then 1 else 0
  | OP_RISE => if (b, a) = (0, 1) then 1 else 0
  | OP_FALL => if (b, a) = (1, 0) then 1 else 0
  | OP_RISEFALL => if (b, a) = (0, 1) ∨ (b, a) = (1, 0) then 1 else 0
  | OP_NOTRISE => if (b, a) = (1, 1) ∨ (b, a) = (0, 0) ∨ (b, a) = (1, 0) then 1 else 0
  | OP_NOTFALL => if (b, a) = (1, 1) ∨ (b, a) = (0, 0) ∨ (b, a) = (0, 1) then 1 else 0
  | OP_NOTRISEFALL => if (b, a) = (1, 1) ∨ (b, a) = (0, 0) then 1 else 0

/-- One step of the loop "transpose if neg is set": exchange `x[i][j]` and
`x[1-i][1-j]`. -/
def transpose_step (x : Nat → Nat → Nat) (ij : Nat × Nat) : Nat → Nat → Nat :=
  fun b a =>
    if (b, a) = (ij.1, ij.2) then x (1 - ij.1) (1 - ij.2)
    else if (b, a) = (1 - ij.1, 1 - ij.2) then x ij.1 ij.2
    else x b a

/-- The function `add_trigger_function(oper, func, index, neg, mask)`: the new 16-bit `*mask`. -/
def add_trigger_function (oper : triggerop) (func : triggerfunc) (index : Nat) (neg : Bool)
    (mask : Nat) : Nat :=
  let x : Nat → Nat → Nat :=
    if neg then [(0, 0), (0, 1), (1, 0), (1, 1)].foldl transpose_step (trigger_detect oper)
    else trigger_detect oper
  (List.range 16).foldl
    (fun m i =>
      let a := (i >>> (2 * index + 0)) &&& 1
      let b := (i >>> (2 * index + 1)) &&& 1
      let aset := (m >>> i) &&& 1
      let bset := x b a
      let rset0 : Nat :=
        match func with
        | FUNC_AND | FUNC_NAND => aset &&& bset
        | FUNC_OR | FUNC_NOR => aset ||| bset
        | FUNC_XOR | FUNC_NXOR => aset ^^^ bset
      let rset : Nat :=
        match func with
        | FUNC_NAND | FUNC_NOR | FUNC_NXOR => if rset0 = 0 then 1 else 0
        | _ => rset0
      let m1 := m &&& (0xffff ^^^ (1 <<< i))
      if rset ≠ 0 then m1 ||| (1 <<< i) else m1)
    mask

/-- The function `build_basic_trigger(lut, devc)`: the look-up tables for 50 MHz and below.
`masks[]` has two entries; bits past the second one, which cannot be there
after `configure_probes` succeeded, are not recorded. -/
def build_basic_trigger (devc : dev_context) : triggerlut :=
  let found : List Nat :=
    ((List.range 16).filter fun i =>
      devc.trigger.risingmask &&& (1 <<< i) ≠ 0 ∨ devc.trigger.fallingmask &&& (1 <<< i) ≠ 0).map
      fun i => 1 <<< i
  let masks0 := found.getD 0 0
  let masks1 := found.getD 1 0
  let m3 : Nat :=
    if masks0 ≠ 0 ∨ masks1 ≠ 0 then
      let a := if masks0 &&& devc.trigger.risingmask ≠ 0
        then add_trigger_function OP_RISE FUNC_OR 0 false 0 else 0
      let b := if masks0 &&& devc.trigger.fallingmask ≠ 0
        then add_trigger_function OP_FALL FUNC_OR 0 false a else a
      let c := if masks1 &&& devc.trigger.risingmask ≠ 0
        then add_trigger_function OP_RISE FUNC_OR 1 false b else b
      if masks1 &&& devc.trigger.fallingmask ≠ 0
        then add_trigger_function OP_FALL FUNC_OR 1 false c else c
    else 0xffff
  { m0d := build_lut_entry masks0 masks0
    m1d := build_lut_entry masks1 masks1
    m2d := build_lut_entry devc.trigger.simplevalue devc.trigger.simplemask
    m3 := m3
    m3s := 0
    m4 := 0xa000
    params := { selc := 0, selpresc := 0, selinc := 0, selres := 3, sela := 0, selb := 0,
                cmpb := 0, cmpa := 0 } }

/-- The loop "rise/fall trigger support" of `build_basic_trigger`: the values it
writes, in order, to `masks[0]`, `masks[1]`, ... (`masks[j++] = 1 << i`), one for each
`i < 16` whose bit is set in the rising or the falling mask. The write index
of the value number `j` is `j`. -/
def basic_trigger_writes (t : sigma_trigger) : List Nat :=
  ((List.range 16).filter fun i =>
    t.risingmask &&& (1 <<< i) ≠ 0 ∨ t.fallingmask &&& (1 <<< i) ≠ 0).map fun i => 1 <<< i

/-- The value 1 when bit `i` of `w` is set, else 0, shifted to bit position `pos`. -/
def lut_bit (w i pos : Nat) : Nat := if w &&& (1 <<< i) ≠ 0 then 1 <<< pos else 0

/-- The function `sigma_write_trigger_lut(lut, devc)`: transpose the table and send it, then the
parameters. -/
def sigma_write_trigger_lut (lut : triggerlut) : List Event :=
  ((List.range 16).map fun i =>
    [Event.write_register WRITE_TRIGGER_SELECT0 (reg_data.bytes
      [lut_bit (lut.m2d.getD 0 0) i 0 ||| lut_bit (lut.m2d.getD 1 0) i 1
        ||| lut_bit (lut.m2d.getD 2 0) i 2 ||| lut_bit (lut.m2d.getD 3 0) i 3
        ||| lut_bit lut.m3 i 4 ||| lut_bit lut.m3s i 5 ||| lut_bit lut.m4 i 6,
       lut_bit (lut.m0d.getD 0 0) i 0 ||| lut_bit (lut.m0d.getD 1 0) i 1
        ||| lut_bit (lut.m0d.getD 2 0) i 2 ||| lut_bit (lut.m0d.getD 3 0) i 3
        ||| lut_bit (lut.m1d.getD 0 0) i 4 ||| lut_bit (lut.m1d.getD 1 0) i 5
        ||| lut_bit (lut.m1d.getD 2 0) i 6 ||| lut_bit (lut.m1d.getD 3 0) i 7]),
     sigma_set_register WRITE_TRIGGER_SELECT1 (0x30 ||| i)]).flatten
  ++ [Event.write_register WRITE_TRIGGER_SELECT0 (reg_data.lut_params lut.params)]

/-- Modelled from the spec: `std_session_send_df_header` (`std.c` is not among
the sources): "emits Header", one Header packet on the session bus. -/
def std_session_send_df_header : List Event := [Event.send SR_DF_HEADER]

/-- The loop "find which pin to trigger on from mask" of
`dev_acquisition_start`: the least `triggerpin < 8` whose bit is set, else 8. -/
def find_triggerpin (mask : Nat) : Nat :=
  (List.range 8).findIdx fun p => mask &&& (1 <<< p) != 0

/-- The part of `dev_acquisition_start` after the samplerate default: program
the trigger, the clock and the post-trigger time, start the acquisition, send
the header, add the event source. `none`: the division by the samplerate
traps. -/
def start_program (now : timeval) (cb_data : Nat) (sdi : sr_dev_inst dev_context) :
    Option (Int × sr_dev_inst dev_context × List Event) :=
  let devc := sdi.priv
  let t1 : List Event := [sigma_set_register WRITE_TRIGGER_SELECT1 0x20]
  let trig : Nat × List Event :=
    if devc.cur_samplerate ≥ SR_MHZ 100 then
      (((1 <<< LEDSEL1) ||| (find_triggerpin (devc.trigger.risingmask ||| devc.trigger.fallingmask)
            &&& 0x7)
          ||| (if devc.trigger.fallingmask ≠ 0 then 1 <<< 3 else 0)) % 256,
        [sigma_set_register WRITE_TRIGGER_SELECT1 0x81])
    else if devc.cur_samplerate ≤ SR_MHZ 50 then
      ((1 <<< LEDSEL1) ||| (1 <<< LEDSEL0), sigma_write_trigger_lut (build_basic_trigger devc))
    else (0, [])
  let t2 : List Event := t1 ++ trig.2 ++
    [Event.write_register WRITE_TRIGGER_OPTION (reg_data.triggerinout 1 1),
     sigma_set_register WRITE_TRIGGER_SELECT1 trig.1]
  let clock : Option (List Event) :=
    if devc.cur_samplerate = SR_MHZ 200 then some [sigma_set_register WRITE_CLOCK_SELECT 0xf0]
    else if devc.cur_samplerate = SR_MHZ 100 then some [sigma_set_register WRITE_CLOCK_SELECT 0x00]
    else if devc.cur_samplerate % 2 ^ 64 = 0 then none
    else some [Event.write_register WRITE_CLOCK_SELECT
      (reg_data.clockselect_50 0
        (Int.toNat (Int.emod (((SR_MHZ 50 / (devc.cur_samplerate % 2 ^ 64) : Nat) : Int) - 1) 256)) 0)]
  clock.map fun t3 =>
    (SR_OK,
     { sdi with priv :=
        { devc with start_tv := now, cb_data := cb_data,
                    state := { devc.state with state := SIGMA_CAPTURE } } },
     t2 ++ t3
      ++ [sigma_set_register WRITE_POST_TRIGGER
            (Int.toNat (Int.emod (Int.tdiv (devc.capture_ratio * 255) 100) 256)),
          sigma_set_register WRITE_MODE 0x0d]
      ++ std_session_send_df_header
      ++ [Event.source_add 0 10])

/-- The function `dev_acquisition_start(sdi, cb_data)`. `past` and `fw` are what `set_samplerate`
gets from the outside, `now` is the clock. `none`: the call does not
return. -/
def dev_acquisition_start (past : Nat) (fw : fw_io) (now : timeval) (cb_data : Nat)
    (sdi : sr_dev_inst dev_context) : Option (Int × sr_dev_inst dev_context × List Event) :=
  if sdi.status ≠ SR_ST_ACTIVE then some (SR_ERR_DEV_CLOSED, sdi, [])
  else if (configure_probes sdi).1 ≠ SR_OK then some (SR_ERR, (configure_probes sdi).2, [])
  else if (configure_probes sdi).2.priv.cur_firmware = -1 then
    (set_samplerate past fw (configure_probes sdi).2.priv (SR_KHZ 200)).bind fun r =>
      if r.1 ≠ SR_OK then some (r.1, { (configure_probes sdi).2 with priv := r.2.1 }, r.2.2)
      else
        (start_program now cb_data { (configure_probes sdi).2 with priv := r.2.1 }).map
          fun q => (q.1, q.2.1, r.2.2 ++ q.2.2)
  else start_program now cb_data (configure_probes sdi).2

/-- The loop of `scan` that creates the probes: `none` when an allocation
fails (the function then returns `NULL`), else the probe list. -/
def scan_probes (ok : Nat → Bool) : Nat → List String → List sr_probe → Option (List sr_probe)
  | _, [], acc => some acc
  | i, name :: names, acc =>
    if ok i then scan_probes ok (i + 1) names (acc ++ [sr_probe_new i SR_PROBE_LOGIC true (some name)])
    else none

/-- One `receive_data` invocation of a run: what the outside answered, the
device before and after, and the trace. -/
structure rd_step where
  io : rd_io
  before : sr_dev_inst dev_context
  after : sr_dev_inst dev_context
  trace : List Event

/-- A sequence of `receive_data` invocations, one per element of the list of
answers, each starting from the device the previous one left. -/
def receive_run : List rd_io → sr_dev_inst dev_context → List rd_step
  | [], _ => []
  | io :: ios, sdi =>
    { io := io, before := sdi, after := (receive_data io sdi).1, trace := (receive_data io sdi).2 }
      :: receive_run ios (receive_data io sdi).1

/-- The sample units carried by the logic packets of a trace, in order. -/
def logic_units : List Event → List Nat
  | [] => []
  | Event.send (SR_DF_LOGIC _ _ data) :: l => data ++ logic_units l
  | _ :: l => logic_units l

/-- Events that are not an End or Header packet: a Logic or Trigger packet, or
anything that is not a packet. -/
def data_event : Event → Bool
  | Event.send (SR_DF_LOGIC _ _ _) => true
  | Event.send SR_DF_TRIGGER => true
  | Event.send _ => false
  | _ => true

/-- Events that are not a packet. -/
def silent_event : Event → Bool
  | Event.send _ => false
  | _ => true

/-! ### Concrete devices used as instances of the theorems -/

/-- A device context at 100 MHz with the 100 MHz firmware loaded, idle. -/
def devc_100mhz : dev_context :=
  { ftdic_open := true, cur_samplerate := SR_MHZ 100, period_ps := 10000, limit_msec := 1000,
    start_tv := { tv_sec := 0, tv_usec := 0 }, cur_firmware := 1, num_probes := 8,
    samples_per_event := 2, capture_ratio := 50,
    trigger := { risingmask := 0, fallingmask := 0, simplemask := 0, simplevalue := 0 },
    use_triggers := 0,
    state := { state := SIGMA_IDLE, stoppos := 0, triggerpos := 0, lastts := 0, lastsample := 0,
               triggerchunk := 0, chunks_downloaded := 0 },
    cb_data := 0 }

/-- An ASIX Sigma device instance without probes, with the given status. -/
def dev_100mhz (status : sr_status) : sr_dev_inst dev_context :=
  { driver := some "asix-sigma", index := 0, status := status, inst_type := -1,
    vendor := some "ASIX", model := some "SIGMA", version := some "", probes := [],
    conn := none, priv := devc_100mhz }

/-- A device context at 50 MHz with the 50 MHz firmware loaded (16 probes, one
sample per event), idle. -/
def devc_50mhz : dev_context :=
  { devc_100mhz with
    cur_samplerate := SR_MHZ 50
    period_ps := 20000
    cur_firmware := 0
    num_probes := 16
    samples_per_event := 1 }

/-- The 16 probes of a scanned device (indices 0 to 15, enabled, named "1" to
"16"); the first probes carry the trigger specs of `trigs`. -/
def probes_with_triggers (trigs : List (Option String)) : List sr_probe :=
  (List.range 16).map fun i =>
    { sr_probe_new (i : Nat) SR_PROBE_LOGIC true (probe_names.get? i) with
      trigger := (trigs.get? i).join }

/-- An Active ASIX Sigma device with the context `devc` and the probes
`probes_with_triggers trigs`. -/
def dev_with_triggers (devc : dev_context) (trigs : List (Option String)) :
    sr_dev_inst dev_context :=
  { dev_100mhz SR_ST_ACTIVE with probes := probes_with_triggers trigs, priv := devc }

/-- A chunk of sample memory in which cluster `i` has the timestamp
`7 * (i + 1)` and the event words `7 * i + 1` to `7 * i + 7`: contiguous
timestamps, no two events alike. -/
def buf_ramp (off : Nat) : Nat :=
  let word := if off % 16 / 2 = 0 then 7 * (off / 16 + 1) else 7 * (off / 16) + off % 16 / 2
  if off % 2 = 0 then word % 256 else word / 256 % 256

/-- A chunk of sample memory in which cluster `i` has the timestamp
`ts0 + 7 * i` and the event words `7 * i + 1` to `7 * i + 7`. -/
def buf_ramp_from (ts0 : Nat) (off : Nat) : Nat :=
  let word := if off % 16 / 2 = 0 then ts0 + 7 * (off / 16) else 7 * (off / 16) + off % 16 / 2
  if off % 2 = 0 then word % 256 else word / 256 % 256

/-- A scanned device at 50 MHz without triggers, Active, in the download state
with no chunk downloaded yet and no trigger chunk. -/
def downloading_50mhz : sr_dev_inst dev_context :=
  dev_with_triggers
    { devc_50mhz with
      state := { devc_50mhz.state with state := SIGMA_DOWNLOAD, triggerchunk := -1 } } []

/-- Replies to a `receive_data` invocation from a device that reports the raw
stop position 513 and whose sample memory holds `buf_ramp_from 1`: first
timestamp 1. -/
def io_ramp : rd_io :=
  { pos := [0, 0, 0, 1, 2, 0], now := { tv_sec := 10, tv_usec := 0 },
    stop_pos := [0, 0, 0, 1, 2, 0], modestatus := 0, dram := buf_ramp_from 1,
    stack := fun _ _ => 0, under := fun _ => 0 }

/-- A scanned device at 50 MHz, Active and capturing since the time 0 with a
limit of 1000 ms, with the flag `use_triggers` set and a trigger configuration
that every sample matches (all masks zero). -/
def capturing_50mhz : sr_dev_inst dev_context :=
  dev_with_triggers
    { devc_50mhz with
      use_triggers := 1
      state := { devc_50mhz.state with state := SIGMA_CAPTURE } } []

/-- Replies to a `receive_data` invocation at the time 10 s from a device that
has triggered (mode status `0x20`), reports the trigger position
`512 * chunk + 10` and the raw stop position `stop`, and whose sample memory
holds `buf_ramp_from 1`. -/
def io_triggered (chunk stop : Nat) : rd_io :=
  { pos := [10, 2 * chunk, 0, stop % 256, stop / 256 % 256, stop / 65536 % 256],
    now := { tv_sec := 10, tv_usec := 0 },
    stop_pos := [10, 2 * chunk, 0, stop % 256, stop / 256 % 256, stop / 65536 % 256],
    modestatus := 0x20, dram := buf_ramp_from 1, stack := fun _ _ => 0, under := fun _ => 0 }

/-- A chunk of sample memory in which cluster `i` has the timestamp
`7 * (i + 1)` and the even event words `2 * (7 * i + 1)` to `2 * (7 * i + 7)`:
bit 0 is clear in every sample. -/
def buf_even (off : Nat) : Nat :=
  let word :=
    if off % 16 / 2 = 0 then 7 * (off / 16 + 1) else 2 * (7 * (off / 16) + off % 16 / 2)
  if off % 2 = 0 then word % 256 else word / 256 % 256

/-- A device context at 50 MHz with the flag `use_triggers` set and the level
trigger "probe 0 high" (simple mask 1, simple value 1). -/
def devc_50mhz_level : dev_context :=
  { devc_50mhz with
    use_triggers := 1
    trigger := { risingmask := 0, fallingmask := 0, simplemask := 1, simplevalue := 1 } }

/-- Replies of a device on which the firmware upload succeeds. -/
def fw_ok : fw_io :=
  { usb_open_desc := 0, set_bitmode_bitbang := 0, set_baudrate := 0, initb_reads := [0x20],
    bin2bitbang_ret := SR_OK, set_bitmode_reset := 0, garbage_reads := [0], reply_ret := 3,
    reply := [0xa6, 0x55, 0xaa] }

/-- The device `dev_100mhz`, Active, after a successful `dev_acquisition_start`
at the time 5 s: capturing. -/
def started_100mhz : sr_dev_inst dev_context :=
  { dev_100mhz SR_ST_ACTIVE with priv :=
    { devc_100mhz with
      start_tv := { tv_sec := 5, tv_usec := 0 }, cb_data := 7,
      state := { devc_100mhz.state with state := SIGMA_CAPTURE } } }

/-- Replies to a `receive_data` invocation at the time 10 s from a device that
reports the raw stop position `stop` and the trigger position 0, has not
triggered, and whose sample memory reads as zeroes. -/
def io_stop (stop : Nat) : rd_io :=
  { pos := [0, 0, 0, stop, 0, 0], now := { tv_sec := 10, tv_usec := 0 },
    stop_pos := [0, 0, 0, stop, 0, 0], modestatus := 0, dram := fun _ => 0,
    stack := fun _ _ => 0, under := fun _ => 0 }

/-- Replies of a device on which the firmware upload fails at the last step:
no reply to `logic_mode_start`. -/
def fw_no_reply : fw_io :=
  { usb_open_desc := 0, set_bitmode_bitbang := 0, set_baudrate := 0, initb_reads := [0x20],
    bin2bitbang_ret := SR_OK, set_bitmode_reset := 0, garbage_reads := [0], reply_ret := 0,
    reply := [] }

end Sigma

/-- The glib accessor `g_variant_get_boolean`: the payload, and `FALSE` for a value of
another type. -/
def g_variant_get_boolean {D : Type} : GVariant D → Bool
  | .boolean b => b
  | _ => false

/-- The glib accessor `g_variant_get_string`: the payload, and the empty string for a
value of another type. -/
def g_variant_get_string {D : Type} : GVariant D → String
  | .string s => s
  | _ => ""

/-- The glib function `g_strsplit(s, ",", 0)`: the pieces between commas; no piece for the empty
string. -/
def g_strsplit_comma (s : String) : List String :=
  if s = "" then [] else s.splitOn ","

/-! ## The Openbench Logic Sniffer driver (`hardware/openbench-logic-sniffer/api.c`) -/

namespace Ols

/-- The macro `MIN_NUM_SAMPLES` of `protocol.h`. -/
abbrev MIN_NUM_SAMPLES : Nat := 4
/-- The macro `FLAG_CLOCK_EXTERNAL` of `protocol.h`. -/
abbrev FLAG_CLOCK_EXTERNAL : Nat := 0x40
/-- The macro `FLAG_RLE` of `protocol.h`. -/
abbrev FLAG_RLE : Nat := 0x0100
/-- The macro `FLAG_SWAP_PROBES` of `protocol.h`. -/
abbrev FLAG_SWAP_PROBES : Nat := 0x0200
/-- The macro `FLAG_EXTERNAL_TEST_MODE` of `protocol.h`. -/
abbrev FLAG_EXTERNAL_TEST_MODE : Nat := 0x0400
/-- The macro `FLAG_INTERNAL_TEST_MODE` of `protocol.h`. -/
abbrev FLAG_INTERNAL_TEST_MODE : Nat := 0x0800
/-- The macro `STR_PATTERN_EXTERNAL`. -/
abbrev STR_PATTERN_EXTERNAL : String := "external"
/-- The macro `STR_PATTERN_INTERNAL`. -/
abbrev STR_PATTERN_INTERNAL : String := "internal"

/-- The default samplerates, the table `samplerates[]`: minimum, maximum, step. -/
def samplerates : List Nat := [10, SR_MHZ 200, 1]

/-- The driver-private context `struct dev_context` of `protocol.h`. The
sample buffer pointer is `none` when `NULL`. -/
structure dev_context where
  max_probes : Int
  max_samples : Nat
  max_samplerate : Nat
  protocol_version : Nat
  cur_samplerate : Nat
  cur_samplerate_divider : Nat
  limit_samples : Nat
  capture_ratio : Int
  trigger_at : Int
  probe_mask : Nat
  trigger_mask : List Nat
  trigger_value : List Nat
  num_stages : Int
  flag_reg : Nat
  num_transfers : Nat
  num_samples : Nat
  num_bytes : Int
  rle_count : Nat
  sample : List Nat
  tmp_sample : List Nat
  raw_sample_buf : Option (List Nat)
  deriving DecidableEq, Repr

/-- Conversion of a 32-bit `int` to a 64-bit unsigned value. -/
def uint64_of_int (v : Int) : Nat := (v % (2 ^ 64 : Int)).toNat

/-- The function `config_get(id, data, sdi, probe_group)`: the code and the value stored in
`*data` (`none` when nothing is stored). -/
def config_get {D : Type} (id : Int) (sdi : Option (sr_dev_inst dev_context)) :
    Int × Option (GVariant D) :=
  match sdi with
  | none => (SR_ERR_ARG, none)
  | some d =>
    if id = SR_CONF_SAMPLERATE then (SR_OK, some (GVariant.uint64 d.priv.cur_samplerate))
    else if id = SR_CONF_CAPTURE_RATIO then
      (SR_OK, some (GVariant.uint64 (uint64_of_int d.priv.capture_ratio)))
    else if id = SR_CONF_LIMIT_SAMPLES then (SR_OK, some (GVariant.uint64 d.priv.limit_samples))
    else if id = SR_CONF_PATTERN_MODE then
      if d.priv.flag_reg &&& FLAG_EXTERNAL_TEST_MODE ≠ 0 then
        (SR_OK, some (GVariant.string STR_PATTERN_EXTERNAL))
      else if d.priv.flag_reg &&& FLAG_INTERNAL_TEST_MODE ≠ 0 then
        (SR_OK, some (GVariant.string STR_PATTERN_INTERNAL))
      else (SR_OK, none)
    else if id = SR_CONF_RLE then
      (SR_OK, some (GVariant.boolean (d.priv.flag_reg &&& FLAG_RLE != 0)))
    else (SR_ERR_NA, none)

/-- Set (`enable = true`) or clear a bit mask in the 32-bit flag register:
`flag_reg |= flag` or `flag_reg &= ~flag`. -/
def set_flag (flag_reg : Nat) (flag : Nat) (enable : Bool) : Nat :=
  if enable then (flag_reg ||| flag) % 2 ^ 32 else flag_reg &&& (0xffffffff ^^^ flag)

/-- The function `config_set(id, data, sdi, probe_group)`. The function `ols_set_samplerate` lives in
`protocol.c`, which is not among the sources, and is a parameter: from the
context and the rate it gives the code and the new context. -/
def config_set {D : Type} (ols_set_samplerate : dev_context → Nat → Int × dev_context)
    (id : Int) (data : GVariant D) (sdi : sr_dev_inst dev_context) :
    Int × sr_dev_inst dev_context :=
  if sdi.status ≠ SR_ST_ACTIVE then (SR_ERR_DEV_CLOSED, sdi)
  else if id = SR_CONF_SAMPLERATE then
    if g_variant_get_uint64 data < samplerates.getD 0 0
        ∨ g_variant_get_uint64 data > samplerates.getD 1 0 then (SR_ERR_SAMPLERATE, sdi)
    else
      ((ols_set_samplerate sdi.priv (g_variant_get_uint64 data)).1,
       { sdi with priv := (ols_set_samplerate sdi.priv (g_variant_get_uint64 data)).2 })
  else if id = SR_CONF_LIMIT_SAMPLES then
    if g_variant_get_uint64 data < MIN_NUM_SAMPLES then (SR_ERR, sdi)
    else (SR_OK, { sdi with priv := { sdi.priv with limit_samples := g_variant_get_uint64 data } })
  else if id = SR_CONF_CAPTURE_RATIO then
    if Sigma.int_of_uint64 (g_variant_get_uint64 data) < 0
        ∨ Sigma.int_of_uint64 (g_variant_get_uint64 data) > 100 then
      (SR_ERR, { sdi with priv := { sdi.priv with capture_ratio := 0 } })
    else
      (SR_OK, { sdi with priv :=
        { sdi.priv with capture_ratio := Sigma.int_of_uint64 (g_variant_get_uint64 data) } })
  else if id = SR_CONF_EXTERNAL_CLOCK then
    (SR_OK, { sdi with priv := { sdi.priv with flag_reg :=
      (set_flag sdi.priv.flag_reg FLAG_CLOCK_EXTERNAL (g_variant_get_boolean data)) } })
  else if id = SR_CONF_PATTERN_MODE then
    if g_variant_get_string data = STR_PATTERN_INTERNAL then
      (SR_OK, { sdi with priv := { sdi.priv with flag_reg :=
        (set_flag sdi.priv.flag_reg FLAG_INTERNAL_TEST_MODE true) } })
    else if g_variant_get_string data = STR_PATTERN_EXTERNAL then
      (SR_OK, { sdi with priv := { sdi.priv with flag_reg :=
        (set_flag sdi.priv.flag_reg FLAG_EXTERNAL_TEST_MODE true) } })
    else (SR_ERR, sdi)
  else if id = SR_CONF_SWAP then
    (SR_OK, { sdi with priv := { sdi.priv with flag_reg :=
      (set_flag sdi.priv.flag_reg FLAG_SWAP_PROBES (g_variant_get_boolean data)) } })
  else if id = SR_CONF_RLE then
    (SR_OK, { sdi with priv := { sdi.priv with flag_reg :=
      (set_flag sdi.priv.flag_reg FLAG_RLE (g_variant_get_boolean data)) } })
  else (SR_ERR_NA, sdi)

end Ols

/-! ## The Hantek DSO driver (`hardware/hantek-dso/api.c`) -/

namespace Hantek

/-- The floating-point operations `config_set` uses on the type `D` of
doubles, and the conversion to the type `F` of floats. -/
structure fp_ops (D F : Type) where
  zero : D
  one : D
  lt : D → D → Bool
  narrow : D → F

/-- The glib accessor `g_variant_get_double`: the payload, and 0.0 for a value of another
type. -/
def g_variant_get_double {D F : Type} (fp : fp_ops D F) : GVariant D → D
  | .double d => d
  | _ => fp.zero

/-- The enumerators `SLOPE_POSITIVE` and `SLOPE_NEGATIVE` of `dso.h`. -/
abbrev SLOPE_POSITIVE : Nat := 0
/-- The enumerator `SLOPE_NEGATIVE` of `dso.h`. -/
abbrev SLOPE_NEGATIVE : Nat := 1

/-- The table `timebases[][2]`. -/
def timebases : List (Nat × Nat) :=
  [(10, 1000000), (20, 1000000), (40, 1000000), (100, 1000000), (200, 1000000),
   (400, 1000000), (1, 1000), (2, 1000), (4, 1000), (10, 1000), (20, 1000), (40, 1000),
   (100, 1000), (200, 1000), (400, 1000)]

/-- The table `vdivs[][2]`. -/
def vdivs : List (Nat × Nat) :=
  [(10, 1000), (20, 1000), (50, 1000), (100, 1000), (200, 1000), (500, 1000), (1, 1), (2, 1),
   (5, 1)]

/-- The table `trigger_sources[]`; it has no `NULL` terminator. -/
def trigger_sources : List String := ["CH1", "CH2", "EXT"]

/-- The table `coupling[]`; it has no `NULL` terminator. -/
def coupling : List String := ["AC", "DC", "GND"]

/-- A device profile, `struct dso_profile` of `dso.h`. -/
structure dso_profile where
  orig_vid : Nat
  orig_pid : Nat
  fw_vid : Nat
  fw_pid : Nat
  vendor : String
  model : String
  buffersizes : List Nat
  firmware : String
  deriving DecidableEq, Repr

/-- The driver-private context `struct dev_context` of `dso.h`, with the type
`F` of its `float` fields. The frame buffer pointer is `none` when `NULL`. -/
structure dev_context (F : Type) where
  profile : dso_profile
  cb_data : Nat
  limit_frames : Nat
  num_frames : Nat
  enabled_probes : List Nat
  fw_updated : Int
  epin_maxpacketsize : Int
  capture_empty_count : Int
  dev_state : Int
  timebase : Int
  ch1_enabled : Bool
  ch2_enabled : Bool
  voltage_ch1 : Int
  voltage_ch2 : Int
  coupling_ch1 : Int
  coupling_ch2 : Int
  voffset_ch1 : F
  voffset_ch2 : F
  voffset_trigger : F
  channel_levels : List (List (List Nat))
  framesize : Nat
  filter_ch1 : Bool
  filter_ch2 : Bool
  filter_trigger : Bool
  triggerslope : Int
  triggersource : Option String
  triggerposition : F
  triggermode : Int
  samp_received : Nat
  samp_buffered : Nat
  trigger_offset : Nat
  framebuf : Option (List Nat)

/-- A search loop `for (i = 0; table[i]; i++) if (!strcmp(s, table[i])) ...`
over a table of strings followed in memory by the pointer words `past`
(`none`: a `NULL` word; the word after the last one of `past` is taken to be
`NULL`). The index of the first entry equal to `s`, or `none` when a `NULL`
is reached first. -/
def find_string (s : String) : List (Option String) → Nat → Option Nat
  | [], _ => none
  | none :: _, _ => none
  | some t :: l, i => if s = t then some i else find_string s l (i + 1)

/-- The loop of the case `SR_CONF_FILTER` over the split targets, from the
code `ret` so far. -/
def filter_loop {F : Type} : List String → dev_context F → Int → dev_context F × Int
  | [], devc, ret => (devc, ret)
  | t :: l, devc, ret =>
    if t = "CH1" then filter_loop l { devc with filter_ch1 := true } ret
    else if t = "CH2" then filter_loop l { devc with filter_ch2 := true } ret
    else if t = "TRIGGER" then filter_loop l { devc with filter_trigger := true } ret
    else filter_loop l devc SR_ERR_ARG

/-- The values `p` and `q` after `g_variant_get(data, "(tt)", &p, &q)`: the
pair, and for a value of another type what the uninitialised variables
held. -/
def g_variant_get_tt {D : Type} (uninit : Nat × Nat) : GVariant D → Nat × Nat
  | .tuple_tt p q => (p % 2 ^ 64, q % 2 ^ 64)
  | _ => uninit

/-- The function `config_set(id, data, sdi, probe_group)`. `past_sources` and `past_coupling` are
the pointer words that follow the tables `trigger_sources` and `coupling` in
memory, `uninit` what the uninitialised `p` and `q` hold. -/
def config_set {D F : Type} (fp : fp_ops D F) (past_sources past_coupling : List (Option String))
    (uninit : Nat × Nat) (id : Int) (data : GVariant D) (sdi : sr_dev_inst (dev_context F)) :
    Int × sr_dev_inst (dev_context F) :=
  if sdi.status ≠ SR_ST_ACTIVE then (SR_ERR_DEV_CLOSED, sdi)
  else if id = SR_CONF_LIMIT_FRAMES then
    (SR_OK, { sdi with priv := { sdi.priv with limit_frames := g_variant_get_uint64 data } })
  else if id = SR_CONF_TRIGGER_SLOPE then
    (if g_variant_get_uint64 data ≠ SLOPE_NEGATIVE ∧ g_variant_get_uint64 data ≠ SLOPE_POSITIVE
      then SR_ERR_ARG else SR_OK,
     { sdi with priv :=
        { sdi.priv with triggerslope := Sigma.int_of_uint64 (g_variant_get_uint64 data) } })
  else if id = SR_CONF_HORIZ_TRIGGERPOS then
    if fp.lt (g_variant_get_double fp data) fp.zero
        || fp.lt fp.one (g_variant_get_double fp data) then (SR_ERR_ARG, sdi)
    else
      (SR_OK, { sdi with priv :=
        { sdi.priv with triggerposition := fp.narrow (g_variant_get_double fp data) } })
  else if id = SR_CONF_BUFFERSIZE then
    if sdi.priv.profile.buffersizes.getD 0 0 = g_variant_get_uint64 data
        ∨ sdi.priv.profile.buffersizes.getD 1 0 = g_variant_get_uint64 data then
      (SR_OK, { sdi with priv :=
        { sdi.priv with framesize := g_variant_get_uint64 data % 2 ^ 32 } })
    else (SR_ERR_ARG, sdi)
  else if id = SR_CONF_TIMEBASE then
    match timebases.indexOf? (g_variant_get_tt uninit data) with
    | some i => (SR_OK, { sdi with priv := { sdi.priv with timebase := (i : Int) } })
    | none => (SR_ERR_ARG, sdi)
  else if id = SR_CONF_TRIGGER_SOURCE then
    match find_string (g_variant_get_string data)
        (trigger_sources.map some ++ past_sources) 0 with
    | some _ =>
      (SR_OK, { sdi with priv :=
        { sdi.priv with triggersource := some (g_variant_get_string data) } })
    | none => (SR_ERR_ARG, sdi)
  else if id = SR_CONF_FILTER then
    ((filter_loop (g_strsplit_comma (g_variant_get_string data))
        { sdi.priv with filter_ch1 := false, filter_ch2 := false, filter_trigger := false }
        SR_OK).2,
     { sdi with priv :=
        (filter_loop (g_strsplit_comma (g_variant_get_string data))
          { sdi.priv with filter_ch1 := false, filter_ch2 := false, filter_trigger := false }
          SR_OK).1 })
  else if id = SR_CONF_VDIV then
    match vdivs.indexOf? (g_variant_get_tt uninit data) with
    | some i =>
      (SR_OK, { sdi with priv := { sdi.priv with voltage_ch1 := (i : Int), voltage_ch2 := (i : Int) } })
    | none => (SR_ERR_ARG, sdi)
  else if id = SR_CONF_COUPLING then
    match find_string (g_variant_get_string data) (coupling.map some ++ past_coupling) 0 with
    | some i =>
      (SR_OK, { sdi with priv := { sdi.priv with coupling_ch1 := (i : Int), coupling_ch2 := (i : Int) } })
    | none => (SR_ERR_ARG, sdi)
  else (SR_ERR_NA, sdi)

end Hantek

/-! ## Shared pieces of the USB and serial drivers -/

/-- What a driver does to a libusb device handle. -/
inductive usb_event where
  | release_interface (devhdl : Nat)
  | close (devhdl : Nat)
  deriving DecidableEq, Repr

namespace Logic16

/-- The function `dev_close`: an error when the USB handle is `NULL`; else release the
interface, close the handle, and the status becomes Inactive. `none`: the
field `conn` does not point to a USB connection (the dereference traps). -/
def dev_close {α : Type} (sdi : sr_dev_inst α) :
    Option (Int × sr_dev_inst α × List usb_event) :=
  match sdi.conn with
  | some (sr_conn.usb usb) =>
    match usb.devhdl with
    | none => some (SR_ERR, sdi, [])
    | some hdl =>
      some (SR_OK,
        { sdi with status := SR_ST_INACTIVE, conn := some (sr_conn.usb { usb with devhdl := none }) },
        [usb_event.release_interface hdl, usb_event.close hdl])
  | _ => none

end Logic16

/-! ## The UNI-T UT32x driver (`hardware/uni-t-ut32x/api.c`) -/

namespace Ut32x

/-- Modelled from the spec: the data sources of the absent `protocol.h`, as
`api.c` names them. -/
inductive data_source where
  | DATA_SOURCE_LIVE
  | DATA_SOURCE_MEMORY
  deriving DecidableEq, Repr

/-- Modelled from the spec: `DEFAULT_DATA_SOURCE` of the absent `protocol.h`. -/
abbrev DEFAULT_DATA_SOURCE : data_source := data_source.DATA_SOURCE_LIVE

/-- Modelled from the spec: the driver-private context `struct dev_context`
(absent `protocol.h`), with the fields `api.c` reads and writes. -/
structure dev_context where
  cb_data : Nat
  limit_samples : Nat
  data_source : data_source
  num_samples : Nat
  packet_len : Int
  deriving DecidableEq, Repr

/-- The probe names, the table `probes[]`. -/
def probes : List String := ["T1", "T2", "T1-T2"]

/-- The function `dev_close`: an error when the driver is not initialised (`di->priv` is
`NULL`); nothing to do when the USB handle is `NULL`; else release the
interface, close the handle, and the status becomes Inactive. `none`: the
field `conn` does not point to a USB connection (the dereference traps). -/
def dev_close {α : Type} (drv_initialized : Bool) (sdi : sr_dev_inst α) :
    Option (Int × sr_dev_inst α × List usb_event) :=
  if drv_initialized = false then some (SR_ERR, sdi, [])
  else
    match sdi.conn with
    | some (sr_conn.usb usb) =>
      match usb.devhdl with
      | none => some (SR_OK, sdi, [])
      | some hdl =>
        some (SR_OK,
          { sdi with status := SR_ST_INACTIVE,
                     conn := some (sr_conn.usb { usb with devhdl := none }) },
          [usb_event.release_interface hdl, usb_event.close hdl])
    | _ => none

/-- What the outside answers for one USB device found during `scan`: whether
the allocation inside `sr_dev_inst_new` succeeds, for each probe whether
`sr_probe_new` succeeds, and the uninitialised memory `g_try_malloc` returns
for the device context (`none`: allocation failure). -/
structure found_io where
  usb : sr_usb_dev_inst
  sdi_malloc_ok : Bool
  probe_malloc_ok : Nat → Bool
  devc_malloc : Option dev_context

/-- The loop of `scan` that creates the three probes: `none` when an
allocation fails. -/
def scan_probes (ok : Nat → Bool) : Nat → List String → List sr_probe → Option (List sr_probe)
  | _, [], acc => some acc
  | i, name :: names, acc =>
    if ok i then
      scan_probes ok (i + 1) names (acc ++ [sr_probe_new i SR_PROBE_ANALOG true (some name)])
    else none

/-- The loop of `scan` over the USB devices found, from the lists `devices`
and `drvc->instances` so far. The flag is `false` when an allocation failed and
the function returned `NULL`. -/
def scan_loop : List found_io → List (sr_dev_inst dev_context) → List (sr_dev_inst dev_context) →
    Bool × List (sr_dev_inst dev_context) × List (sr_dev_inst dev_context)
  | [], devices, instances => (true, devices, instances)
  | f :: l, devices, instances =>
    if f.sdi_malloc_ok = false then (false, devices, instances)
    else
      match scan_probes f.probe_malloc_ok 0 probes [] with
      | none => (false, devices, instances)
      | some ps =>
        match f.devc_malloc with
        | none => (false, devices, instances)
        | some mem =>
          let sdi : sr_dev_inst dev_context :=
            { sr_dev_inst_new 0 SR_ST_INACTIVE (some "UNI-T") (some "UT32x") none
                { mem with limit_samples := 0, data_source := DEFAULT_DATA_SOURCE } with
              driver := some "uni-t-ut32x", inst_type := SR_INST_USB,
              conn := some (sr_conn.usb f.usb), probes := ps }
          scan_loop l (devices ++ [sdi]) (instances ++ [sdi])

end Ut32x

/-! ## The Agilent DMM driver (`hardware/agilent-dmm/api.c`) -/

namespace AgilentDmm

/-- A device profile, `struct agdmm_profile` of `agilent-dmm.h`; the job and
receive tables are referred to by name. -/
structure agdmm_profile where
  model : Int
  modelname : String
  jobs : String
  recvs : String
  deriving DecidableEq, Repr

/-- The driver-private context `struct dev_context` of `agilent-dmm.h`. -/
structure dev_context where
  profile : Option agdmm_profile
  limit_samples : Nat
  limit_msec : Nat
  cb_data : Nat
  num_samples : Nat
  jobqueue : List Int
  buf : List Nat
  buflen : Int
  cur_mq : Int
  cur_unit : Int
  cur_mqflags : Int
  cur_divider : Int
  cur_acdc : Int
  mode_tempaux : Int
  mode_continuity : Int
  deriving DecidableEq, Repr

end AgilentDmm

/-! ## The scan functions of the other drivers -/

/-- The loop over `conn_devices` in the USB scans: whether one of the
connections that matched the `conn` option has the given bus and address. -/
def usb_conn_match (conn_devices : List sr_usb_dev_inst) (bus address : Nat) : Bool :=
  conn_devices.any fun usb => usb.bus = bus ∧ usb.address = address

/-- The constructor `sr_usb_dev_inst_new(bus, address, NULL)` as stored in the field `conn`: `none`
(`NULL`) when the allocation fails. -/
def sr_usb_dev_inst_new (malloc_ok : Bool) (bus address : Nat) : Option sr_conn :=
  if malloc_ok = true then some (sr_conn.usb { bus := bus, address := address, devhdl := none })
  else none

/-- The C function `strcspn(s, c)` for a reject set of one character: the number of
characters of `s` before the first `c`, the length of `s` when there is none. -/
def strcspn (s : String) (c : Char) : Nat :=
  (s.data.takeWhile fun x => x != c).length

namespace SerialDmm

/-- An entry of the table `dmms[]`, `struct dmm_info` of `protocol.h`, with the fields
`sdmm_scan` reads itself: vendor, device, default connection parameters, baud
rate, whether a packet request function is set, and the name of the driver
structure `di`. The packet size and the packet functions are only handed to
the library function `serial_stream_detect`. -/
structure dmm_info where
  vendor : String
  device : String
  conn : String
  baudrate : Nat
  packet_request : Bool
  di : String
  deriving DecidableEq, Repr

/-- The table `dmms[]`, in the order of the enumeration of `protocol.h`. -/
def dmms : List dmm_info :=
  [{ vendor := "BBC Goertz Metrawatt", device := "M2110", conn := "1200/7n2", baudrate := 1200,
     packet_request := false, di := "bbcgm-m2110" },
   { vendor := "Digitek", device := "DT4000ZC", conn := "2400/8n1/dtr=1", baudrate := 2400,
     packet_request := false, di := "digitek-dt4000zc" },
   { vendor := "TekPower", device := "TP4000ZC", conn := "2400/8n1/dtr=1", baudrate := 2400,
     packet_request := false, di := "tekpower-tp4000zc" },
   { vendor := "Metex", device := "ME-31", conn := "600/7n2/rts=0/dtr=1", baudrate := 600,
     packet_request := true, di := "metex-me31" },
   { vendor := "Peaktech", device := "3410", conn := "600/7n2/rts=0/dtr=1", baudrate := 600,
     packet_request := true, di := "peaktech-3410" },
   { vendor := "MASTECH", device := "MAS345", conn := "600/7n2/rts=0/dtr=1", baudrate := 600,
     packet_request := true, di := "mastech-mas345" },
   { vendor := "V&A", device := "VA18B", conn := "2400/8n1", baudrate := 2400,
     packet_request := false, di := "va-va18b" },
   { vendor := "V&A", device := "VA40B", conn := "2400/8n1", baudrate := 2400,
     packet_request := false, di := "va-va40b" },
   { vendor := "Metex", device := "M-3640D", conn := "1200/7n2/rts=0/dtr=1", baudrate := 1200,
     packet_request := true, di := "metex-m3640d" },
   { vendor := "Metex", device := "M-4650CR", conn := "1200/7n2/rts=0/dtr=1", baudrate := 1200,
     packet_request := true, di := "metex-m4650cr" },
   { vendor := "PeakTech", device := "4370", conn := "1200/7n2/rts=0/dtr=1", baudrate := 1200,
     packet_request := true, di := "peaktech-4370" },
   { vendor := "PCE", device := "PCE-DM32", conn := "2400/8n1", baudrate := 2400,
     packet_request := false, di := "pce-pce-dm32" },
   { vendor := "RadioShack", device := "22-168", conn := "1200/7n2/rts=0/dtr=1", baudrate := 1200,
     packet_request := true, di := "radioshack-22-168" },
   { vendor := "RadioShack", device := "22-805", conn := "600/7n2/rts=0/dtr=1", baudrate := 600,
     packet_request := true, di := "radioshack-22-805" },
   { vendor := "RadioShack", device := "22-812", conn := "4800/8n1/rts=0/dtr=1", baudrate := 4800,
     packet_request := false, di := "radioshack-22-812" },
   { vendor := "Tecpel", device := "DMM-8061 (UT-D02 cable)", conn := "2400/8n1/rts=0/dtr=1", baudrate := 2400,
     packet_request := false, di := "tecpel-dmm-8061-ser" },
   { vendor := "Voltcraft", device := "M-3650D", conn := "1200/7n2/rts=0/dtr=1", baudrate := 1200,
     packet_request := true, di := "voltcraft-m3650d" },
   { vendor := "Voltcraft", device := "M-4650CR", conn := "1200/7n2/rts=0/dtr=1", baudrate := 1200,
     packet_request := true, di := "voltcraft-m4650cr" },
   { vendor := "Voltcraft", device := "VC-820 (UT-D02 cable)", conn := "2400/8n1/rts=0/dtr=1", baudrate := 2400,
     packet_request := false, di := "voltcraft-vc820-ser" },
   { vendor := "Voltcraft", device := "VC-830 (UT-D02 cable)", conn := "2400/8n1/rts=0/dtr=1", baudrate := 2400,
     packet_request := false, di := "voltcraft-vc830-ser" },
   { vendor := "Voltcraft", device := "VC-840 (UT-D02 cable)", conn := "2400/8n1/rts=0/dtr=1", baudrate := 2400,
     packet_request := false, di := "voltcraft-vc840-ser" },
   { vendor := "UNI-T", device := "UT60A (UT-D02 cable)", conn := "2400/8n1/rts=0/dtr=1", baudrate := 2400,
     packet_request := false, di := "uni-t-ut60a-ser" },
   { vendor := "UNI-T", device := "UT60E (UT-D02 cable)", conn := "2400/8n1/rts=0/dtr=1", baudrate := 2400,
     packet_request := false, di := "uni-t-ut60e-ser" },
   { vendor := "UNI-T", device := "UT61B (UT-D02 cable)", conn := "2400/8n1/rts=0/dtr=1", baudrate := 2400,
     packet_request := false, di := "uni-t-ut61b-ser" },
   { vendor := "UNI-T", device := "UT61C (UT-D02 cable)", conn := "2400/8n1/rts=0/dtr=1", baudrate := 2400,
     packet_request := false, di := "uni-t-ut61c-ser" },
   { vendor := "UNI-T", device := "UT61D (UT-D02 cable)", conn := "2400/8n1/rts=0/dtr=1", baudrate := 2400,
     packet_request := false, di := "uni-t-ut61d-ser" },
   { vendor := "UNI-T", device := "UT61E (UT-D02 cable)", conn := "19200/7o1/rts=0/dtr=1", baudrate := 19200,
     packet_request := false, di := "uni-t-ut61e-ser" },
   { vendor := "ISO-TECH", device := "IDM103N", conn := "2400/7o1/rts=0/dtr=1", baudrate := 2400,
     packet_request := false, di := "iso-tech-idm103n" }]

/-- The driver-private context `struct dev_context` of `protocol.h`. -/
structure dev_context where
  limit_samples : Nat
  limit_msec : Nat
  cb_data : Nat
  num_samples : Nat
  starttime : Int
  buf : List Nat
  bufoffset : Int
  buflen : Int
  deriving DecidableEq, Repr

end SerialDmm

/-! ### The Fluke DMM driver (`hardware/fluke-dmm/api.c`) -/

namespace FlukeDmm

/-- Modelled from the spec: a device profile, `struct flukedmm_profile` of the absent
`fluke-dmm.h`, with the four fields the table `supported_flukedmm[]` initialises. -/
structure flukedmm_profile where
  model : Int
  modelname : String
  poll_period : Int
  timeout : Int
  deriving DecidableEq, Repr

/-- Modelled from the spec: the driver-private context `struct dev_context` of the
absent `fluke-dmm.h`, with the fields `api.c` reads and writes. -/
structure dev_context where
  profile : Option flukedmm_profile
  limit_samples : Nat
  limit_msec : Nat
  cb_data : Nat
  cmd_sent_at : Int
  expect_response : Bool
  deriving DecidableEq, Repr

end FlukeDmm


/-! ### The scan of the Openbench Logic Sniffer driver -/

namespace Ols

/-- The loop of `scan` that creates the 32 probes: `none` when an allocation
fails (the function then returns 0). -/
def scan_probes (ok : Nat → Bool) : Nat → List String → List sr_probe → Option (List sr_probe)
  | _, [], acc => some acc
  | i, name :: names, acc =>
    if ok i then scan_probes ok (i + 1) names (acc ++ [sr_probe_new i SR_PROBE_LOGIC true (some name)])
    else none

end Ols

/-! ### The scan of the Hantek DSO driver -/

namespace Hantek

/-- The table `dev_profiles[]` up to its terminator; the firmware names are given
without the directory `FIRMWARE_DIR`. -/
def dev_profiles : List dso_profile :=
  [{ orig_vid := 0x04b4, orig_pid := 0x2090, fw_vid := 0x04b5, fw_pid := 0x2090,
     vendor := "Hantek", model := "DSO-2090", buffersizes := [10240, 32768],
     firmware := "/hantek-dso-2090.fw" },
   { orig_vid := 0x04b4, orig_pid := 0x2150, fw_vid := 0x04b5, fw_pid := 0x2150,
     vendor := "Hantek", model := "DSO-2150", buffersizes := [10240, 32768],
     firmware := "/hantek-dso-2150.fw" },
   { orig_vid := 0x04b4, orig_pid := 0x2250, fw_vid := 0x04b5, fw_pid := 0x2250,
     vendor := "Hantek", model := "DSO-2250", buffersizes := [10240, 524288],
     firmware := "/hantek-dso-2250.fw" },
   { orig_vid := 0x04b4, orig_pid := 0x5200, fw_vid := 0x04b5, fw_pid := 0x5200,
     vendor := "Hantek", model := "DSO-5200", buffersizes := [10240, 14336],
     firmware := "/hantek-dso-5200.fw" },
   { orig_vid := 0x04b4, orig_pid := 0x520a, fw_vid := 0x04b5, fw_pid := 0x520a,
     vendor := "Hantek", model := "DSO-5200A", buffersizes := [10240, 524288],
     firmware := "/hantek-dso-5200A.fw" }]

/-- The probe names, the table `probe_names[]` up to its terminator. -/
def probe_names : List String := ["CH1", "CH2"]

/-- The enumerator `IDLE` of `dso.h`. -/
abbrev IDLE : Int := 0
/-- The macro `DEFAULT_TIMEBASE` of `dso.h`: the enumerator `TIME_100us`. -/
abbrev DEFAULT_TIMEBASE : Int := 3
/-- The macro `DEFAULT_VOLTAGE` of `dso.h`: the enumerator `VDIV_500MV`. -/
abbrev DEFAULT_VOLTAGE : Int := 5
/-- The macro `DEFAULT_COUPLING` of `dso.h`: the enumerator `COUPLING_DC`. -/
abbrev DEFAULT_COUPLING : Int := 1
/-- The macro `DEFAULT_FRAMESIZE` of `dso.h`: `FRAMESIZE_SMALL`. -/
abbrev DEFAULT_FRAMESIZE : Nat := 10240
/-- The macro `DEFAULT_TRIGGER_SOURCE` of `dso.h`. -/
abbrev DEFAULT_TRIGGER_SOURCE : String := "CH1"

/-- What the outside answers for one entry of the libusb device list during
`scan`: bus and address, the return value of `libusb_get_device_descriptor` and the vendor and
product identifiers of the descriptor, whether the allocation inside
`sr_dev_inst_new` succeeds, for each probe whether `sr_probe_new` succeeds, whether the context is
allocated, the return value of `ezusb_upload_firmware`, the monotonic time, and whether
`sr_usb_dev_inst_new` succeeds. -/
structure usb_io where
  bus : Nat
  address : Nat
  descriptor_ret : Int
  idVendor : Nat
  idProduct : Nat
  sdi_malloc_ok : Bool
  probe_malloc_ok : Nat → Bool
  devc_malloc_ok : Bool
  upload_ret : Int
  monotonic_time : Int
  usb_malloc_ok : Bool

/-- The loop of `dso_dev_new` that creates the probes: `none` when an allocation
fails. -/
def dso_probes (ok : Nat → Bool) : Nat → List String → List sr_probe → Option (List sr_probe)
  | _, [], acc => some acc
  | i, name :: names, acc =>
    if ok i then
      dso_probes ok (i + 1) names (acc ++ [sr_probe_new i SR_PROBE_ANALOG true (some name)])
    else none

/-- The function `dso_dev_new(index, prof)`: the new instance, `none` (`NULL`) when an allocation
fails. `half` is the `float` value 0.5 of the four default positions. On success the C function also appends
the instance to `drvc->instances`; the list holds a pointer, through which `scan`
then sets further fields, so `scan_loop` appends the instance as `scan` leaves it. -/
def dso_dev_new {F : Type} (half : F) (index : Int) (prof : dso_profile) (io : usb_io) :
    Option (sr_dev_inst (dev_context F)) :=
  if io.sdi_malloc_ok = false then none
  else
    match dso_probes io.probe_malloc_ok 0 probe_names [] with
    | none => none
    | some probes =>
      if io.devc_malloc_ok = false then none
      else
        some
          { sr_dev_inst_new index SR_ST_INITIALIZING (some prof.vendor) (some prof.model) none
              { profile := prof, cb_data := 0, limit_frames := 0, num_frames := 0,
                enabled_probes := [], fw_updated := 0, epin_maxpacketsize := 0,
                capture_empty_count := 0, dev_state := IDLE, timebase := DEFAULT_TIMEBASE,
                ch1_enabled := true, ch2_enabled := true, voltage_ch1 := DEFAULT_VOLTAGE,
                voltage_ch2 := DEFAULT_VOLTAGE, coupling_ch1 := DEFAULT_COUPLING,
                coupling_ch2 := DEFAULT_COUPLING, voffset_ch1 := half, voffset_ch2 := half,
                voffset_trigger := half,
                channel_levels := List.replicate 2 (List.replicate 9 (List.replicate 2 0)),
                framesize := DEFAULT_FRAMESIZE, filter_ch1 := false, filter_ch2 := false,
                filter_trigger := false, triggerslope := SLOPE_POSITIVE,
                triggersource := some DEFAULT_TRIGGER_SOURCE, triggerposition := half,
                triggermode := 0, samp_received := 0, samp_buffered := 0, trigger_offset := 0,
                framebuf := none } with
            driver := some "hantek-dso", probes := probes }

/-- The loop `for (j = 0; dev_profiles[j].orig_vid; j++)` of `scan`: the first profile that the
descriptor matches, and whether it matches the identifiers after the
firmware upload (`true`) or those before (`false`, tested first). -/
def match_profile (idVendor idProduct : Nat) : List dso_profile → Option (dso_profile × Bool)
  | [] => none
  | p :: l =>
    if idVendor = p.orig_vid ∧ idProduct = p.orig_pid then some (p, false)
    else if idVendor = p.fw_vid ∧ idProduct = p.fw_pid then some (p, true)
    else match_profile idVendor idProduct l

/-- The loop of `scan` over the libusb device list, from the count `devcnt` and
the lists `devices` and `drvc->instances` so far. `conn_devices` is `none` without `conn` option.
The result is `none` when `dso_dev_new` returns `NULL`, which `scan` dereferences. -/
def scan_loop {F : Type} (half : F) (conn_devices : Option (List sr_usb_dev_inst)) :
    List usb_io → Int → List (sr_dev_inst (dev_context F)) → List (sr_dev_inst (dev_context F)) →
    Option (List (sr_dev_inst (dev_context F)) × List (sr_dev_inst (dev_context F)))
  | [], _, devices, instances => some (devices, instances)
  | d :: l, devcnt, devices, instances =>
    if conn_devices.isSome = true
        ∧ usb_conn_match (conn_devices.getD []) d.bus d.address = false then
      scan_loop half conn_devices l devcnt devices instances
    else if d.descriptor_ret ≠ 0 then scan_loop half conn_devices l devcnt devices instances
    else
      match match_profile d.idVendor d.idProduct dev_profiles with
      | none => scan_loop half conn_devices l devcnt devices instances
      | some (prof, fw_loaded) =>
        match dso_dev_new half devcnt prof d with
        | none => none
        | some sdi =>
          let sdi1 : sr_dev_inst (dev_context F) :=
            if fw_loaded = true then
              { sdi with
                status := SR_ST_INACTIVE,
                inst_type := SR_INST_USB,
                conn := sr_usb_dev_inst_new d.usb_malloc_ok d.bus d.address }
            else
              { sdi with
                priv :=
                  if d.upload_ret = SR_OK then { sdi.priv with fw_updated := d.monotonic_time }
                  else sdi.priv,
                conn := sr_usb_dev_inst_new d.usb_malloc_ok d.bus 0xff }
          scan_loop half conn_devices l (devcnt + 1) (devices ++ [sdi1]) (instances ++ [sdi1])

end Hantek

/-! ### The scan of the Saleae Logic16 driver -/

namespace Logic16

/-- The macro `LOGIC16_VID`. -/
abbrev LOGIC16_VID : Nat := 0x21a9
/-- The macro `LOGIC16_PID`. -/
abbrev LOGIC16_PID : Nat := 0x1001

/-- The probe names, the table `probe_names[]` up to its terminator. -/
def probe_names : List String :=
  ["0", "1", "2", "3", "4", "5", "6", "7", "8", "9", "10", "11", "12", "13", "14", "15"]

/-- Modelled from the spec: the voltage ranges `enum voltage_range` of the absent
`protocol.h`, as `api.c` names them, and a value for zeroed memory. -/
inductive voltage_range where
  | VOLTAGE_RANGE_UNKNOWN
  | VOLTAGE_RANGE_18_33_V
  | VOLTAGE_RANGE_5_V
  deriving DecidableEq, Repr

/-- Modelled from the spec: the driver-private context `struct dev_context` of the
absent `protocol.h`, with the fields `scan` and the configuration functions of
`api.c` read and write. -/
structure dev_context where
  fw_updated : Int
  cur_samplerate : Nat
  limit_samples : Nat
  selected_voltage_range : voltage_range
  deriving DecidableEq, Repr

/-- What the outside answers for one entry of the libusb device list during
`scan`: bus and address, the return value of `libusb_get_device_descriptor` and the vendor and
product identifiers, whether the allocation inside `sr_dev_inst_new` succeeds, for each
probe whether `sr_probe_new` succeeds, whether the context is allocated, the answers
to `check_conf_profile` (return values of `libusb_get_device_descriptor` and `libusb_open`, the manufacturer and
product strings, `none` when the string read fails), the return value of
`ezusb_upload_firmware`, the monotonic time, and whether `sr_usb_dev_inst_new` succeeds. -/
structure usb_io where
  bus : Nat
  address : Nat
  descriptor_ret : Int
  idVendor : Nat
  idProduct : Nat
  sdi_malloc_ok : Bool
  probe_malloc_ok : Nat → Bool
  devc_malloc_ok : Bool
  profile_descriptor_ret : Int
  open_ret : Int
  manufacturer : Option String
  product : Option String
  upload_ret : Int
  monotonic_time : Int
  usb_malloc_ok : Bool

/-- The function `check_conf_profile(dev)`: TRUE when the descriptor is read, the device
opens, and the manufacturer and product strings are "Saleae LLC" and
"Logic S/16". -/
def check_conf_profile (io : usb_io) : Bool :=
  if io.profile_descriptor_ret ≠ 0 then false
  else if io.open_ret ≠ 0 then false
  else
    match io.manufacturer with
    | none => false
    | some m =>
      if m ≠ "Saleae LLC" then false
      else
        match io.product with
        | none => false
        | some p => if p ≠ "Logic S/16" then false else true

/-- The loop of `scan` that creates the 16 probes: `none` when an allocation
fails. -/
def scan_probes (ok : Nat → Bool) : Nat → List String → List sr_probe → Option (List sr_probe)
  | _, [], acc => some acc
  | i, name :: names, acc =>
    if ok i then scan_probes ok (i + 1) names (acc ++ [sr_probe_new i SR_PROBE_LOGIC true (some name)])
    else none

/-- The loop of `scan` over the libusb device list, from the lists `devices` and
`drvc->instances` so far. The flag is `false` when an allocation failed and the function
returned `NULL`. The instance is appended with the fields `scan` sets after
the two `g_slist_append` calls, as the lists hold a pointer to it; its index is the
length of the instance list before. `conn_devices` is `none` without `conn` option. -/
def scan_loop (conn_devices : Option (List sr_usb_dev_inst)) :
    List usb_io → List (sr_dev_inst dev_context) → List (sr_dev_inst dev_context) →
    Bool × List (sr_dev_inst dev_context) × List (sr_dev_inst dev_context)
  | [], devices, instances => (true, devices, instances)
  | d :: l, devices, instances =>
    if conn_devices.isSome = true
        ∧ usb_conn_match (conn_devices.getD []) d.bus d.address = false then
      scan_loop conn_devices l devices instances
    else if d.descriptor_ret ≠ 0 then scan_loop conn_devices l devices instances
    else if d.idVendor ≠ LOGIC16_VID ∨ d.idProduct ≠ LOGIC16_PID then
      scan_loop conn_devices l devices instances
    else if d.sdi_malloc_ok = false then (false, devices, instances)
    else
      match scan_probes d.probe_malloc_ok 0 probe_names [] with
      | none => (false, devices, instances)
      | some probes =>
        if d.devc_malloc_ok = false then (false, devices, instances)
        else
          let sdi : sr_dev_inst dev_context :=
            { sr_dev_inst_new (instances.length : Nat) SR_ST_INITIALIZING (some "Saleae")
                (some "Logic16") none
                { fw_updated := 0, cur_samplerate := 0, limit_samples := 0,
                  selected_voltage_range := voltage_range.VOLTAGE_RANGE_18_33_V } with
              driver := some "saleae-logic16", probes := probes }
          let sdi1 : sr_dev_inst dev_context :=
            if check_conf_profile d = true then
              { sdi with
                status := SR_ST_INACTIVE,
                inst_type := SR_INST_USB,
                conn := sr_usb_dev_inst_new d.usb_malloc_ok d.bus d.address }
            else
              { sdi with
                priv :=
                  if d.upload_ret = SR_OK then { sdi.priv with fw_updated := d.monotonic_time }
                  else sdi.priv,
                inst_type := SR_INST_USB,
                conn := sr_usb_dev_inst_new d.usb_malloc_ok d.bus 0xff }
          scan_loop conn_devices l (devices ++ [sdi1]) (instances ++ [sdi1])

end Logic16

/-! ### The Link Instruments MSO-19 driver (`hardware/link-mso19/api.c`) -/

namespace LinkMso19

/-- Modelled from the spec: the macro `USB_VENDOR` of the absent `protocol.h`. -/
abbrev USB_VENDOR : String := "3195"
/-- Modelled from the spec: the macro `USB_PRODUCT` of the absent `protocol.h`. -/
abbrev USB_PRODUCT : String := "f190"
/-- The probe names, the table `mso19_probe_names[]` up to its terminator; their number is
the macro `NUM_PROBES`. -/
def mso19_probe_names : List String := ["DSO", "0", "1", "2", "3", "4", "5", "6", "7"]

/-- Modelled from the spec: the protocol trigger of the context (absent
`protocol.h`), with the fields `scan` writes. -/
structure protocol_trigger where
  spimode : Nat
  word : List Nat
  mask : List Nat
  deriving DecidableEq, Repr

/-- Modelled from the spec: the driver-private context `struct dev_context` of the
absent `protocol.h`, with the fields `scan` reads and writes. -/
structure dev_context where
  hwrev : Int
  ctlbase1 : Nat
  protocol_trigger : protocol_trigger
  serial : Option sr_serial_dev_inst
  deriving DecidableEq, Repr

/-- What the outside answers for one entry of the udev list during `scan`:
the system name, whether a parent USB device is found, its attributes
`idVendor`, `idProduct`, `serial` and `product`, whether the context is allocated,
the return value of `mso_parse_serial` (absent `protocol.c`) and the context it
leaves, whether `sr_serial_dev_inst_new` succeeds, whether the allocation inside `sr_dev_inst_new`
succeeds, and for each probe whether `sr_probe_new` succeeds. -/
structure udev_io where
  sysname : String
  has_parent : Bool
  idVendor : String
  idProduct : String
  iSerial : String
  iProduct : String
  devc_malloc_ok : Bool
  parse_serial_ret : Int
  parsed : dev_context
  serial_new_ok : Bool
  sdi_malloc_ok : Bool
  probe_malloc_ok : Nat → Bool

/-- The loop of `scan` that creates the probes, the first one analog:
`none` when an allocation fails (the function then returns 0). -/
def scan_probes (ok : Nat → Bool) : Nat → List String → List sr_probe → Option (List sr_probe)
  | _, [], acc => some acc
  | i, name :: names, acc =>
    if ok i then
      scan_probes ok (i + 1) names
        (acc ++ [sr_probe_new i (if i = 0 then SR_PROBE_ANALOG else SR_PROBE_LOGIC) true
          (some name)])
    else none

/-- The loop of `scan` over the udev list, from the lists `devices` and
`drvc->instances` so far: the list returned and the instance list. The result is `none`
where the code writes or reads outside a string: the product name has no
blank (`iProduct + s + 1` then points behind the string) or its first word fills
the array `product` (`product[s] = 0` with `s` equal to its size). -/
def scan_loop (serialcomm : String) :
    List udev_io → List (sr_dev_inst dev_context) → List (sr_dev_inst dev_context) →
    Option (List (sr_dev_inst dev_context) × List (sr_dev_inst dev_context))
  | [], devices, instances => some (devices, instances)
  | d :: l, devices, instances =>
    if d.has_parent = false then scan_loop serialcomm l devices instances
    else if USB_VENDOR ≠ d.idVendor ∨ USB_PRODUCT ≠ d.idProduct then
      scan_loop serialcomm l devices instances
    else if strcspn d.iProduct ' ' > 32 ∨ d.iProduct.length - strcspn d.iProduct ' ' > 32 then
      scan_loop serialcomm l devices instances
    else if strcspn d.iProduct ' ' = 32 ∨ strcspn d.iProduct ' ' = d.iProduct.length then none
    else if d.devc_malloc_ok = false then some (devices, instances)
    else if d.parse_serial_ret ≠ SR_OK then some (devices, instances)
    else if d.serial_new_ok = false then some (devices, instances)
    else if d.sdi_malloc_ok = false then some (devices, instances)
    else
      match scan_probes d.probe_malloc_ok 0 mso19_probe_names [] with
      | none => some ([], instances)
      | some probes =>
        let sdi : sr_dev_inst dev_context :=
          { sr_dev_inst_new 0 SR_ST_INACTIVE
              (some (String.mk (d.iProduct.data.drop (strcspn d.iProduct ' ' + 1))))
              (some (String.mk (d.iProduct.data.take (strcspn d.iProduct ' '))))
              (some ("r" ++ toString d.parsed.hwrev))
              { d.parsed with
                ctlbase1 := 0,
                protocol_trigger := { spimode := 0, word := [0, 0, 0, 0],
                                      mask := [0xff, 0xff, 0xff, 0xff] },
                serial := some { port := String.mk (("/dev/" ++ d.sysname).data.take 31),
                                 serialcomm := serialcomm } } with
            driver := some "link-mso19", probes := probes }
        scan_loop serialcomm l (devices ++ [sdi]) (instances ++ [sdi])

end LinkMso19

/-! ### Concrete devices of the other drivers -/

/-- An Openbench Logic Sniffer device with the given status. -/
def Ols.dev0 (status : sr_status) : sr_dev_inst Ols.dev_context :=
  sr_dev_inst_new 0 status (some "Sump") (some "Logic Analyzer") (some "v1.0")
    { max_probes := 32, max_samples := 24576, max_samplerate := 200000000, protocol_version := 2,
      cur_samplerate := 200000, cur_samplerate_divider := 499, limit_samples := 1000,
      capture_ratio := 20, trigger_at := -1, probe_mask := 0xffffffff,
      trigger_mask := [0, 0, 0, 0], trigger_value := [0, 0, 0, 0], num_stages := 0,
      flag_reg := 0, num_transfers := 0, num_samples := 0, num_bytes := 0, rle_count := 0,
      sample := [0, 0, 0, 0], tmp_sample := [0, 0, 0, 0], raw_sample_buf := none }

/-- The Active device `Ols.dev0` after `config_set` of the pattern mode
"external" (`ols_set_samplerate` is not reached). -/
def Ols.dev_external : sr_dev_inst Ols.dev_context :=
  (Ols.config_set (fun d _ => (SR_OK, d)) SR_CONF_PATTERN_MODE
    (GVariant.string "external" : GVariant Unit) (Ols.dev0 SR_ST_ACTIVE)).2

/-- A Hantek DSO-2090 device with the given status; its `float` fields are
left without content. -/
def Hantek.dev0 (status : sr_status) : sr_dev_inst (Hantek.dev_context Unit) :=
  sr_dev_inst_new 0 status (some "Hantek") (some "DSO-2090") none
    { profile := { orig_vid := 0x04b4, orig_pid := 0x2090, fw_vid := 0x04b5, fw_pid := 0x2090,
                   vendor := "Hantek", model := "DSO-2090", buffersizes := [10240, 32768],
                   firmware := "hantek-dso-2090.fw" },
      cb_data := 0, limit_frames := 0, num_frames := 0, enabled_probes := [], fw_updated := 0,
      epin_maxpacketsize := 0, capture_empty_count := 0, dev_state := 0, timebase := 3,
      ch1_enabled := true, ch2_enabled := true, voltage_ch1 := 5, voltage_ch2 := 5,
      coupling_ch1 := 1, coupling_ch2 := 1, voffset_ch1 := (), voffset_ch2 := (),
      voffset_trigger := (), channel_levels := [], framesize := 10240, filter_ch1 := false,
      filter_ch2 := false, filter_trigger := false, triggerslope := 0,
      triggersource := some "CH1", triggerposition := (), triggermode := 0, samp_received := 0,
      samp_buffered := 0, trigger_offset := 0, framebuf := none }

/-- Floating-point operations on a type without content, for `Hantek.dev0`. -/
def Hantek.fp_unit : Hantek.fp_ops Unit Unit :=
  { zero := (), one := (), lt := fun _ _ => false, narrow := fun _ => () }

/-- An Inactive USB device at bus 1, address 2, with the given libusb
handle. -/
def usb_dev0 (devhdl : Option Nat) : sr_dev_inst Unit :=
  { sr_dev_inst_new 0 SR_ST_INACTIVE (some "v") (some "m") none () with
    inst_type := SR_INST_USB,
    conn := some (sr_conn.usb { bus := 1, address := 2, devhdl := devhdl }) }

/-- Three logic probes with the indices 0, 1 and 2; the probe 1 is disabled
and has a trigger. -/
def three_probes : List sr_probe :=
  [sr_probe_new 0 SR_PROBE_LOGIC true (some "A"),
   { sr_probe_new 1 SR_PROBE_LOGIC false (some "B") with trigger := some "r" },
   sr_probe_new 2 SR_PROBE_LOGIC true (some "C")]

/-- A virtual device (no driver, no private context) with the probes
`three_probes`. -/
def three_probe_dev : sr_dev_inst Unit :=
  { sr_dev_inst_new 0 SR_ST_INACTIVE (some "v") (some "m") none () with probes := three_probes }

theorem probe_scan_absent (upd : sr_probe → sr_probe) (probenum : Int) (l : List sr_probe)
    (h : ∀ p ∈ l, p.index ≠ probenum) : probe_scan upd probenum l = (SR_ERR_ARG, l) := by
  induction l with
  | nil => rfl
  | cons p l ih =>
    have hp := h p (List.mem_cons_self _ _)
    have hl := ih (fun q hq => h q (List.mem_cons_of_mem _ hq))
    simp [probe_scan, hp, hl]

theorem probe_scan_first (upd : sr_probe → sr_probe) (probenum : Int) (pre post : List sr_probe)
    (p : sr_probe) (hpre : ∀ q ∈ pre, q.index ≠ probenum) (hp : p.index = probenum) :
    probe_scan upd probenum (pre ++ p :: post) = (SR_OK, pre ++ upd p :: post) := by
  induction pre with
  | nil => simp [probe_scan, hp]
  | cons q pre ih =>
    have hq := hpre q (List.mem_cons_self _ _)
    have hl := ih (fun x hx => hpre x (List.mem_cons_of_mem _ hx))
    simp [probe_scan, hq, hl]

theorem first_with_index (probenum : Int) (l : List sr_probe)
    (h : ∃ p ∈ l, p.index = probenum) :
    ∃ pre p post, l = pre ++ p :: post ∧ (∀ q ∈ pre, q.index ≠ probenum) ∧ p.index = probenum := by
  induction l with
  | nil => simp at h
  | cons a l ih =>
    by_cases ha : a.index = probenum
    · exact ⟨[], a, l, rfl, by simp, ha⟩
    · obtain ⟨p, hp, hpi⟩ := h
      rcases List.mem_cons.mp hp with rfl | hp
      · exact absurd hpi ha
      · obtain ⟨pre, q, post, h1, h2, h3⟩ := ih ⟨p, hp, hpi⟩
        refine ⟨a :: pre, q, post, by simp [h1], ?_, h3⟩
        intro x hx
        rcases List.mem_cons.mp hx with rfl | hx
        · exact ha
        · exact h2 x hx

namespace Sigma

theorem packets_append (a b : List Event) : packets (a ++ b) = packets a ++ packets b := by
  induction a with
  | nil => rfl
  | cons e a ih => cases e <;> simp [packets, ih]

theorem packets_silent (l : List Event) (h : ∀ e ∈ l, silent_event e = true) : packets l = [] := by
  induction l with
  | nil => rfl
  | cons e l ih =>
    have he := h e (List.mem_cons_self _ _)
    have hl := ih (fun x hx => h x (List.mem_cons_of_mem _ hx))
    cases e <;> simp_all [packets, silent_event]

theorem packets_data (l : List Event) (h : ∀ e ∈ l, data_event e = true) :
    ∀ p ∈ packets l, p = SR_DF_TRIGGER ∨ ∃ a b c, p = SR_DF_LOGIC a b c := by
  induction l with
  | nil => intro p hp; simp [packets] at hp
  | cons e l ih =>
    have he := h e (List.mem_cons_self _ _)
    have hl := ih (fun x hx => h x (List.mem_cons_of_mem _ hx))
    intro p hp
    cases e with
    | send q =>
      simp only [packets, List.mem_cons] at hp
      rcases hp with rfl | hp
      · cases p <;> simp_all [data_event]
      · exact hl p hp
    | _ => exact hl p (by simpa [packets] using hp)

theorem send_pending_data (samples : Nat → Nat) (fuel sent n : Nat) :
    ∀ e ∈ send_pending samples fuel sent n, data_event e = true := by
  induction fuel generalizing sent with
  | zero => intro e he; simp [send_pending] at he
  | succ f ih =>
    intro e he
    unfold send_pending at he
    split at he
    · rcases List.mem_cons.mp he with rfl | h
      · rfl
      · exact ih _ e h
    · simp at he

theorem range_map_split (samples : Nat → Nat) (sent a b : Nat) :
    (List.range (a + b)).map (fun j => samples (sent + j))
      = (List.range a).map (fun j => samples (sent + j))
        ++ (List.range b).map (fun j => samples (sent + a + j)) := by
  rw [List.range_add, List.map_append, List.map_map]
  congr 1
  apply List.map_congr_left
  intro j _
  simp [Nat.add_assoc]

/-- The fuel `n` is enough for the loop `while (sent < n)`: with at least
`n - sent` iterations allowed, the packets sent carry exactly the units
`samples[sent .. n)`, in order. -/
theorem send_pending_complete (samples : Nat → Nat) (fuel sent n : Nat) (h : n - sent ≤ fuel) :
    logic_units (send_pending samples fuel sent n)
      = (List.range (n - sent)).map (fun j => samples (sent + j)) := by
  induction fuel generalizing sent with
  | zero =>
    have h0 : n - sent = 0 := Nat.le_zero.mp h
    simp [send_pending, logic_units, h0]
  | succ f ih =>
    unfold send_pending
    split
    · rename_i hlt
      have hpos : 0 < min 2048 (n - sent) := by
        have : 0 < n - sent := Nat.sub_pos_of_lt hlt
        omega
      have hle : min 2048 (n - sent) ≤ n - sent := Nat.min_le_right _ _
      have hrest : n - (sent + min 2048 (n - sent)) ≤ f := by omega
      simp only [logic_packet, logic_units]
      rw [ih (sent + min 2048 (n - sent)) hrest]
      have hsplit : n - sent = min 2048 (n - sent) + (n - (sent + min 2048 (n - sent))) := by
        omega
      conv_rhs => rw [hsplit]
      rw [range_map_split]
    · rename_i hge
      have h0 : n - sent = 0 := by omega
      simp [logic_units, h0]
theorem cluster_out_data (devc : dev_context) (buf : Nat → Nat) (triggerts : Int) (i : Nat)
    (st : decode_state) : ∀ e ∈ cluster_out devc buf triggerts i st, data_event e = true := by
  intro e he
  simp only [cluster_out, trigger_out, rest_out, List.mem_append] at he
  rcases he with he | he
  · exact send_pending_data _ _ _ _ e he
  · split at he
    · rcases List.mem_append.mp he with he | he
      · rcases List.mem_append.mp he with he | he
        · split at he
          · simp at he; subst he; rfl
          · simp at he
        · split at he
          · simp at he; subst he; rfl
          · simp at he
      · split at he
        · simp at he; subst he; rfl
        · simp at he
    · split at he
      · simp at he; subst he; rfl
      · simp at he

theorem decode_cluster_data (devc : dev_context) (buf : Nat → Nat) (triggerts : Int)
    (limit_chunk under i : Nat) (st : decode_state) (h : ∀ e ∈ st.out, data_event e = true) :
    ∀ e ∈ (decode_cluster devc buf triggerts limit_chunk under i st).1.out,
      data_event e = true := by
  unfold decode_cluster
  split
  · exact h
  · intro e he
    rcases List.mem_append.mp he with he | he
    · exact h e he
    · exact cluster_out_data _ _ _ _ _ e he

theorem decode_loop_data (devc : dev_context) (buf : Nat → Nat) (triggerts : Int)
    (limit_chunk under : Nat) (k i : Nat) (st : decode_state)
    (h : ∀ e ∈ st.out, data_event e = true) :
    ∀ e ∈ (decode_loop devc buf triggerts limit_chunk under k i st).out, data_event e = true := by
  induction k generalizing i st with
  | zero => exact h
  | succ k ih =>
    unfold decode_loop
    split
    · exact ih _ _ (decode_cluster_data devc buf triggerts limit_chunk under i st h)
    · exact decode_cluster_data devc buf triggerts limit_chunk under i st h

theorem decode_chunk_ts_data (devc : dev_context) (buf : Nat → Nat) (lastts lastsample : Nat)
    (triggerpos : Int) (limit_chunk : Nat) (stack : Nat → Nat) (under : Nat) :
    ∀ e ∈ (decode_chunk_ts devc buf lastts lastsample triggerpos limit_chunk stack under).2.2,
      data_event e = true := by
  unfold decode_chunk_ts
  exact decode_loop_data _ _ _ _ _ _ _ _ (by intro e he; simp at he)

theorem download_loop_spec (io : rd_io) (numchunks : Int) (k i : Nat) (devc : dev_context)
    (out : List Event) (h : ∀ e ∈ out, data_event e = true) :
    (download_loop io numchunks k i devc out).1.state.state = devc.state.state
    ∧ ∀ e ∈ (download_loop io numchunks k i devc out).2, data_event e = true := by
  induction k generalizing i devc out with
  | zero => exact ⟨rfl, h⟩
  | succ k ih =>
    unfold download_loop
    refine ih _ _ _ ?_
    intro e he
    rcases List.mem_append.mp he with he | he
    · exact h e he
    · exact decode_chunk_ts_data _ _ _ _ _ _ _ _ e he

theorem receive_data_download_cases (io : rd_io) (numchunks : Int) (devc : dev_context) :
    ((receive_data_download io numchunks devc).2 = [Event.send SR_DF_END]
      ∧ devc.state.state = SIGMA_DOWNLOAD
      ∧ (receive_data_download io numchunks devc).1.state.state = SIGMA_IDLE)
    ∨ ((receive_data_download io numchunks devc).1.state.state = devc.state.state
      ∧ ∀ e ∈ (receive_data_download io numchunks devc).2, data_event e = true) := by
  unfold receive_data_download
  by_cases hd : devc.state.state = SIGMA_DOWNLOAD
  · rw [if_pos hd]
    by_cases hc : devc.state.chunks_downloaded ≥ numchunks
    · rw [if_pos hc]
      exact Or.inl ⟨rfl, hd, rfl⟩
    · rw [if_neg hc]
      right
      have h := download_loop_spec io numchunks
        (min 32 (numchunks - devc.state.chunks_downloaded)).toNat 0
        (if devc.state.chunks_downloaded = 0 then
          { devc with state :=
            { devc.state with lastts := wrap_dec 16 (RL16 io.dram 0), lastsample := 0 } }
         else devc)
        [Event.read_dram (devc.state.chunks_downloaded.toNat % 65536)
          (min 32 (numchunks - devc.state.chunks_downloaded)).toNat]
        (by intro e he; simp at he; subst he; rfl)
      refine ⟨?_, h.2⟩
      rw [h.1]
      split <;> rfl
  · rw [if_neg hd]
    exact Or.inr ⟨rfl, by intro e he; simp at he⟩

theorem data_no_end (l : List Event) (h : ∀ e ∈ l, data_event e = true) :
    SR_DF_END ∉ packets l ∧ SR_DF_HEADER ∉ packets l := by
  constructor
  · intro hm
    rcases packets_data l h _ hm with h1 | ⟨a, b, c, h1⟩ <;> cases h1
  · intro hm
    rcases packets_data l h _ hm with h1 | ⟨a, b, c, h1⟩ <;> cases h1

/-- An invocation of `receive_data` on an idle device sends no packet and
leaves it idle. -/
theorem receive_data_idle (io : rd_io) (sdi : sr_dev_inst dev_context)
    (h : sdi.priv.state.state = SIGMA_IDLE) :
    (receive_data io sdi).1.priv.state.state = SIGMA_IDLE
    ∧ packets (receive_data io sdi).2 = [] := by
  unfold receive_data
  dsimp only
  rw [if_pos h]
  exact ⟨h, rfl⟩

/-- An invocation of `receive_data` either sends no packet and leaves the
acquisition state as it was, or it runs the download block from some context
`mid`, on a device that was not idle, and sends what that block sends. -/
theorem receive_data_shape (io : rd_io) (sdi : sr_dev_inst dev_context) :
    (packets (receive_data io sdi).2 = []
      ∧ (receive_data io sdi).1.priv.state.state = sdi.priv.state.state)
    ∨ (sdi.priv.state.state ≠ SIGMA_IDLE
      ∧ ∃ (numchunks : Int) (mid : dev_context),
          (receive_data io sdi).1.priv = (receive_data_download io numchunks mid).1
          ∧ packets (receive_data io sdi).2 = packets (receive_data_download io numchunks mid).2
          ∧ (mid.state.state = sdi.priv.state.state ∨ mid.state.state = SIGMA_DOWNLOAD)) := by
  unfold receive_data
  dsimp only
  by_cases hi : sdi.priv.state.state = SIGMA_IDLE
  · rw [if_pos hi]
    exact Or.inl ⟨rfl, rfl⟩
  · rw [if_neg hi]
    by_cases hc : sdi.priv.state.state = SIGMA_CAPTURE
    · rw [if_pos hc]
      split
      · exact Or.inl ⟨rfl, rfl⟩
      · refine Or.inr ⟨hi, _, _, rfl, ?_, Or.inr rfl⟩
        simp [packets, dev_acquisition_stop, sigma_set_register, packets_append]
    · rw [if_neg hc]
      refine Or.inr ⟨hi, _, _, rfl, ?_, Or.inl rfl⟩
      simp [packets]

/-- An invocation of `receive_data` never sends a Header, and when it sends
an End, that is its only packet, it comes from the download block entered in
the state DOWNLOAD, and it leaves the device idle. -/
theorem receive_data_end (io : rd_io) (sdi : sr_dev_inst dev_context) :
    SR_DF_HEADER ∉ packets (receive_data io sdi).2
    ∧ (SR_DF_END ∈ packets (receive_data io sdi).2 →
        packets (receive_data io sdi).2 = [SR_DF_END]
        ∧ sdi.priv.state.state ≠ SIGMA_IDLE
        ∧ (receive_data io sdi).1.priv.state.state = SIGMA_IDLE
        ∧ ∃ (numchunks : Int) (mid : dev_context),
            mid.state.state = SIGMA_DOWNLOAD
            ∧ receive_data_download io numchunks mid
                = ((receive_data io sdi).1.priv, [Event.send SR_DF_END])) := by
  rcases receive_data_shape io sdi with ⟨h1, _⟩ | ⟨hi, numchunks, mid, h1, h2, _⟩
  · rw [h1]
    exact ⟨by simp, fun h => by simp at h⟩
  · rw [h2, h1]
    rcases receive_data_download_cases io numchunks mid with ⟨e1, e2, e3⟩ | ⟨_, e2⟩
    · rw [e1]
      refine ⟨by simp [packets], fun _ => ⟨rfl, hi, e3, numchunks, mid, e2, ?_⟩⟩
      exact Prod.ext rfl e1
    · have hno := data_no_end _ e2
      exact ⟨hno.2, fun hm => absurd hm hno.1⟩
theorem receive_run_idle (ios : List rd_io) (sdi : sr_dev_inst dev_context)
    (h : sdi.priv.state.state = SIGMA_IDLE) :
    ∀ s ∈ receive_run ios sdi, packets s.trace = [] := by
  induction ios generalizing sdi with
  | nil => intro s hs; simp [receive_run] at hs
  | cons io ios ih =>
    intro s hs
    simp only [receive_run, List.mem_cons] at hs
    rcases hs with rfl | hs
    · exact (receive_data_idle io sdi h).2
    · exact ih _ (receive_data_idle io sdi h).1 s hs

theorem receive_run_end (ios : List rd_io) (sdi : sr_dev_inst dev_context)
    (pre post : List rd_step) (s : rd_step) (hrun : receive_run ios sdi = pre ++ s :: post)
    (hend : SR_DF_END ∈ packets s.trace) :
    (∀ t ∈ pre, SR_DF_END ∉ packets t.trace) ∧ (∀ t ∈ post, packets t.trace = []) := by
  induction ios generalizing sdi pre with
  | nil => simp [receive_run] at hrun
  | cons io ios ih =>
    simp only [receive_run] at hrun
    cases pre with
    | nil =>
      simp only [List.nil_append, List.cons.injEq] at hrun
      obtain ⟨hs, hpost⟩ := hrun
      subst hs
      refine ⟨by intro t ht; simp at ht, ?_⟩
      rw [← hpost]
      exact receive_run_idle ios _ ((receive_data_end io sdi).2 hend).2.2.1
    | cons p pre =>
      simp only [List.cons_append, List.cons.injEq] at hrun
      obtain ⟨hp, hrest⟩ := hrun
      have hih := ih _ pre hrest
      refine ⟨?_, hih.2⟩
      intro t ht
      rcases List.mem_cons.mp ht with rfl | ht
      · intro hm
        rw [← hp] at hm
        have hidle := ((receive_data_end io sdi).2 hm).2.2.1
        have hs := receive_run_idle ios _ hidle s (by rw [hrest]; simp)
        rw [hs] at hend
        simp at hend
      · exact hih.1 t ht

theorem receive_run_step (ios : List rd_io) (sdi : sr_dev_inst dev_context) :
    ∀ s ∈ receive_run ios sdi, s.after = (receive_data s.io s.before).1
      ∧ s.trace = (receive_data s.io s.before).2 := by
  induction ios generalizing sdi with
  | nil => intro s hs; simp [receive_run] at hs
  | cons io ios ih =>
    intro s hs
    simp only [receive_run, List.mem_cons] at hs
    rcases hs with rfl | hs
    · exact ⟨rfl, rfl⟩
    · exact ih _ s hs

theorem silent_of_all (l : List Event) (h : l.all silent_event = true) :
    ∀ e ∈ l, silent_event e = true := fun e he => List.all_eq_true.mp h e he

theorem upload_firmware_silent (fw : fw_io) (idx : Int) (devc : dev_context)
    (r : Int × dev_context × List Event) (h : upload_firmware fw idx devc = some r) :
    ∀ e ∈ r.2.2, silent_event e = true := by
  unfold upload_firmware at h
  dsimp only at h
  repeat' split at h
  all_goals first
    | (cases h; done)
    | (cases h; exact silent_of_all _ rfl)
theorem set_samplerate_silent (past : Nat) (fw : fw_io) (devc : dev_context) (samplerate : Nat)
    (r : Int × dev_context × List Event) (h : set_samplerate past fw devc samplerate = some r) :
    ∀ e ∈ r.2.2, silent_event e = true := by
  unfold set_samplerate at h
  split at h
  · cases h; intro e he; simp at he
  · simp only [Option.bind_eq_some] at h
    obtain ⟨r2, hr2, h⟩ := h
    obtain ⟨r1, hr1, hr2⟩ := hr2
    have h1 : ∀ e ∈ r1.2.2, silent_event e = true := by
      split at hr1
      · simp only [Option.map_eq_some'] at hr1
        obtain ⟨u, hu, rfl⟩ := hr1
        exact upload_firmware_silent _ _ _ u hu
      · cases hr1; intro e he; simp at he
    have h2 : ∀ e ∈ r2.2.2, silent_event e = true := by
      split at hr2
      · simp only [Option.map_eq_some'] at hr2
        obtain ⟨u, hu, rfl⟩ := hr2
        intro e he
        rcases List.mem_append.mp he with he | he
        · exact h1 e he
        · exact upload_firmware_silent _ _ _ u hu e he
      · split at hr2
        · simp only [Option.map_eq_some'] at hr2
          obtain ⟨u, hu, rfl⟩ := hr2
          intro e he
          rcases List.mem_append.mp he with he | he
          · exact h1 e he
          · exact upload_firmware_silent _ _ _ u hu e he
        · cases hr2; exact h1
    split at h
    · cases h
    · split at h
      · cases h
      · cases h; exact h2

theorem sigma_write_trigger_lut_silent (lut : triggerlut) :
    ∀ e ∈ sigma_write_trigger_lut lut, silent_event e = true := by
  intro e he
  simp only [sigma_write_trigger_lut, List.mem_append, List.mem_flatten, List.mem_map,
    List.mem_singleton] at he
  rcases he with ⟨l, ⟨i, _, rfl⟩, he⟩ | rfl
  · simp at he
    rcases he with rfl | rfl <;> rfl
  · rfl

theorem start_program_packets (now : timeval) (cb_data : Nat) (sdi : sr_dev_inst dev_context)
    (r : Int × sr_dev_inst dev_context × List Event) (h : start_program now cb_data sdi = some r) :
    r.1 = SR_OK ∧ packets r.2.2 = [SR_DF_HEADER]
    ∧ r.2.1.priv.state.state = SIGMA_CAPTURE := by
  unfold start_program at h
  dsimp only at h
  simp only [Option.map_eq_some'] at h
  obtain ⟨t3, ht3, rfl⟩ := h
  have hs3 : packets t3 = [] := by
    apply packets_silent
    split at ht3
    · cases ht3; exact silent_of_all _ rfl
    · split at ht3
      · cases ht3; exact silent_of_all _ rfl
      · split at ht3
        · cases ht3
        · cases ht3; exact silent_of_all _ rfl
  refine ⟨rfl, ?_, rfl⟩
  simp only [packets_append, hs3, std_session_send_df_header]
  have ht : packets (if sdi.priv.cur_samplerate ≥ SR_MHZ 100 then
      (((1 <<< LEDSEL1) ||| (find_triggerpin (sdi.priv.trigger.risingmask ||| sdi.priv.trigger.fallingmask)
            &&& 0x7)
          ||| (if sdi.priv.trigger.fallingmask ≠ 0 then 1 <<< 3 else 0)) % 256,
        [sigma_set_register WRITE_TRIGGER_SELECT1 0x81])
    else if sdi.priv.cur_samplerate ≤ SR_MHZ 50 then
      ((1 <<< LEDSEL1) ||| (1 <<< LEDSEL0), sigma_write_trigger_lut (build_basic_trigger sdi.priv))
    else (0, [])).2 = [] := by
    apply packets_silent
    split
    · exact silent_of_all _ rfl
    · split
      · exact sigma_write_trigger_lut_silent _
      · exact silent_of_all _ rfl
  rw [ht]
  rfl
end Sigma

set_option maxRecDepth 100000 in
/-- The End packet is reached: on the capturing device `started_100mhz`, an
invocation of `receive_data` after the time limit, with an empty sample
memory, stops the acquisition and sends exactly End; with one chunk in the
sample memory the first invocation sends 127 packets, none of them End, and
the second sends exactly End. -/
theorem sigma_end_reachable :
    Sigma.packets (Sigma.receive_data (Sigma.io_stop 1) Sigma.started_100mhz).2 = [SR_DF_END]
    ∧ (Sigma.packets (Sigma.receive_data (Sigma.io_stop 2) Sigma.started_100mhz).2).length = 127
    ∧ Sigma.packets (Sigma.receive_data (Sigma.io_stop 2)
        (Sigma.receive_data (Sigma.io_stop 2) Sigma.started_100mhz).1).2 = [SR_DF_END] := by
  refine ⟨by decide, by decide, by decide⟩

/-- The download block of `receive_data` either is entered in the state
DOWNLOAD with all chunks downloaded, sends End and sets the state IDLE, or it
keeps the acquisition state and sends only Logic and Trigger packets. -/
theorem Sigma.receive_data_download_end (io : Sigma.rd_io) (numchunks : Int)
    (devc : Sigma.dev_context) :
    (devc.state.state = Sigma.SIGMA_DOWNLOAD ∧ devc.state.chunks_downloaded ≥ numchunks
      ∧ Sigma.receive_data_download io numchunks devc
          = ({ devc with state := { devc.state with state := Sigma.SIGMA_IDLE } },
             [Sigma.Event.send SR_DF_END]))
    ∨ ((Sigma.receive_data_download io numchunks devc).1.state.state = devc.state.state
      ∧ ∀ e ∈ (Sigma.receive_data_download io numchunks devc).2, Sigma.data_event e = true) := by
  rcases Sigma.receive_data_download_cases io numchunks devc with ⟨e1, e2, e3⟩ | h
  · left
    unfold Sigma.receive_data_download at e1 ⊢
    rw [if_pos e2] at e1 ⊢
    by_cases hc : devc.state.chunks_downloaded ≥ numchunks
    · rw [if_pos hc]
      exact ⟨e2, hc, rfl⟩
    · exfalso
      rw [if_neg hc] at e1
      have h := (Sigma.download_loop_spec io numchunks
        (min 32 (numchunks - devc.state.chunks_downloaded)).toNat 0
        (if devc.state.chunks_downloaded = 0 then
          { devc with state :=
            { devc.state with lastts := wrap_dec 16 (Sigma.RL16 io.dram 0), lastsample := 0 } }
         else devc)
        [Sigma.Event.read_dram (devc.state.chunks_downloaded.toNat % 65536)
          (min 32 (numchunks - devc.state.chunks_downloaded)).toNat]
        (by intro e he; simp at he; subst he; rfl)).2
      dsimp only at e1
      rw [e1] at h
      have := h _ (List.mem_singleton.mpr rfl)
      simp [Sigma.data_event] at this
  · exact Or.inr h

/-- An invocation of `receive_data` that sends an End reaches the download
block with the context `mid`: the context at entry with the positions just
read when the device was in the state DOWNLOAD, and the context
`dev_acquisition_stop` leaves when the device was in the state CAPTURE. In `mid` the state is
DOWNLOAD and all chunks are downloaded; the invocation leaves `mid` with the
state IDLE. Conversely an invocation that takes a device that is not idle to
the state IDLE sends exactly End. -/
theorem Sigma.receive_data_end_transition (io : Sigma.rd_io)
    (sdi : sr_dev_inst Sigma.dev_context) :
    (SR_DF_END ∈ Sigma.packets (Sigma.receive_data io sdi).2 →
      ∃ (entry : sr_dev_inst Sigma.dev_context) (mid : Sigma.dev_context),
        entry = { sdi with priv := { sdi.priv with state :=
                  { sdi.priv.state with
                    stoppos := (Sigma.sigma_read_pos io.pos).1
                    triggerpos := (Sigma.sigma_read_pos io.pos).2 } } }
        ∧ ((sdi.priv.state.state = Sigma.SIGMA_DOWNLOAD ∧ mid = entry.priv)
          ∨ (sdi.priv.state.state = Sigma.SIGMA_CAPTURE
              ∧ mid = (Sigma.dev_acquisition_stop io.stop_pos io.modestatus entry).2.1.priv))
        ∧ mid.state.state = Sigma.SIGMA_DOWNLOAD
        ∧ mid.state.chunks_downloaded
            ≥ ((((Sigma.sigma_read_pos io.pos).1 + 511) % 2 ^ 32 / 512 : Nat) : Int)
        ∧ (Sigma.receive_data io sdi).1.priv
            = { mid with state := { mid.state with state := Sigma.SIGMA_IDLE } })
    ∧ (sdi.priv.state.state ≠ Sigma.SIGMA_IDLE →
        (Sigma.receive_data io sdi).1.priv.state.state = Sigma.SIGMA_IDLE →
        Sigma.packets (Sigma.receive_data io sdi).2 = [SR_DF_END]) := by
  unfold Sigma.receive_data
  dsimp only
  by_cases hi : sdi.priv.state.state = Sigma.SIGMA_IDLE
  · rw [if_pos hi]
    exact ⟨fun h => by simp [Sigma.packets] at h, fun h => absurd hi h⟩
  · rw [if_neg hi]
    by_cases hc : sdi.priv.state.state = Sigma.SIGMA_CAPTURE
    · rw [if_pos hc]
      split
      · refine ⟨fun h => by simp [Sigma.packets] at h, fun _ h => ?_⟩
        exact absurd h hi
      · rcases Sigma.receive_data_download_end io
          ((((Sigma.sigma_read_pos io.pos).1 + 511) % 2 ^ 32 / 512 : Nat) : Int)
          (Sigma.dev_acquisition_stop io.stop_pos io.modestatus
            { sdi with priv := { sdi.priv with state :=
              { sdi.priv.state with
                stoppos := (Sigma.sigma_read_pos io.pos).1
                triggerpos := (Sigma.sigma_read_pos io.pos).2 } } }).2.1.priv
          with ⟨e1, e2, e3⟩ | ⟨e1, e2⟩
        · rw [e3]
          refine ⟨fun _ => ⟨_, _, rfl, Or.inr ⟨hc, rfl⟩, e1, e2, rfl⟩, fun _ _ => ?_⟩
          simp [Sigma.packets, Sigma.dev_acquisition_stop, Sigma.sigma_set_register,
            Sigma.packets_append]
        · constructor
          · intro h
            exfalso
            have hno := (Sigma.data_no_end _ e2).1
            apply hno
            simpa [Sigma.packets, Sigma.dev_acquisition_stop, Sigma.sigma_set_register,
              Sigma.packets_append] using h
          · intro _ h
            exfalso
            dsimp only at h
            rw [e1] at h
            simp [Sigma.dev_acquisition_stop] at h
    · rw [if_neg hc]
      rcases Sigma.receive_data_download_end io
          ((((Sigma.sigma_read_pos io.pos).1 + 511) % 2 ^ 32 / 512 : Nat) : Int)
          ({ sdi.priv with state :=
              { sdi.priv.state with
                stoppos := (Sigma.sigma_read_pos io.pos).1
                triggerpos := (Sigma.sigma_read_pos io.pos).2 } })
          with ⟨e1, e2, e3⟩ | ⟨e1, e2⟩
      · rw [e3]
        refine ⟨fun _ => ⟨_, _, rfl, Or.inl ⟨e1, rfl⟩, e1, e2, rfl⟩, fun _ _ => ?_⟩
        simp [Sigma.packets]
      · constructor
        · intro h
          exfalso
          have hno := (Sigma.data_no_end _ e2).1
          apply hno
          simpa [Sigma.packets] using h
        · intro _ h
          exfalso
          dsimp only at h
          rw [e1] at h
          exact hi h


/-- C1: when `dev_acquisition_start` of the ASIX Sigma driver returns `SR_OK`, the
packets it sent are exactly one Header, and the device is left in the state
CAPTURE. In every sequence of `receive_data` invocations that follows, whatever the
hardware answers, no invocation sends a Header, and an invocation `s` sends
an End exactly when it takes the device from a state other than IDLE to the
state IDLE. Such an invocation sends nothing else (End is its only, hence
last, packet). It sends the End from the download block, which it reaches with
the context `mid` in the state DOWNLOAD and with all chunks downloaded, and
it leaves `mid` with the state set to IDLE; `mid` is the context the invocation
started from (with the positions just read) when that was in the state
DOWNLOAD, and the context `dev_acquisition_stop` left in this same invocation when it
started in the state CAPTURE. No earlier invocation (`pre`) sent an End and
no later invocation (`post`) sends any packet. -/
theorem C1_sigma_header_first_end_last (past : Nat) (fw : Sigma.fw_io) (now : Sigma.timeval)
    (cb_data : Nat) (sdi sdi1 : sr_dev_inst Sigma.dev_context) (tr : List Sigma.Event)
    (h : Sigma.dev_acquisition_start past fw now cb_data sdi = some (SR_OK, sdi1, tr)) :
    Sigma.packets tr = [SR_DF_HEADER]
    ∧ sdi1.priv.state.state = Sigma.SIGMA_CAPTURE
    ∧ ∀ (ios : List Sigma.rd_io) (pre post : List Sigma.rd_step) (s : Sigma.rd_step),
        Sigma.receive_run ios sdi1 = pre ++ s :: post →
        SR_DF_HEADER ∉ Sigma.packets s.trace
        ∧ (SR_DF_END ∈ Sigma.packets s.trace ↔
            (s.before.priv.state.state ≠ Sigma.SIGMA_IDLE
              ∧ s.after.priv.state.state = Sigma.SIGMA_IDLE))
        ∧ (SR_DF_END ∈ Sigma.packets s.trace →
            Sigma.packets s.trace = [SR_DF_END]
            ∧ (∃ (entry : sr_dev_inst Sigma.dev_context) (mid : Sigma.dev_context),
                entry = { s.before with priv := { s.before.priv with state :=
                          { s.before.priv.state with
                            stoppos := (Sigma.sigma_read_pos s.io.pos).1
                            triggerpos := (Sigma.sigma_read_pos s.io.pos).2 } } }
                ∧ ((s.before.priv.state.state = Sigma.SIGMA_DOWNLOAD ∧ mid = entry.priv)
                  ∨ (s.before.priv.state.state = Sigma.SIGMA_CAPTURE
                      ∧ mid = (Sigma.dev_acquisition_stop s.io.stop_pos s.io.modestatus
                                entry).2.1.priv))
                ∧ mid.state.state = Sigma.SIGMA_DOWNLOAD
                ∧ mid.state.chunks_downloaded
                    ≥ ((((Sigma.sigma_read_pos s.io.pos).1 + 511) % 2 ^ 32 / 512 : Nat) : Int)
                ∧ s.after.priv
                    = { mid with state := { mid.state with state := Sigma.SIGMA_IDLE } })
            ∧ s.before.priv.state.state ≠ Sigma.SIGMA_IDLE
            ∧ s.after.priv.state.state = Sigma.SIGMA_IDLE
            ∧ (∀ t ∈ pre, SR_DF_END ∉ Sigma.packets t.trace)
            ∧ (∀ t ∈ post, Sigma.packets t.trace = [])) := by
  have hstart : Sigma.packets tr = [SR_DF_HEADER]
      ∧ sdi1.priv.state.state = Sigma.SIGMA_CAPTURE := by
    unfold Sigma.dev_acquisition_start at h
    split at h
    · cases h
    · split at h
      · cases h
      · split at h
        · simp only [Option.bind_eq_some] at h
          obtain ⟨r, hr, h⟩ := h
          split at h
          · rename_i hne
            simp only [Option.some.injEq, Prod.mk.injEq] at h
            exact absurd h.1 hne
          · simp only [Option.map_eq_some', Prod.mk.injEq] at h
            obtain ⟨q, hq, _, h1, h⟩ := h
            rw [← h, ← h1, Sigma.packets_append,
              Sigma.packets_silent _ (Sigma.set_samplerate_silent _ _ _ _ r hr),
              (Sigma.start_program_packets _ _ _ q hq).2.1]
            exact ⟨rfl, (Sigma.start_program_packets _ _ _ q hq).2.2⟩
        · exact ⟨(Sigma.start_program_packets _ _ _ _ h).2.1,
            (Sigma.start_program_packets _ _ _ _ h).2.2⟩
  refine ⟨hstart.1, hstart.2, ?_⟩
  intro ios pre post s hrun
  have hs := Sigma.receive_run_step ios sdi1 s (by rw [hrun]; simp)
  have he := Sigma.receive_data_end s.io s.before
  have ht := Sigma.receive_data_end_transition s.io s.before
  rw [← hs.2, ← hs.1] at he ht
  refine ⟨he.1, ⟨fun hend => ⟨(he.2 hend).2.1, (he.2 hend).2.2.1⟩, fun hx => ?_⟩, fun hend => ?_⟩
  · rw [ht.2 hx.1 hx.2]
    simp
  · have h1 := he.2 hend
    have h2 := Sigma.receive_run_end ios sdi1 pre post s hrun hend
    exact ⟨h1.1, ht.1 hend, h1.2.1, h1.2.2.1, h2.1, h2.2⟩


/-- C1, an instance: an Active device at 100 MHz is started, which gives the
capturing device `started_100mhz`, and `receive_data` is invoked on it. -/
theorem C1_sigma_header_first_end_last_witness :
    Sigma.packets
        [Sigma.sigma_set_register Sigma.WRITE_TRIGGER_SELECT1 0x20,
         Sigma.sigma_set_register Sigma.WRITE_TRIGGER_SELECT1 0x81,
         Sigma.Event.write_register Sigma.WRITE_TRIGGER_OPTION (Sigma.reg_data.triggerinout 1 1),
         Sigma.sigma_set_register Sigma.WRITE_TRIGGER_SELECT1 0x80,
         Sigma.sigma_set_register Sigma.WRITE_CLOCK_SELECT 0x00,
         Sigma.sigma_set_register Sigma.WRITE_POST_TRIGGER 127,
         Sigma.sigma_set_register Sigma.WRITE_MODE 0x0d,
         Sigma.Event.send SR_DF_HEADER,
         Sigma.Event.source_add 0 10] = [SR_DF_HEADER]
    ∧ Sigma.started_100mhz.priv.state.state = Sigma.SIGMA_CAPTURE
    ∧ ∀ (ios : List Sigma.rd_io) (pre post : List Sigma.rd_step) (s : Sigma.rd_step),
        Sigma.receive_run ios Sigma.started_100mhz = pre ++ s :: post →
        SR_DF_HEADER ∉ Sigma.packets s.trace
        ∧ (SR_DF_END ∈ Sigma.packets s.trace ↔
            (s.before.priv.state.state ≠ Sigma.SIGMA_IDLE
              ∧ s.after.priv.state.state = Sigma.SIGMA_IDLE))
        ∧ (SR_DF_END ∈ Sigma.packets s.trace →
            Sigma.packets s.trace = [SR_DF_END]
            ∧ (∃ (entry : sr_dev_inst Sigma.dev_context) (mid : Sigma.dev_context),
                entry = { s.before with priv := { s.before.priv with state :=
                          { s.before.priv.state with
                            stoppos := (Sigma.sigma_read_pos s.io.pos).1
                            triggerpos := (Sigma.sigma_read_pos s.io.pos).2 } } }
                ∧ ((s.before.priv.state.state = Sigma.SIGMA_DOWNLOAD ∧ mid = entry.priv)
                  ∨ (s.before.priv.state.state = Sigma.SIGMA_CAPTURE
                      ∧ mid = (Sigma.dev_acquisition_stop s.io.stop_pos s.io.modestatus
                                entry).2.1.priv))
                ∧ mid.state.state = Sigma.SIGMA_DOWNLOAD
                ∧ mid.state.chunks_downloaded
                    ≥ ((((Sigma.sigma_read_pos s.io.pos).1 + 511) % 2 ^ 32 / 512 : Nat) : Int)
                ∧ s.after.priv
                    = { mid with state := { mid.state with state := Sigma.SIGMA_IDLE } })
            ∧ s.before.priv.state.state ≠ Sigma.SIGMA_IDLE
            ∧ s.after.priv.state.state = Sigma.SIGMA_IDLE
            ∧ (∀ t ∈ pre, SR_DF_END ∉ Sigma.packets t.trace)
            ∧ (∀ t ∈ post, Sigma.packets t.trace = [])) :=
  C1_sigma_header_first_end_last 0 Sigma.fw_ok { tv_sec := 5, tv_usec := 0 } 7
    (Sigma.dev_100mhz SR_ST_ACTIVE) _ _ (by rfl)

/-- C2: `dev_acquisition_start` of the ASIX Sigma driver on a device whose status is
not Active returns `SR_ERR_DEV_CLOSED` with an empty trace (no packet, hence no
Header, no event source registered, no register written) and leaves the
device, its context included, as it was. -/
theorem C2_sigma_start_not_active (past : Nat) (fw : Sigma.fw_io) (now : Sigma.timeval)
    (cb_data : Nat) (sdi : sr_dev_inst Sigma.dev_context) (h : sdi.status ≠ SR_ST_ACTIVE) :
    ∃ tr, Sigma.dev_acquisition_start past fw now cb_data sdi = some (SR_ERR_DEV_CLOSED, sdi, tr)
      ∧ tr = [] ∧ Sigma.packets tr = [] ∧ Sigma.sources_added tr = [] := by
  refine ⟨[], ?_, rfl, rfl, rfl⟩
  unfold Sigma.dev_acquisition_start
  rw [if_pos h]

/-- C2, an instance: an Inactive device. -/
theorem C2_sigma_start_not_active_witness :
    ∃ tr, Sigma.dev_acquisition_start 0 Sigma.fw_ok { tv_sec := 5, tv_usec := 0 } 7
        (Sigma.dev_100mhz SR_ST_INACTIVE)
        = some (SR_ERR_DEV_CLOSED, Sigma.dev_100mhz SR_ST_INACTIVE, tr)
      ∧ tr = [] ∧ Sigma.packets tr = [] ∧ Sigma.sources_added tr = [] :=
  C2_sigma_start_not_active 0 Sigma.fw_ok { tv_sec := 5, tv_usec := 0 } 7
    (Sigma.dev_100mhz SR_ST_INACTIVE) (by decide)

/-- C4: `config_set` of the ASIX Sigma driver on an Active device whose context has
capture ratio 50, time limit 1000 ms, samplerate 100 MHz, 8 probes and 2
samples per event. A capture ratio of 101 is rejected with `SR_ERR` and the
context then holds capture ratio 101; a time limit of 0 is rejected with
`SR_ERR` and the context then holds time limit 0; a change to 200 MHz whose
firmware upload fails returns `SR_ERR` and the context then holds 200 MHz,
4 probes and 4 samples per event. -/
theorem C4_sigma_config_set_error_changes_context :
    ((Sigma.config_set (D := Unit) 0 Sigma.fw_ok SR_CONF_CAPTURE_RATIO (GVariant.uint64 101)
        (Sigma.dev_100mhz SR_ST_ACTIVE)).map fun r => (r.1, r.2.1.priv.capture_ratio))
      = some (SR_ERR, 101)
    ∧ (Sigma.dev_100mhz SR_ST_ACTIVE).priv.capture_ratio = 50
    ∧ ((Sigma.config_set (D := Unit) 0 Sigma.fw_ok SR_CONF_LIMIT_MSEC (GVariant.uint64 0)
        (Sigma.dev_100mhz SR_ST_ACTIVE)).map fun r => (r.1, r.2.1.priv.limit_msec))
      = some (SR_ERR, 0)
    ∧ (Sigma.dev_100mhz SR_ST_ACTIVE).priv.limit_msec = 1000
    ∧ ((Sigma.config_set (D := Unit) 0 Sigma.fw_no_reply SR_CONF_SAMPLERATE
          (GVariant.uint64 (SR_MHZ 200)) (Sigma.dev_100mhz SR_ST_ACTIVE)).map
        fun r => (r.1, r.2.1.priv.cur_samplerate, r.2.1.priv.num_probes,
          r.2.1.priv.samples_per_event))
      = some (SR_ERR, SR_MHZ 200, 4, 4)
    ∧ ((Sigma.dev_100mhz SR_ST_ACTIVE).priv.cur_samplerate,
        (Sigma.dev_100mhz SR_ST_ACTIVE).priv.num_probes,
        (Sigma.dev_100mhz SR_ST_ACTIVE).priv.samples_per_event) = (SR_MHZ 100, 8, 2) := by
  refine ⟨by decide, by decide, by decide, by decide, by decide, by decide⟩

/-- C5, counterexample: on an Active device `config_set` accepts the time limit 5 ms
and the capture ratio 10 with `SR_OK`, and `config_get` with the same key on
the resulting device returns `SR_ERR_NA` and no value. -/
theorem C5_sigma_limit_and_ratio_not_read_back :
    ((Sigma.config_set (D := Unit) 0 Sigma.fw_ok SR_CONF_LIMIT_MSEC (GVariant.uint64 5)
        (Sigma.dev_100mhz SR_ST_ACTIVE)).map fun r =>
          (r.1, (Sigma.config_get (D := Unit) SR_CONF_LIMIT_MSEC (some r.2.1)).1,
            (Sigma.config_get (D := Unit) SR_CONF_LIMIT_MSEC (some r.2.1)).2.isNone))
      = some (SR_OK, SR_ERR_NA, true)
    ∧ ((Sigma.config_set (D := Unit) 0 Sigma.fw_ok SR_CONF_CAPTURE_RATIO (GVariant.uint64 10)
        (Sigma.dev_100mhz SR_ST_ACTIVE)).map fun r =>
          (r.1, (Sigma.config_get (D := Unit) SR_CONF_CAPTURE_RATIO (some r.2.1)).1,
            (Sigma.config_get (D := Unit) SR_CONF_CAPTURE_RATIO (some r.2.1)).2.isNone))
      = some (SR_OK, SR_ERR_NA, true) := by
  refine ⟨by decide, by decide⟩

/-- C5, amended: on an Active ASIX Sigma device, when `config_set` with the key
samplerate and a 64-bit value `v` returns `SR_OK`, `config_get` with the key
samplerate on the resulting device returns `SR_OK` and the value `v`; for
every other key, in particular the two other settable keys time limit and
capture ratio, `config_get` returns `SR_ERR_NA` and no value, on every
device. -/
theorem C5_sigma_samplerate_read_back {D : Type} (past : Nat) (fw : Sigma.fw_io) (v : Nat)
    (sdi sdi1 : sr_dev_inst Sigma.dev_context) (tr : List Sigma.Event)
    (hv : v < 2 ^ 64) (hactive : sdi.status = SR_ST_ACTIVE)
    (hset : Sigma.config_set past fw SR_CONF_SAMPLERATE (GVariant.uint64 v : GVariant D) sdi
      = some (SR_OK, sdi1, tr)) :
    Sigma.config_get SR_CONF_SAMPLERATE (some sdi1) = (SR_OK, some (GVariant.uint64 v : GVariant D))
    ∧ ∀ (id : Int) (d : Option (sr_dev_inst Sigma.dev_context)), id ≠ SR_CONF_SAMPLERATE →
        Sigma.config_get id d = (SR_ERR_NA, (none : Option (GVariant D))) := by
  constructor
  · have hcur : sdi1.priv.cur_samplerate = v := by
      unfold Sigma.config_set at hset
      rw [if_neg (by simp [hactive]), if_pos rfl] at hset
      simp only [Option.map_eq_some', Prod.mk.injEq] at hset
      obtain ⟨r, hr, hok, h1, _⟩ := hset
      have hg : g_variant_get_uint64 (GVariant.uint64 v : GVariant D) = v :=
        Nat.mod_eq_of_lt hv
      rw [hg] at hr
      unfold Sigma.set_samplerate at hr
      split at hr
      · cases hr
        exact absurd (show SR_ERR_SAMPLERATE = SR_OK from hok) (by decide)
      · simp only [Option.bind_eq_some] at hr
        obtain ⟨r2, _, hr⟩ := hr
        split at hr
        · cases hr
        · split at hr
          · cases hr
          · cases hr
            rw [← h1]
    simp [Sigma.config_get, hcur]
  · intro id d hid
    simp [Sigma.config_get, hid]

/-- C5, an instance: 200 kHz is set on an Active device whose firmware upload
succeeds, and read back. -/
theorem C5_sigma_samplerate_read_back_witness :
    Sigma.config_get SR_CONF_SAMPLERATE
        (some { Sigma.dev_100mhz SR_ST_ACTIVE with priv :=
          { Sigma.devc_100mhz with
            cur_samplerate := 200000, period_ps := 5000000, cur_firmware := 0, num_probes := 16,
            samples_per_event := 1 } })
      = (SR_OK, some (GVariant.uint64 200000 : GVariant Unit))
    ∧ ∀ (id : Int) (d : Option (sr_dev_inst Sigma.dev_context)), id ≠ SR_CONF_SAMPLERATE →
        Sigma.config_get id d = (SR_ERR_NA, (none : Option (GVariant Unit))) :=
  C5_sigma_samplerate_read_back 0 Sigma.fw_ok 200000 (Sigma.dev_100mhz SR_ST_ACTIVE) _
    [Sigma.Event.ftdi_write Sigma.suicide, Sigma.Event.ftdi_write Sigma.suicide,
     Sigma.Event.ftdi_write Sigma.suicide, Sigma.Event.ftdi_write Sigma.suicide,
     Sigma.Event.ftdi_write Sigma.init_array, Sigma.Event.firmware_write 0,
     Sigma.Event.ftdi_write Sigma.logic_mode_start]
    (by decide) rfl (by rfl)

/-- C9: `dev_open` of the ASIX Sigma driver when the transport open fails
(`ftdi_usb_open_desc` returns -1): the function returns 0, which is `SR_OK`,
and leaves the device as it was; when the open succeeds it returns `SR_OK`
with the status Active. -/
theorem C9_sigma_dev_open_failure_returns_ok :
    Sigma.dev_open (-1) (Sigma.dev_100mhz SR_ST_INACTIVE)
      = (SR_OK, Sigma.dev_100mhz SR_ST_INACTIVE)
    ∧ (Sigma.dev_open 0 (Sigma.dev_100mhz SR_ST_INACTIVE)).1 = SR_OK
    ∧ (Sigma.dev_open 0 (Sigma.dev_100mhz SR_ST_INACTIVE)).2.status = SR_ST_ACTIVE := by
  refine ⟨rfl, rfl, rfl⟩

/-- C6: each of `sr_dev_probe_enable`, `sr_dev_probe_name_set` and `sr_dev_trigger_set`,
called on a device none of whose probes has the index `probenum`, returns
`SR_ERR_ARG` and leaves the device, hence its probe list with every probe and
every field of every probe, exactly as it was; called with a `NULL` device each
returns `SR_ERR_ARG`. -/
theorem C6_probe_setters_absent_index {α : Type} (sdi : sr_dev_inst α) (probenum : Int)
    (h : ∀ p ∈ sdi.probes, p.index ≠ probenum) :
    (∀ state, sr_dev_probe_enable (some sdi) probenum state = (SR_ERR_ARG, some sdi))
    ∧ (∀ name, sr_dev_probe_name_set (some sdi) probenum name = (SR_ERR_ARG, some sdi))
    ∧ (∀ trigger, sr_dev_trigger_set (some sdi) probenum trigger = (SR_ERR_ARG, some sdi))
    ∧ (∀ state, sr_dev_probe_enable (none : Option (sr_dev_inst α)) probenum state
        = (SR_ERR_ARG, none))
    ∧ (∀ name, sr_dev_probe_name_set (none : Option (sr_dev_inst α)) probenum name
        = (SR_ERR_ARG, none))
    ∧ (∀ trigger, sr_dev_trigger_set (none : Option (sr_dev_inst α)) probenum trigger
        = (SR_ERR_ARG, none)) := by
  refine ⟨?_, ?_, ?_, fun _ => rfl, fun _ => rfl, fun _ => rfl⟩
  · intro state
    simp only [sr_dev_probe_enable, probe_scan_absent _ probenum sdi.probes h]
  · intro name
    simp only [sr_dev_probe_name_set, probe_scan_absent _ probenum sdi.probes h]
  · intro trigger
    simp only [sr_dev_trigger_set, probe_scan_absent _ probenum sdi.probes h]

/-- C6, an instance: probe number 3 on a device with the probes 0, 1 and 2. -/
theorem C6_probe_setters_absent_index_witness :
    (∀ state, sr_dev_probe_enable (some three_probe_dev) 3 state
        = (SR_ERR_ARG, some three_probe_dev))
    ∧ (∀ name, sr_dev_probe_name_set (some three_probe_dev) 3 name
        = (SR_ERR_ARG, some three_probe_dev))
    ∧ (∀ trigger, sr_dev_trigger_set (some three_probe_dev) 3 trigger
        = (SR_ERR_ARG, some three_probe_dev))
    ∧ (∀ state, sr_dev_probe_enable (none : Option (sr_dev_inst Unit)) 3 state
        = (SR_ERR_ARG, none))
    ∧ (∀ name, sr_dev_probe_name_set (none : Option (sr_dev_inst Unit)) 3 name
        = (SR_ERR_ARG, none))
    ∧ (∀ trigger, sr_dev_trigger_set (none : Option (sr_dev_inst Unit)) 3 trigger
        = (SR_ERR_ARG, none)) :=
  C6_probe_setters_absent_index three_probe_dev 3 (by decide)

/-- C7: each of `sr_dev_probe_enable`, `sr_dev_probe_name_set` and `sr_dev_trigger_set`,
called with a probe number that is the index of some probe of the device:
the probe list splits as `pre ++ p :: post` where `p` is the first probe in
list order with that index; the call returns `SR_OK`, and the device after the
call is the device before with the probe list `pre ++ q :: post`, `q` being
`p` with the targeted field (enabled, name, trigger) set to the new value and
its other fields kept. A second call with another value gives the same device
as that second call alone: the field holds the second value. -/
theorem C7_probe_setters_present_index {α : Type} (sdi : sr_dev_inst α) (probenum : Int)
    (h : ∃ p ∈ sdi.probes, p.index = probenum) :
    ∃ pre p post, sdi.probes = pre ++ p :: post ∧ (∀ q ∈ pre, q.index ≠ probenum)
      ∧ p.index = probenum
      ∧ (∀ state, sr_dev_probe_enable (some sdi) probenum state
          = (SR_OK, some { sdi with probes := pre ++ { p with enabled := state } :: post }))
      ∧ (∀ name, sr_dev_probe_name_set (some sdi) probenum name
          = (SR_OK, some { sdi with probes := pre ++ { p with name := name } :: post }))
      ∧ (∀ trigger, sr_dev_trigger_set (some sdi) probenum trigger
          = (SR_OK, some { sdi with probes := pre ++ { p with trigger := trigger } :: post }))
      ∧ (∀ s1 s2, sr_dev_probe_enable (sr_dev_probe_enable (some sdi) probenum s1).2 probenum s2
          = sr_dev_probe_enable (some sdi) probenum s2)
      ∧ (∀ n1 n2,
          sr_dev_probe_name_set (sr_dev_probe_name_set (some sdi) probenum n1).2 probenum n2
          = sr_dev_probe_name_set (some sdi) probenum n2)
      ∧ (∀ t1 t2, sr_dev_trigger_set (sr_dev_trigger_set (some sdi) probenum t1).2 probenum t2
          = sr_dev_trigger_set (some sdi) probenum t2) := by
  obtain ⟨pre, p, post, hsplit, hpre, hp⟩ := first_with_index probenum sdi.probes h
  have e1 : ∀ state, sr_dev_probe_enable (some sdi) probenum state
      = (SR_OK, some { sdi with probes := pre ++ { p with enabled := state } :: post }) := by
    intro state
    simp only [sr_dev_probe_enable, hsplit, probe_scan_first _ probenum pre post p hpre hp]
  have e2 : ∀ name, sr_dev_probe_name_set (some sdi) probenum name
      = (SR_OK, some { sdi with probes := pre ++ { p with name := name } :: post }) := by
    intro name
    simp only [sr_dev_probe_name_set, hsplit, probe_scan_first _ probenum pre post p hpre hp]
  have e3 : ∀ trigger, sr_dev_trigger_set (some sdi) probenum trigger
      = (SR_OK, some { sdi with probes := pre ++ { p with trigger := trigger } :: post }) := by
    intro trigger
    simp only [sr_dev_trigger_set, hsplit, probe_scan_first _ probenum pre post p hpre hp]
  refine ⟨pre, p, post, hsplit, hpre, hp, e1, e2, e3, ?_, ?_, ?_⟩
  · intro s1 s2
    rw [e1 s1, e1 s2]
    simp only [sr_dev_probe_enable]
    rw [probe_scan_first _ probenum pre post { p with enabled := s1 } hpre hp]
  · intro n1 n2
    rw [e2 n1, e2 n2]
    simp only [sr_dev_probe_name_set]
    rw [probe_scan_first _ probenum pre post { p with name := n1 } hpre hp]
  · intro t1 t2
    rw [e3 t1, e3 t2]
    simp only [sr_dev_trigger_set]
    rw [probe_scan_first _ probenum pre post { p with trigger := t1 } hpre hp]

/-- C7, an instance: probe number 1 on a device with the probes 0, 1 and 2. -/
theorem C7_probe_setters_present_index_witness :
    ∃ pre p post, three_probe_dev.probes = pre ++ p :: post ∧ (∀ q ∈ pre, q.index ≠ 1)
      ∧ p.index = 1
      ∧ (∀ state, sr_dev_probe_enable (some three_probe_dev) 1 state
          = (SR_OK, some { three_probe_dev with
              probes := pre ++ { p with enabled := state } :: post }))
      ∧ (∀ name, sr_dev_probe_name_set (some three_probe_dev) 1 name
          = (SR_OK, some { three_probe_dev with
              probes := pre ++ { p with name := name } :: post }))
      ∧ (∀ trigger, sr_dev_trigger_set (some three_probe_dev) 1 trigger
          = (SR_OK, some { three_probe_dev with
              probes := pre ++ { p with trigger := trigger } :: post }))
      ∧ (∀ s1 s2, sr_dev_probe_enable (sr_dev_probe_enable (some three_probe_dev) 1 s1).2 1 s2
          = sr_dev_probe_enable (some three_probe_dev) 1 s2)
      ∧ (∀ n1 n2,
          sr_dev_probe_name_set (sr_dev_probe_name_set (some three_probe_dev) 1 n1).2 1 n2
          = sr_dev_probe_name_set (some three_probe_dev) 1 n2)
      ∧ (∀ t1 t2, sr_dev_trigger_set (sr_dev_trigger_set (some three_probe_dev) 1 t1).2 1 t2
          = sr_dev_trigger_set (some three_probe_dev) 1 t2) :=
  C7_probe_setters_present_index three_probe_dev 1 (by decide)

/-- C3: `config_set` of the asix-sigma, openbench-logic-sniffer and hantek-dso
drivers on a device whose status is not Active returns `SR_ERR_DEV_CLOSED`, for
every key and every value (and whatever the hardware or the memory around the
tables would answer), and leaves the device, its context included, as it
was; the ASIX Sigma driver touches no hardware. -/
theorem C3_config_set_not_active {D F : Type} (s1 : sr_dev_inst Sigma.dev_context)
    (s2 : sr_dev_inst Ols.dev_context) (s3 : sr_dev_inst (Hantek.dev_context F))
    (h1 : s1.status ≠ SR_ST_ACTIVE) (h2 : s2.status ≠ SR_ST_ACTIVE)
    (h3 : s3.status ≠ SR_ST_ACTIVE) :
    (∀ (past : Nat) (fw : Sigma.fw_io) (id : Int) (data : GVariant D),
        Sigma.config_set past fw id data s1 = some (SR_ERR_DEV_CLOSED, s1, []))
    ∧ (∀ (ols_set_samplerate : Ols.dev_context → Nat → Int × Ols.dev_context) (id : Int)
        (data : GVariant D),
        Ols.config_set ols_set_samplerate id data s2 = (SR_ERR_DEV_CLOSED, s2))
    ∧ (∀ (fp : Hantek.fp_ops D F) (past_sources past_coupling : List (Option String))
        (uninit : Nat × Nat) (id : Int) (data : GVariant D),
        Hantek.config_set fp past_sources past_coupling uninit id data s3
          = (SR_ERR_DEV_CLOSED, s3)) := by
  refine ⟨?_, ?_, ?_⟩
  · intro past fw id data
    unfold Sigma.config_set
    rw [if_pos h1]
  · intro f id data
    unfold Ols.config_set
    rw [if_pos h2]
  · intro fp ps pc u id data
    unfold Hantek.config_set
    rw [if_pos h3]

/-- C3, an instance: an Inactive device of each of the three drivers. -/
theorem C3_config_set_not_active_witness :
    (∀ (past : Nat) (fw : Sigma.fw_io) (id : Int) (data : GVariant Unit),
        Sigma.config_set past fw id data (Sigma.dev_100mhz SR_ST_INACTIVE)
          = some (SR_ERR_DEV_CLOSED, Sigma.dev_100mhz SR_ST_INACTIVE, []))
    ∧ (∀ (ols_set_samplerate : Ols.dev_context → Nat → Int × Ols.dev_context) (id : Int)
        (data : GVariant Unit),
        Ols.config_set ols_set_samplerate id data (Ols.dev0 SR_ST_INACTIVE)
          = (SR_ERR_DEV_CLOSED, Ols.dev0 SR_ST_INACTIVE))
    ∧ (∀ (fp : Hantek.fp_ops Unit Unit) (past_sources past_coupling : List (Option String))
        (uninit : Nat × Nat) (id : Int) (data : GVariant Unit),
        Hantek.config_set fp past_sources past_coupling uninit id data
            (Hantek.dev0 SR_ST_INACTIVE)
          = (SR_ERR_DEV_CLOSED, Hantek.dev0 SR_ST_INACTIVE)) :=
  C3_config_set_not_active (Sigma.dev_100mhz SR_ST_INACTIVE) (Ols.dev0 SR_ST_INACTIVE)
    (Hantek.dev0 SR_ST_INACTIVE) (by decide) (by decide) (by decide)

/-- C8, counterexample: `dev_close` of the saleae-logic16 driver on a device whose
status is Inactive and whose USB handle is not open returns `SR_ERR`, which is
not `SR_OK`. -/
theorem C8_logic16_close_inactive_is_error :
    (usb_dev0 none).status = SR_ST_INACTIVE
    ∧ Logic16.dev_close (usb_dev0 none) = some (SR_ERR, usb_dev0 none, [])
    ∧ SR_ERR ≠ SR_OK := by
  refine ⟨rfl, rfl, by decide⟩

/-- C8, amended: `dev_close` on a device whose status is already Inactive. The
asix-sigma driver returns `SR_OK` and changes nothing: same device, no call on
the transport. The uni-t-ut32x driver (initialised) and the saleae-logic16
driver look at the USB handle, not at the status: when the handle is not
open, nothing changes, and uni-t-ut32x returns `SR_OK` while saleae-logic16
returns `SR_ERR`; when the handle is open, both release the interface, close
the handle, return `SR_OK`, and the status stays Inactive. -/
theorem C8_dev_close_inactive {α : Type} (s1 : sr_dev_inst Sigma.dev_context)
    (s2 : sr_dev_inst α) (usb : sr_usb_dev_inst) (h1 : s1.status = SR_ST_INACTIVE)
    (h2 : s2.status = SR_ST_INACTIVE) (hconn : s2.conn = some (sr_conn.usb usb)) :
    Sigma.dev_close s1 = (SR_OK, s1, [])
    ∧ (usb.devhdl = none →
        Ut32x.dev_close true s2 = some (SR_OK, s2, [])
        ∧ Logic16.dev_close s2 = some (SR_ERR, s2, []))
    ∧ (∀ hdl, usb.devhdl = some hdl →
        Ut32x.dev_close true s2
          = some (SR_OK, { s2 with conn := some (sr_conn.usb { usb with devhdl := none }) },
              [usb_event.release_interface hdl, usb_event.close hdl])
        ∧ Logic16.dev_close s2
          = some (SR_OK, { s2 with conn := some (sr_conn.usb { usb with devhdl := none }) },
              [usb_event.release_interface hdl, usb_event.close hdl])) := by
  refine ⟨?_, ?_, ?_⟩
  · unfold Sigma.dev_close
    rw [if_neg (by rw [h1]; decide)]
    cases s1
    simp only at h1
    subst h1
    rfl
  · intro hnone
    simp [Ut32x.dev_close, Logic16.dev_close, hconn, hnone]
  · intro hdl hsome
    cases s2
    simp only at h2 hconn
    subst h2 hconn
    simp [Ut32x.dev_close, Logic16.dev_close, hsome]

/-- C8, an instance: an Inactive ASIX Sigma device and an Inactive USB device
without open handle. -/
theorem C8_dev_close_inactive_witness :
    Sigma.dev_close (Sigma.dev_100mhz SR_ST_INACTIVE)
      = (SR_OK, Sigma.dev_100mhz SR_ST_INACTIVE, [])
    ∧ ((none : Option Nat) = none →
        Ut32x.dev_close true (usb_dev0 none) = some (SR_OK, usb_dev0 none, [])
        ∧ Logic16.dev_close (usb_dev0 none) = some (SR_ERR, usb_dev0 none, []))
    ∧ (∀ hdl, (none : Option Nat) = some hdl →
        Ut32x.dev_close true (usb_dev0 none)
          = some (SR_OK,
              { usb_dev0 none with conn := some (sr_conn.usb
                  { ({ bus := 1, address := 2, devhdl := none } : sr_usb_dev_inst) with
                    devhdl := none }) },
              [usb_event.release_interface hdl, usb_event.close hdl])
        ∧ Logic16.dev_close (usb_dev0 none)
          = some (SR_OK,
              { usb_dev0 none with conn := some (sr_conn.usb
                  { ({ bus := 1, address := 2, devhdl := none } : sr_usb_dev_inst) with
                    devhdl := none }) },
              [usb_event.release_interface hdl, usb_event.close hdl])) :=
  C8_dev_close_inactive (Sigma.dev_100mhz SR_ST_INACTIVE) (usb_dev0 none)
    { bus := 1, address := 2, devhdl := none } rfl rfl rfl

/-- C11: `sr_dev_has_option` is FALSE for a `NULL` device, for a device without
driver, for a driver without `config_list` and when the device-options query
does not return `SR_OK`; when the query returns `SR_OK` with an int32 array it
is TRUE exactly when the key occurs in that array. For a device of the ASIX
Sigma driver it is TRUE exactly for the keys logic analyzer, samplerate,
capture ratio and limit in ms. -/
theorem C11_sr_dev_has_option {D α : Type} (drivers : String → sr_dev_driver D α)
    (uninit : GVariant D) (key : Int) :
    sr_dev_has_option drivers uninit none key = false
    ∧ (∀ d : sr_dev_inst α, d.driver = none →
        sr_dev_has_option drivers uninit (some d) key = false)
    ∧ (∀ (d : sr_dev_inst α) (n : String), d.driver = some n →
        (drivers n).config_list = none →
        sr_dev_has_option drivers uninit (some d) key = false)
    ∧ (∀ (d : sr_dev_inst α) (n : String)
        (f : Int → Option (sr_dev_inst α) → Option sr_probe_group → Int × Option (GVariant D)),
        d.driver = some n → (drivers n).config_list = some f →
        (f SR_CONF_DEVICE_OPTIONS none none).1 ≠ SR_OK →
        sr_dev_has_option drivers uninit (some d) key = false)
    ∧ (∀ (d : sr_dev_inst α) (n : String)
        (f : Int → Option (sr_dev_inst α) → Option sr_probe_group → Int × Option (GVariant D))
        (opts : List Int),
        d.driver = some n → (drivers n).config_list = some f →
        f SR_CONF_DEVICE_OPTIONS none none = (SR_OK, some (GVariant.fixed_array_int32 opts)) →
        (sr_dev_has_option drivers uninit (some d) key = true ↔ key ∈ opts))
    ∧ (∀ (past : Nat) (fw : Sigma.fw_io) (dr : String → sr_dev_driver D Sigma.dev_context)
        (d : sr_dev_inst Sigma.dev_context) (n : String),
        d.driver = some n → dr n = Sigma.asix_sigma_driver_info past fw →
        (sr_dev_has_option dr uninit (some d) key = true ↔
          key = SR_CONF_LOGIC_ANALYZER ∨ key = SR_CONF_SAMPLERATE
            ∨ key = SR_CONF_CAPTURE_RATIO ∨ key = SR_CONF_LIMIT_MSEC)) := by
  refine ⟨rfl, ?_, ?_, ?_, ?_, ?_⟩
  · intro d hd
    simp [sr_dev_has_option, hd]
  · intro d n hd hl
    simp [sr_dev_has_option, hd, hl]
  · intro d n f hd hl hne
    simp [sr_dev_has_option, hd, hl, hne]
  · intro d n f opts hd hl hf
    unfold sr_dev_has_option
    simp only [hd, hl, hf, ne_eq, not_true_eq_false, if_false, Option.getD_some,
      g_variant_get_fixed_array_int32, List.any_eq_true, decide_eq_true_eq]
    exact ⟨fun ⟨o, ho, he⟩ => he ▸ ho, fun h => ⟨key, h, rfl⟩⟩
  · intro past fw dr d n hd hdr
    unfold sr_dev_has_option
    have hf : Sigma.config_list (D := D) SR_CONF_DEVICE_OPTIONS
        = (SR_OK, some (GVariant.fixed_array_int32 Sigma.hwcaps)) := by
      unfold Sigma.config_list
      rw [if_pos rfl]
    simp only [hd, hdr, Sigma.asix_sigma_driver_info, hf, ne_eq, not_true_eq_false, if_false,
      Option.getD_some, g_variant_get_fixed_array_int32, List.any_eq_true, decide_eq_true_eq,
      Sigma.hwcaps, List.mem_cons, List.mem_singleton, List.not_mem_nil, or_false]
    constructor
    · rintro ⟨o, ho, he⟩
      subst he
      exact ho
    · intro h
      exact ⟨key, h, rfl⟩

theorem C11_sr_dev_has_option_witness :
    sr_dev_has_option (fun _ => Sigma.asix_sigma_driver_info 0 Sigma.fw_ok)
      (GVariant.uint64 0 : GVariant Unit) (some (Sigma.dev_100mhz SR_ST_INACTIVE))
      SR_CONF_SAMPLERATE = true
    ∧ sr_dev_has_option (fun _ => Sigma.asix_sigma_driver_info 0 Sigma.fw_ok)
      (GVariant.uint64 0 : GVariant Unit) (some (Sigma.dev_100mhz SR_ST_INACTIVE))
      SR_CONF_LIMIT_SAMPLES = false :=
  ⟨((C11_sr_dev_has_option (fun _ => Sigma.asix_sigma_driver_info 0 Sigma.fw_ok)
      (GVariant.uint64 0 : GVariant Unit) SR_CONF_SAMPLERATE).2.2.2.2.2 0 Sigma.fw_ok _
      (Sigma.dev_100mhz SR_ST_INACTIVE) "asix-sigma" rfl rfl).mpr (Or.inr (Or.inl rfl)),
   by decide⟩

/-- C12: the wrappers `sr_config_get`, `sr_config_set` and `sr_config_list` dispatch to the
driver. With driver and data argument present (for set: device, its driver and
the data) and the function pointer set, the code returned is the code of the
driver function, `SR_ERR_NA` included, and the only call made is the one of that
function with the same key, device and probe group. With a missing driver,
device (set) or data argument the code is `SR_ERR`, with an absent function
pointer `SR_ERR_ARG`, and no call is made. -/
theorem C12_config_wrappers_dispatch {D α : Type} (key : Int)
    (probe_group : Option sr_probe_group) :
    (∀ (drv : sr_dev_driver D α) (sdi : Option (sr_dev_inst α)) (slot : Option (GVariant D))
        (f : Int → Option (sr_dev_inst α) → Option sr_probe_group → Int × Option (GVariant D)),
        (drv.config_get = some f →
          (sr_config_get (some drv) sdi probe_group key (some slot)).1
              = (f key sdi probe_group).1
          ∧ ((f key sdi probe_group).1 = SR_ERR_NA →
              (sr_config_get (some drv) sdi probe_group key (some slot)).1 = SR_ERR_NA)
          ∧ (∀ v, (f key sdi probe_group).2 = some v →
              (sr_config_get (some drv) sdi probe_group key (some slot)).2.1 = some (some v))
          ∧ (sr_config_get (some drv) sdi probe_group key (some slot)).2.2
              = [driver_call.config_get key sdi probe_group])
        ∧ (drv.config_list = some f →
          (sr_config_list (some drv) sdi probe_group key (some slot)).1
              = (f key sdi probe_group).1
          ∧ ((f key sdi probe_group).1 = SR_ERR_NA →
              (sr_config_list (some drv) sdi probe_group key (some slot)).1 = SR_ERR_NA)
          ∧ (∀ v, (f key sdi probe_group).2 = some v →
              (sr_config_list (some drv) sdi probe_group key (some slot)).2.1 = some (some v))
          ∧ (sr_config_list (some drv) sdi probe_group key (some slot)).2.2
              = [driver_call.config_list key sdi probe_group])
        ∧ (drv.config_get = none →
            (sr_config_get (some drv) sdi probe_group key (some slot)).1 = SR_ERR_ARG
            ∧ (sr_config_get (some drv) sdi probe_group key (some slot)).2.2 = [])
        ∧ (drv.config_list = none →
            (sr_config_list (some drv) sdi probe_group key (some slot)).1 = SR_ERR_ARG
            ∧ (sr_config_list (some drv) sdi probe_group key (some slot)).2.2 = []))
    ∧ (∀ (driver : Option (sr_dev_driver D α)) (sdi : Option (sr_dev_inst α))
        (data : Option (Option (GVariant D))), driver = none ∨ data = none →
        (sr_config_get driver sdi probe_group key data).1 = SR_ERR
        ∧ (sr_config_get driver sdi probe_group key data).2.2 = []
        ∧ (sr_config_list driver sdi probe_group key data).1 = SR_ERR
        ∧ (sr_config_list driver sdi probe_group key data).2.2 = [])
    ∧ (∀ (drivers : String → sr_dev_driver D α) (d : sr_dev_inst α) (n : String)
        (v : GVariant D), d.driver = some n →
        (∀ f, (drivers n).config_set = some f →
          (sr_config_set drivers (some d) probe_group key (some v)).map (fun r => r.1)
              = (f key v d probe_group).map (fun r => r.1)
          ∧ (sr_config_set drivers (some d) probe_group key (some v)).map (fun r => r.2.1)
              = (f key v d probe_group).map (fun r => some r.2)
          ∧ (∀ r, sr_config_set drivers (some d) probe_group key (some v) = some r →
              r.2.2 = [driver_call.config_set key v d probe_group]))
        ∧ ((drivers n).config_set = none →
          sr_config_set drivers (some d) probe_group key (some v)
            = some (SR_ERR_ARG, some d, [])))
    ∧ (∀ (drivers : String → sr_dev_driver D α) (sdi : Option (sr_dev_inst α))
        (data : Option (GVariant D)),
        sdi = none ∨ (∃ d, sdi = some d ∧ d.driver = none) ∨ data = none →
        sr_config_set drivers sdi probe_group key data = some (SR_ERR, sdi, [])) := by
  refine ⟨?_, ?_, ?_, ?_⟩
  · intro drv sdi slot f
    refine ⟨?_, ?_, ?_, ?_⟩
    · intro h
      have e : (sr_config_get (some drv) sdi probe_group key (some slot))
          = ((f key sdi probe_group).1,
              some (data_after (f key sdi probe_group).2 slot),
              [driver_call.config_get key sdi probe_group]) := by
        simp only [sr_config_get, h]
      rw [e]
      refine ⟨rfl, fun h1 => h1, ?_, rfl⟩
      intro v hv
      simp only [hv, data_after]
    · intro h
      have e : (sr_config_list (some drv) sdi probe_group key (some slot))
          = ((f key sdi probe_group).1,
              some (data_after (f key sdi probe_group).2 slot),
              [driver_call.config_list key sdi probe_group]) := by
        simp only [sr_config_list, h]
      rw [e]
      refine ⟨rfl, fun h1 => h1, ?_, rfl⟩
      intro v hv
      simp only [hv, data_after]
    · intro h
      simp only [sr_config_get, h, and_self]
    · intro h
      simp only [sr_config_list, h, and_self]
  · intro driver sdi data h
    rcases h with h | h
    · subst h
      simp only [sr_config_get, sr_config_list, and_self]
    · subst h
      cases driver <;> simp only [sr_config_get, sr_config_list, and_self]
  · intro drivers d n v hd
    refine ⟨?_, ?_⟩
    · intro f hf
      have e : sr_config_set drivers (some d) probe_group key (some v)
          = (f key v d probe_group).map fun r =>
              (r.1, some r.2, [driver_call.config_set key v d probe_group]) := by
        simp only [sr_config_set, hd, hf]
      rw [e]
      refine ⟨?_, ?_, ?_⟩
      · cases f key v d probe_group <;> rfl
      · cases f key v d probe_group <;> rfl
      · intro r hr
        cases hfv : f key v d probe_group with
        | none => rw [hfv] at hr; exact absurd hr (by simp)
        | some x =>
          rw [hfv] at hr
          simp only [Option.map_some', Option.some.injEq] at hr
          rw [← hr]
    · intro hf
      simp only [sr_config_set, hd, hf]
  · intro drivers sdi data h
    rcases h with h | ⟨d, h, hd⟩ | h
    · subst h
      simp only [sr_config_set]
    · subst h
      cases data <;> simp only [sr_config_set, hd]
    · subst h
      cases sdi <;> simp only [sr_config_set]

theorem C12_config_wrappers_dispatch_witness :
    (sr_config_get (some (Sigma.asix_sigma_driver_info (D := Unit) 0 Sigma.fw_ok)) none none
        SR_CONF_LIMIT_MSEC (some none)).1 = SR_ERR_NA
    ∧ (sr_config_get (none : Option (sr_dev_driver Unit Sigma.dev_context)) none none
        SR_CONF_LIMIT_MSEC (some none)).1 = SR_ERR :=
  ⟨((C12_config_wrappers_dispatch SR_CONF_LIMIT_MSEC none).1
      (Sigma.asix_sigma_driver_info (D := Unit) 0 Sigma.fw_ok) none none
      (fun key sdi _ => Sigma.config_get key sdi)).1 rfl |>.2.1 (by decide),
   ((C12_config_wrappers_dispatch (D := Unit) (α := Sigma.dev_context) SR_CONF_LIMIT_MSEC
      none).2.1 none none (some none) (Or.inl rfl)).1⟩

namespace Sigma

/-- The test `a & (1 << n)` is nonzero exactly when bit `n` of `a` is set. -/
theorem and_shift_ne_zero (a n : Nat) : a &&& (1 <<< n) ≠ 0 ↔ a.testBit n = true := by
  rw [Nat.one_shiftLeft, Nat.and_two_pow]
  cases a.testBit n <;> simp

/-- Bit `b` of a word with bit `j` cleared under the 16-bit mask. -/
theorem clear_bit_testBit (e j b : Nat) (hb : b < 16) :
    (e &&& (0xffff ^^^ (1 <<< j))).testBit b = (e.testBit b && !decide (j = b)) := by
  rw [Nat.testBit_and, Nat.testBit_xor, Nat.one_shiftLeft, Nat.testBit_two_pow,
    show (0xffff : Nat) = 2 ^ 16 - 1 from rfl, Nat.testBit_two_pow_sub_one]
  simp [hb]

/-- A fold of steps that each keep bit `b` under a condition keeps it when all
conditions hold. -/
theorem foldl_testBit_all {β : Type} (F : Nat → β → Nat) (P : β → Bool) (b : Nat)
    (hF : ∀ e x, (F e x).testBit b = (e.testBit b && P x)) (l : List β) (e : Nat) :
    (l.foldl F e).testBit b = (e.testBit b && l.all P) := by
  induction l generalizing e with
  | nil => simp
  | cons x l ih =>
    rw [List.foldl_cons, ih, hF, List.all_cons, Bool.and_assoc]

/-- Bit `b` of entry `i` of `build_lut_entry`: set when every masked probe of the quad has
in `value` the bit that `b` has at the probe's place. -/
theorem build_lut_entry_testBit (value mask i b : Nat) (hi : i < 4) (hb : b < 16) :
    ((build_lut_entry value mask).getD i 0).testBit b = true ↔
      ∀ k, k < 4 → mask.testBit (i * 4 + k) = true →
        value.testBit (i * 4 + k) = b.testBit k := by
  have hget : (build_lut_entry value mask).getD i 0 =
      (List.range 16).foldl
        (fun entry j =>
          (List.range 4).foldl
            (fun entry k =>
              if (mask &&& (1 <<< (i * 4 + k)) ≠ 0)
                  ∧ (decide (value &&& (1 <<< (i * 4 + k)) = 0)
                      ≠ decide (j &&& (1 <<< k) = 0)) then
                entry &&& (0xffff ^^^ (1 <<< j))
              else entry)
            entry)
        0xffff := by
    unfold build_lut_entry
    rw [List.getD_eq_getElem?_getD, List.getElem?_map, List.getElem?_range hi]
    rfl
  rw [hget]
  rw [foldl_testBit_all _
    (fun j => (List.range 4).all fun k =>
      !(decide ((mask &&& (1 <<< (i * 4 + k)) ≠ 0)
          ∧ (decide (value &&& (1 <<< (i * 4 + k)) = 0) ≠ decide (j &&& (1 <<< k) = 0)))
        && decide (j = b))) b]
  · have h16 : (0xffff : Nat).testBit b = true := by
      rw [show (0xffff : Nat) = 2 ^ 16 - 1 from rfl, Nat.testBit_two_pow_sub_one]
      simp [hb]
    rw [h16, Bool.true_and, List.all_eq_true]
    simp only [List.mem_range, List.all_eq_true, Bool.not_eq_true', Bool.and_eq_false_imp,
      decide_eq_true_eq, decide_eq_false_iff_not, and_shift_ne_zero]
    constructor
    · intro h k hk hm
      have h1 := h b hb k hk
      by_contra hne
      apply h1 ⟨hm, ?_⟩ rfl
      intro heq
      apply hne
      have e1 : value.testBit (i * 4 + k) = !decide (value &&& (1 <<< (i * 4 + k)) = 0) := by
        by_cases hz : value &&& (1 <<< (i * 4 + k)) = 0
        · have := (and_shift_ne_zero value (i * 4 + k)).not.mp (by simpa using hz)
          simp [hz, this]
        · have := (and_shift_ne_zero value (i * 4 + k)).mp hz
          simp [hz, this]
      have e2 : b.testBit k = !decide (b &&& (1 <<< k) = 0) := by
        by_cases hz : b &&& (1 <<< k) = 0
        · have := (and_shift_ne_zero b k).not.mp (by simpa using hz)
          simp [hz, this]
        · have := (and_shift_ne_zero b k).mp hz
          simp [hz, this]
      rw [e1, e2, heq]
    · intro h j _ k hk hc hjb
      subst hjb
      have h1 := h k hk hc.1
      apply hc.2
      have e1 : decide (value &&& (1 <<< (i * 4 + k)) = 0) = !value.testBit (i * 4 + k) := by
        by_cases hz : value &&& (1 <<< (i * 4 + k)) = 0
        · have := (and_shift_ne_zero value (i * 4 + k)).not.mp (by simpa using hz)
          simp [hz, this]
        · have := (and_shift_ne_zero value (i * 4 + k)).mp hz
          simp [hz, this]
      have e2 : decide (j &&& (1 <<< k) = 0) = !j.testBit k := by
        by_cases hz : j &&& (1 <<< k) = 0
        · have := (and_shift_ne_zero j k).not.mp (by simpa using hz)
          simp [hz, this]
        · have := (and_shift_ne_zero j k).mp hz
          simp [hz, this]
      rw [e1, e2, h1]
  · intro e j
    rw [foldl_testBit_all _
      (fun k =>
        !(decide ((mask &&& (1 <<< (i * 4 + k)) ≠ 0)
            ∧ (decide (value &&& (1 <<< (i * 4 + k)) = 0) ≠ decide (j &&& (1 <<< k) = 0)))
          && decide (j = b))) b]
    intro e k
    split
    · rename_i hc
      rw [clear_bit_testBit _ _ _ hb]
      simp [hc]
    · rename_i hc
      rw [decide_eq_false hc]
      simp

end Sigma

/-- C13: for a 16-bit `mask` and every `value` and sample `s` (16-bit ones in
particular), the four entries of `build_lut_entry(value, mask)` accept `s` (for each quad `i`,
bit `(s >> 4i) & 0xf` of entry `i` is set) exactly when `(s & mask) == (value & mask)`;
with mask 0 every entry is `0xffff`. -/
theorem C13_build_lut_entry_accepts (value mask s : Nat) (hm : mask < 65536) :
    ((∀ i, i < 4 →
        ((Sigma.build_lut_entry value mask).getD i 0).testBit ((s >>> (4 * i)) &&& 0xf) = true)
      ↔ s &&& mask = value &&& mask)
    ∧ Sigma.build_lut_entry value 0 = [0xffff, 0xffff, 0xffff, 0xffff] := by
  have hb : ∀ i, (s >>> (4 * i)) &&& 0xf < 16 :=
    fun i => Nat.lt_of_le_of_lt Nat.and_le_right (by decide)
  have hbit : ∀ i k, k < 4 → ((s >>> (4 * i)) &&& 0xf).testBit k = s.testBit (i * 4 + k) := by
    intro i k hk
    rw [Nat.testBit_and, Nat.testBit_shiftRight, show (0xf : Nat) = 2 ^ 4 - 1 from rfl,
      Nat.testBit_two_pow_sub_one, Nat.mul_comm 4 i]
    simp [hk]
  refine ⟨⟨?_, ?_⟩, ?_⟩
  · intro h
    apply Nat.eq_of_testBit_eq
    intro n
    rw [Nat.testBit_and, Nat.testBit_and]
    cases hmn : mask.testBit n with
    | false => simp
    | true =>
      have hn : n < 16 := by
        by_contra hge
        have : mask < 2 ^ n :=
          Nat.lt_of_lt_of_le hm
            (Nat.pow_le_pow_right (show 0 < 2 by decide) (Nat.le_of_not_lt hge))
        rw [Nat.testBit_lt_two_pow this] at hmn
        exact Bool.noConfusion hmn
      have hdecomp : n / 4 * 4 + n % 4 = n := Nat.div_add_mod' n 4
      have h4 : n / 4 < 4 := by omega
      have hk : n % 4 < 4 := Nat.mod_lt _ (by decide)
      have h1 := (Sigma.build_lut_entry_testBit value mask (n / 4) _ h4 (hb (n / 4))).mp
        (h (n / 4) h4) (n % 4) hk (by rw [hdecomp]; exact hmn)
      rw [hbit (n / 4) (n % 4) hk, hdecomp] at h1
      rw [h1]
  · intro h i hi
    rw [Sigma.build_lut_entry_testBit value mask i _ hi (hb i)]
    intro k hk hmk
    rw [hbit i k hk]
    have h1 := congrArg (fun x => x.testBit (i * 4 + k)) h
    simp only [Nat.testBit_and, hmk, Bool.and_true] at h1
    exact h1.symm
  · unfold Sigma.build_lut_entry
    simp only [Nat.zero_and, ne_eq, not_true_eq_false, false_and, if_false]
    decide

theorem C13_build_lut_entry_accepts_witness :
    (∀ i, i < 4 →
        ((Sigma.build_lut_entry 0x1235 0xff0f).getD i 0).testBit
          ((0x12c5 >>> (4 * i)) &&& 0xf) = true)
    ∧ ¬ (∀ i, i < 4 →
        ((Sigma.build_lut_entry 0x1235 0xff0f).getD i 0).testBit
          ((0x1234 >>> (4 * i)) &&& 0xf) = true) :=
  ⟨(C13_build_lut_entry_accepts 0x1235 0xff0f 0x12c5 (by decide)).1.mpr (by decide),
   fun h => absurd ((C13_build_lut_entry_accepts 0x1235 0xff0f 0x1234 (by decide)).1.mp h)
     (by decide)⟩

namespace Sigma

theorem configure_probes_loop_skip (sr : Nat) (p : sr_probe) (l : List sr_probe)
    (t : sigma_trigger) (u ts : Int) (h : trigger_char p = none) :
    configure_probes_loop sr (p :: l) t u ts = configure_probes_loop sr l t u ts := by
  obtain ⟨index, type, enabled, name, trigger⟩ := p
  cases enabled <;> cases trigger <;> simp [trigger_char] at h <;> simp [configure_probes_loop]

theorem configure_probes_loop_fast (sr : Nat) (p : sr_probe) (l : List sr_probe)
    (t : sigma_trigger) (u ts : Int) (c : Char) (hsr : sr ≥ SR_MHZ 100)
    (h : trigger_char p = some c) :
    configure_probes_loop sr (p :: l) t u ts =
      if ts ≠ 0 then (SR_ERR, t, u)
      else if c = 'f' then
        configure_probes_loop sr l
          { t with fallingmask := (t.fallingmask ||| 1 <<< p.index.toNat) % 65536 } 1 (ts + 1)
      else if c = 'r' then
        configure_probes_loop sr l
          { t with risingmask := (t.risingmask ||| 1 <<< p.index.toNat) % 65536 } 1 (ts + 1)
      else (SR_ERR, t, u) := by
  obtain ⟨index, type, enabled, name, trigger⟩ := p
  cases enabled <;> cases trigger <;> simp [trigger_char] at h
  subst h
  rw [configure_probes_loop]
  simp only [if_pos hsr]

theorem configure_probes_loop_slow (sr : Nat) (p : sr_probe) (l : List sr_probe)
    (t : sigma_trigger) (u ts : Int) (c : Char) (hsr : ¬ sr ≥ SR_MHZ 100)
    (h : trigger_char p = some c) :
    configure_probes_loop sr (p :: l) t u ts =
      if c = '1' then
        (if ts > 1 then
          (SR_ERR, { t with simplevalue := (t.simplevalue ||| 1 <<< p.index.toNat) % 65536,
                            simplemask := (t.simplemask ||| 1 <<< p.index.toNat) % 65536 }, u)
        else configure_probes_loop sr l
          { t with simplevalue := (t.simplevalue ||| 1 <<< p.index.toNat) % 65536,
                   simplemask := (t.simplemask ||| 1 <<< p.index.toNat) % 65536 }
          (if ts ≠ 0 then 1 else u) ts)
      else if c = '0' then
        (if ts > 1 then
          (SR_ERR, { t with simplevalue :=
                              t.simplevalue &&& (65535 ^^^ ((1 <<< p.index.toNat) % 65536)),
                            simplemask := (t.simplemask ||| 1 <<< p.index.toNat) % 65536 }, u)
        else configure_probes_loop sr l
          { t with simplevalue := t.simplevalue &&& (65535 ^^^ ((1 <<< p.index.toNat) % 65536)),
                   simplemask := (t.simplemask ||| 1 <<< p.index.toNat) % 65536 }
          (if ts ≠ 0 then 1 else u) ts)
      else if c = 'f' then
        (if ts + 1 > 1 then
          (SR_ERR, { t with fallingmask := (t.fallingmask ||| 1 <<< p.index.toNat) % 65536 }, u)
        else configure_probes_loop sr l
          { t with fallingmask := (t.fallingmask ||| 1 <<< p.index.toNat) % 65536 }
          (if ts + 1 ≠ 0 then 1 else u) (ts + 1))
      else if c = 'r' then
        (if ts + 1 > 1 then
          (SR_ERR, { t with risingmask := (t.risingmask ||| 1 <<< p.index.toNat) % 65536 }, u)
        else configure_probes_loop sr l
          { t with risingmask := (t.risingmask ||| 1 <<< p.index.toNat) % 65536 }
          (if ts + 1 ≠ 0 then 1 else u) (ts + 1))
      else
        (if ts > 1 then (SR_ERR, t, u)
        else configure_probes_loop sr l t (if ts ≠ 0 then 1 else u) ts) := by
  obtain ⟨index, type, enabled, name, trigger⟩ := p
  cases enabled <;> cases trigger <;> simp [trigger_char] at h
  subst h
  rw [configure_probes_loop]
  simp only [if_neg hsr]
  split_ifs <;> rfl

theorem configure_probes_loop_fast_after (sr : Nat) (hsr : sr ≥ SR_MHZ 100)
    (l : List sr_probe) (t : sigma_trigger) (u ts : Int) (hts : ts ≠ 0) :
    configure_probes_loop sr l t u ts =
      (if l.filter (fun p => (trigger_char p).isSome) = [] then SR_OK else SR_ERR, t, u) := by
  induction l with
  | nil => simp [configure_probes_loop]
  | cons p l ih =>
    cases h : trigger_char p with
    | none =>
      rw [configure_probes_loop_skip sr p l t u ts h, ih,
        List.filter_cons_of_neg (by simp [h])]
    | some c =>
      rw [configure_probes_loop_fast sr p l t u ts c hsr h, if_pos hts,
        List.filter_cons_of_pos (by simp [h])]
      simp

theorem configure_probes_loop_fast_start (sr : Nat) (hsr : sr ≥ SR_MHZ 100)
    (l : List sr_probe) (t : sigma_trigger) (u : Int) :
    configure_probes_loop sr l t u 0 =
      match l.filter (fun p => (trigger_char p).isSome) with
      | [] => (SR_OK, t, u)
      | p :: rest =>
        if trigger_char p = some 'f' then
          (if rest = [] then SR_OK else SR_ERR,
            { t with fallingmask := (t.fallingmask ||| 1 <<< p.index.toNat) % 65536 }, 1)
        else if trigger_char p = some 'r' then
          (if rest = [] then SR_OK else SR_ERR,
            { t with risingmask := (t.risingmask ||| 1 <<< p.index.toNat) % 65536 }, 1)
        else (SR_ERR, t, u) := by
  induction l with
  | nil => simp [configure_probes_loop]
  | cons p l ih =>
    cases h : trigger_char p with
    | none =>
      rw [configure_probes_loop_skip sr p l t u 0 h, ih,
        List.filter_cons_of_neg (by simp [h])]
    | some c =>
      rw [configure_probes_loop_fast sr p l t u 0 c hsr h,
        List.filter_cons_of_pos (by simp [h])]
      simp only [ne_eq, not_true_eq_false, if_false, h, Option.some.injEq, zero_add]
      by_cases hf : c = 'f'
      · rw [if_pos hf, if_pos hf, configure_probes_loop_fast_after sr hsr l _ 1 1 (by decide)]
      · rw [if_neg hf, if_neg hf]
        by_cases hr : c = 'r'
        · rw [if_pos hr, if_pos hr,
            configure_probes_loop_fast_after sr hsr l _ 1 1 (by decide)]
        · rw [if_neg hr, if_neg hr]

end Sigma

/-- C14: at 100 MHz and above `configure_probes` returns `SR_OK` exactly when at most
one enabled probe carries a trigger spec and that spec starts with `r` or `f`;
every other configuration (a second trigger, another first character such as
`0` or `1`) gives `SR_ERR`. On success without trigger all four trigger fields
are zero; on success with the trigger on a probe with index 0 to 15 the rising
mask (`r`) or the falling mask (`f`) is exactly that probe's bit and the three
other fields, value and mask among them, are zero. -/
theorem C14_configure_probes_fast_mode (sdi : sr_dev_inst Sigma.dev_context)
    (h100 : sdi.priv.cur_samplerate ≥ SR_MHZ 100) :
    ((Sigma.configure_probes sdi).1 = SR_OK ↔
      (sdi.probes.filter (fun p => (Sigma.trigger_char p).isSome)).length ≤ 1
      ∧ ∀ p ∈ sdi.probes.filter (fun p => (Sigma.trigger_char p).isSome),
          Sigma.trigger_char p = some 'r' ∨ Sigma.trigger_char p = some 'f')
    ∧ ((Sigma.configure_probes sdi).1 ≠ SR_OK → (Sigma.configure_probes sdi).1 = SR_ERR)
    ∧ ((Sigma.configure_probes sdi).1 = SR_OK →
        sdi.probes.filter (fun p => (Sigma.trigger_char p).isSome) = [] →
        (Sigma.configure_probes sdi).2.priv.trigger
          = { risingmask := 0, fallingmask := 0, simplemask := 0, simplevalue := 0 })
    ∧ (∀ p : sr_probe, (Sigma.configure_probes sdi).1 = SR_OK →
        sdi.probes.filter (fun p => (Sigma.trigger_char p).isSome) = [p] →
        0 ≤ p.index → p.index < 16 →
        (Sigma.trigger_char p = some 'r' →
          (Sigma.configure_probes sdi).2.priv.trigger
            = { risingmask := 1 <<< p.index.toNat, fallingmask := 0, simplemask := 0,
                simplevalue := 0 })
        ∧ (Sigma.trigger_char p = some 'f' →
          (Sigma.configure_probes sdi).2.priv.trigger
            = { risingmask := 0, fallingmask := 1 <<< p.index.toNat, simplemask := 0,
                simplevalue := 0 })) := by
  have hbit : ∀ p : sr_probe, 0 ≤ p.index → p.index < 16 →
      (0 ||| 1 <<< p.index.toNat) % 65536 = 1 <<< p.index.toNat := by
    intro p h0 h16
    have hn : p.index.toNat < 16 := by omega
    rw [Nat.zero_or, Nat.one_shiftLeft]
    exact Nat.mod_eq_of_lt (Nat.pow_lt_pow_right (by decide) hn)
  have hloop := Sigma.configure_probes_loop_fast_start sdi.priv.cur_samplerate h100 sdi.probes
    { risingmask := 0, fallingmask := 0, simplemask := 0, simplevalue := 0 }
    sdi.priv.use_triggers
  unfold Sigma.configure_probes
  simp only []
  rw [hloop]
  cases hT : sdi.probes.filter (fun p => (Sigma.trigger_char p).isSome) with
  | nil => simp
  | cons p rest =>
    have hp : (Sigma.trigger_char p).isSome = true := by
      have : p ∈ sdi.probes.filter (fun p => (Sigma.trigger_char p).isSome) := by
        rw [hT]; exact List.mem_cons_self _ _
      exact (List.mem_filter.mp this).2
    have hrest : ∀ q ∈ rest, (Sigma.trigger_char q).isSome = true := by
      intro q hq
      have : q ∈ sdi.probes.filter (fun p => (Sigma.trigger_char p).isSome) := by
        rw [hT]; exact List.mem_cons_of_mem _ hq
      exact (List.mem_filter.mp this).2
    simp only [List.length_cons, List.mem_cons, forall_eq_or_imp, List.cons.injEq,
      reduceCtorEq, false_implies, implies_true, true_and]
    by_cases hf : Sigma.trigger_char p = some 'f'
    · simp only [hf, if_true, or_true, true_and, reduceCtorEq, false_implies]
      cases rest with
      | nil =>
        refine ⟨by simp, by simp, ?_⟩
        rintro q - ⟨rfl, -⟩ h0 h16
        rw [hbit p h0 h16]
        exact ⟨fun hr => absurd (hf.symm.trans hr) (by decide), fun _ => rfl⟩
      | cons q rest2 =>
        refine ⟨?_, fun _ => by simp, ?_⟩
        · simp [SR_ERR, SR_OK]
        · rintro q2 - ⟨-, h⟩
          exact absurd h (by simp)
    · simp only [hf, if_false, or_false, false_implies]
      by_cases hr : Sigma.trigger_char p = some 'r'
      · simp only [hr, if_true, true_and, reduceCtorEq, false_implies]
        cases rest with
        | nil =>
          refine ⟨by simp, by simp, ?_⟩
          rintro q - ⟨rfl, -⟩ h0 h16
          rw [hbit p h0 h16]
          exact ⟨fun _ => rfl, fun hf2 => absurd (hr.symm.trans hf2) (by decide)⟩
        | cons q rest2 =>
          refine ⟨?_, fun _ => by simp, ?_⟩
          · simp [SR_ERR, SR_OK]
          · rintro q2 - ⟨-, h⟩
            exact absurd h (by simp)
      · simp only [hr, if_false, false_and, and_false, iff_false, false_implies, implies_true,
          and_true]
        refine ⟨by decide, trivial, ?_⟩
        intro q h
        exact absurd h (by decide)

theorem C14_configure_probes_fast_mode_witness :
    (Sigma.configure_probes (Sigma.dev_with_triggers Sigma.devc_100mhz [none, some "r"])).1
      = SR_OK
    ∧ (Sigma.configure_probes
        (Sigma.dev_with_triggers Sigma.devc_100mhz [none, some "r"])).2.priv.trigger
      = { risingmask := 2, fallingmask := 0, simplemask := 0, simplevalue := 0 }
    ∧ (Sigma.configure_probes (Sigma.dev_with_triggers Sigma.devc_100mhz [some "1"])).1
      = SR_ERR :=
  ⟨(C14_configure_probes_fast_mode
      (Sigma.dev_with_triggers Sigma.devc_100mhz [none, some "r"]) (by decide)).1.mpr
      (by decide),
   ((C14_configure_probes_fast_mode
      (Sigma.dev_with_triggers Sigma.devc_100mhz [none, some "r"]) (by decide)).2.2.2
      { sr_probe_new 1 SR_PROBE_LOGIC true (some "2") with trigger := some "r" }
      (by decide) (by decide) (by decide) (by decide)).1 (by decide),
   (C14_configure_probes_fast_mode
      (Sigma.dev_with_triggers Sigma.devc_100mhz [some "1"]) (by decide)).2.1 (by decide)⟩

namespace Sigma

/-- Bit `b` of a 16-bit mask after `mask |= 1 << i`. -/
theorem or_bit_testBit (m i b : Nat) (hb : b < 16) :
    ((m ||| 1 <<< i) % 65536).testBit b = (m.testBit b || decide (i = b)) := by
  rw [show (65536 : Nat) = 2 ^ 16 from rfl, Nat.testBit_mod_two_pow, Nat.testBit_or,
    Nat.one_shiftLeft, Nat.testBit_two_pow]
  simp [hb]

/-- Bit `b` of a 16-bit value after `value &= ~(1 << i)`. -/
theorem andnot_bit_testBit (m i b : Nat) (hi : i < 16) (hb : b < 16) :
    (m &&& (65535 ^^^ ((1 <<< i) % 65536))).testBit b = (m.testBit b && !decide (i = b)) := by
  have h : (1 <<< i) % 65536 = 1 <<< i := by
    rw [Nat.one_shiftLeft]
    exact Nat.mod_eq_of_lt (Nat.pow_lt_pow_right (by decide) hi)
  rw [h]
  exact clear_bit_testBit m i b hb

/-- The code returned by the loop of `configure_probes` below 100 MHz: an error
exactly when the counter of edge triggers passes 1. -/
theorem configure_probes_loop_slow_code (sr : Nat) (hsr : ¬ sr ≥ SR_MHZ 100)
    (l : List sr_probe) (t : sigma_trigger) (u ts : Int) (h0 : 0 ≤ ts) (h1 : ts ≤ 1) :
    (configure_probes_loop sr l t u ts).1 =
      if ts + (l.countP fun p => trigger_char p == some 'r' || trigger_char p == some 'f') ≤ 1
      then SR_OK else SR_ERR := by
  induction l generalizing t u ts with
  | nil => simp [configure_probes_loop, h1]
  | cons p l ih =>
    cases h : trigger_char p with
    | none =>
      rw [configure_probes_loop_skip sr p l t u ts h, ih t u ts h0 h1,
        List.countP_cons_of_neg _ _ (by simp [h])]
    | some c =>
      rw [configure_probes_loop_slow sr p l t u ts c hsr h]
      have hgt : ¬ ts > 1 := not_lt.mpr h1
      by_cases c1 : c = '1'
      · subst c1
        rw [if_pos rfl, if_neg hgt, ih _ _ ts h0 h1,
          List.countP_cons_of_neg _ _ (by rw [h]; decide)]
      · rw [if_neg c1]
        by_cases c0 : c = '0'
        · subst c0
          rw [if_pos rfl, if_neg hgt, ih _ _ ts h0 h1,
            List.countP_cons_of_neg _ _ (by rw [h]; decide)]
        · rw [if_neg c0]
          by_cases cf : c = 'f'
          · subst cf
            rw [if_pos rfl, List.countP_cons_of_pos _ _ (by rw [h]; decide)]
            by_cases hz : ts = 0
            · subst hz
              rw [if_neg (by decide), ih _ _ (0 + 1) (by decide) (by decide)]
              simp only [Nat.cast_add, Nat.cast_one]
              congr 1
              apply propext
              constructor <;> intro hh <;> omega
            · rw [if_pos (by omega), if_neg (by push_cast; omega)]
          · rw [if_neg cf]
            by_cases cr : c = 'r'
            · subst cr
              rw [if_pos rfl, List.countP_cons_of_pos _ _ (by rw [h]; decide)]
              by_cases hz : ts = 0
              · subst hz
                rw [if_neg (by decide), ih _ _ (0 + 1) (by decide) (by decide)]
                simp only [Nat.cast_add, Nat.cast_one]
                congr 1
                apply propext
                constructor <;> intro hh <;> omega
              · rw [if_pos (by omega), if_neg (by push_cast; omega)]
            · rw [if_neg cr, if_neg hgt, ih _ _ ts h0 h1,
                List.countP_cons_of_neg _ _ (by rw [h]; simp [cr, cf])]

/-- The trigger configuration left by a successful run of the loop of
`configure_probes` below 100 MHz, bit by bit. -/
theorem configure_probes_loop_slow_bits (sr : Nat) (hsr : ¬ sr ≥ SR_MHZ 100) (b : Nat)
    (hb : b < 16) (l : List sr_probe) (t : sigma_trigger) (u ts : Int)
    (hok : (configure_probes_loop sr l t u ts).1 = SR_OK)
    (hidx : ∀ p ∈ l, p.index.toNat < 16)
    (hnd : (l.map fun p => p.index.toNat).Nodup) :
    (configure_probes_loop sr l t u ts).2.1.simplemask.testBit b
        = (t.simplemask.testBit b
            || l.any fun p => (trigger_char p == some '0' || trigger_char p == some '1')
                && decide (p.index.toNat = b))
    ∧ (configure_probes_loop sr l t u ts).2.1.simplevalue.testBit b
        = ((l.any fun p => trigger_char p == some '1' && decide (p.index.toNat = b))
            || (t.simplevalue.testBit b
                && !(l.any fun p => trigger_char p == some '0' && decide (p.index.toNat = b))))
    ∧ (configure_probes_loop sr l t u ts).2.1.risingmask.testBit b
        = (t.risingmask.testBit b
            || l.any fun p => trigger_char p == some 'r' && decide (p.index.toNat = b))
    ∧ (configure_probes_loop sr l t u ts).2.1.fallingmask.testBit b
        = (t.fallingmask.testBit b
            || l.any fun p => trigger_char p == some 'f' && decide (p.index.toNat = b)) := by
  induction l generalizing t u ts with
  | nil => simp [configure_probes_loop]
  | cons p l ih =>
    have hidx2 : ∀ q ∈ l, q.index.toNat < 16 := fun q hq => hidx q (List.mem_cons_of_mem _ hq)
    have hp16 : p.index.toNat < 16 := hidx p (List.mem_cons_self _ _)
    rw [List.map_cons, List.nodup_cons] at hnd
    have hfresh : ∀ (c : sr_probe → Bool), p.index.toNat = b →
        (l.any fun q => c q && decide (q.index.toNat = b)) = false := by
      intro c hpb
      rw [List.any_eq_false]
      intro q hq
      have : q.index.toNat ≠ b := by
        intro hqb
        apply hnd.1
        rw [hpb, ← hqb]
        exact List.mem_map_of_mem _ hq
      simp [this]
    cases h : trigger_char p with
    | none =>
      rw [configure_probes_loop_skip sr p l t u ts h] at hok ⊢
      obtain ⟨i1, i2, i3, i4⟩ := ih t u ts hok hidx2 hnd.2
      simp only [List.any_cons, h]
      exact ⟨by rw [i1]; simp, by rw [i2]; simp, by rw [i3]; simp, by rw [i4]; simp⟩
    | some c =>
      rw [configure_probes_loop_slow sr p l t u ts c hsr h] at hok ⊢
      simp only [List.any_cons, h]
      have hbeq : ∀ d : Char, ¬ c = d → (c == d) = false := fun d hd => by simpa using hd
      split_ifs at hok ⊢
      all_goals first
        | exact absurd (show SR_ERR = SR_OK from hok) (by decide)
        | (obtain ⟨i1, i2, i3, i4⟩ := ih _ _ _ hok hidx2 hnd.2
           rw [i1, i2, i3, i4]
           subst_vars
           refine ⟨?_, ?_, ?_, ?_⟩
           all_goals try simp only [or_bit_testBit _ _ _ hb, andnot_bit_testBit _ _ _ hp16 hb]
           all_goals by_cases hpb : p.index.toNat = b
           all_goals simp [hpb, hfresh, hbeq, *])

/-- The four masks stay 16-bit values in the loop of `configure_probes` below
100 MHz. -/
theorem configure_probes_loop_slow_lt (sr : Nat) (hsr : ¬ sr ≥ SR_MHZ 100)
    (l : List sr_probe) (t : sigma_trigger) (u ts : Int)
    (ht : t.risingmask < 65536 ∧ t.fallingmask < 65536 ∧ t.simplemask < 65536
      ∧ t.simplevalue < 65536) :
    (configure_probes_loop sr l t u ts).2.1.risingmask < 65536
    ∧ (configure_probes_loop sr l t u ts).2.1.fallingmask < 65536
    ∧ (configure_probes_loop sr l t u ts).2.1.simplemask < 65536
    ∧ (configure_probes_loop sr l t u ts).2.1.simplevalue < 65536 := by
  induction l generalizing t u ts with
  | nil => simpa [configure_probes_loop] using ht
  | cons p l ih =>
    have hmod : ∀ x : Nat, x % 65536 < 65536 := fun x => Nat.mod_lt x (by decide)
    have hand : ∀ y : Nat, t.simplevalue &&& y < 65536 :=
      fun y => Nat.lt_of_le_of_lt Nat.and_le_left ht.2.2.2
    cases h : trigger_char p with
    | none =>
      rw [configure_probes_loop_skip sr p l t u ts h]
      exact ih t u ts ht
    | some c =>
      rw [configure_probes_loop_slow sr p l t u ts c hsr h]
      split_ifs
      all_goals first
        | exact ih _ _ _ ⟨by first | exact hmod _ | exact ht.1,
            by first | exact hmod _ | exact ht.2.1,
            by first | exact hmod _ | exact ht.2.2.1,
            by first | exact hmod _ | exact hand _ | exact ht.2.2.2⟩
        | exact ⟨by first | exact hmod _ | exact ht.1,
            by first | exact hmod _ | exact ht.2.1,
            by first | exact hmod _ | exact ht.2.2.1,
            by first | exact hmod _ | exact hand _ | exact ht.2.2.2⟩

end Sigma

/-- C15, counterexample: at 50 MHz a rising trigger on probe 0 together with a
falling trigger on probe 1 (two edge triggers on enabled probes) is not
accepted: `configure_probes` returns `SR_ERR`; so do two rising triggers, and so
does one level trigger with two edge triggers. -/
theorem C15_two_edge_triggers_rejected :
    Sigma.devc_50mhz.cur_samplerate < SR_MHZ 100
    ∧ (Sigma.configure_probes
        (Sigma.dev_with_triggers Sigma.devc_50mhz [some "r", some "f"])).1 = SR_ERR
    ∧ (Sigma.configure_probes
        (Sigma.dev_with_triggers Sigma.devc_50mhz [some "r", some "r"])).1 = SR_ERR
    ∧ (Sigma.configure_probes
        (Sigma.dev_with_triggers Sigma.devc_50mhz [some "1", some "r", some "f"])).1 = SR_ERR := by
  decide

/-- C15, amended: below 100 MHz `configure_probes` returns `SR_OK` exactly when at
most one enabled probe has a trigger spec starting with `r` or `f`, whatever the
number of `0`/`1` level triggers, and `SR_ERR` otherwise. On success, for probes
with pairwise distinct indices 0 to 15, bit `b` of the simple mask is set
exactly when an enabled probe of index `b` has a `0` or `1` trigger, of the
simple value when it has a `1` trigger, of the rising mask when it has an `r`
trigger and of the falling mask when it has an `f` trigger; disabled probes and
probes without trigger contribute nothing. -/
theorem C15_configure_probes_slow_mode (sdi : sr_dev_inst Sigma.dev_context)
    (hlow : sdi.priv.cur_samplerate < SR_MHZ 100) :
    ((Sigma.configure_probes sdi).1 = SR_OK ↔
      (sdi.probes.countP fun p =>
        Sigma.trigger_char p == some 'r' || Sigma.trigger_char p == some 'f') ≤ 1)
    ∧ ((Sigma.configure_probes sdi).1 ≠ SR_OK → (Sigma.configure_probes sdi).1 = SR_ERR)
    ∧ ((Sigma.configure_probes sdi).1 = SR_OK →
        (∀ p ∈ sdi.probes, 0 ≤ p.index ∧ p.index < 16) →
        (sdi.probes.map fun p => p.index).Nodup →
        ∀ b : Nat,
          ((Sigma.configure_probes sdi).2.priv.trigger.simplemask.testBit b = true ↔
            ∃ p ∈ sdi.probes, (Sigma.trigger_char p = some '0' ∨ Sigma.trigger_char p = some '1')
              ∧ p.index = b)
          ∧ ((Sigma.configure_probes sdi).2.priv.trigger.simplevalue.testBit b = true ↔
            ∃ p ∈ sdi.probes, Sigma.trigger_char p = some '1' ∧ p.index = b)
          ∧ ((Sigma.configure_probes sdi).2.priv.trigger.risingmask.testBit b = true ↔
            ∃ p ∈ sdi.probes, Sigma.trigger_char p = some 'r' ∧ p.index = b)
          ∧ ((Sigma.configure_probes sdi).2.priv.trigger.fallingmask.testBit b = true ↔
            ∃ p ∈ sdi.probes, Sigma.trigger_char p = some 'f' ∧ p.index = b)) := by
  have hsr : ¬ sdi.priv.cur_samplerate ≥ SR_MHZ 100 := not_le.mpr hlow
  have hcode := Sigma.configure_probes_loop_slow_code sdi.priv.cur_samplerate hsr sdi.probes
    { risingmask := 0, fallingmask := 0, simplemask := 0, simplevalue := 0 }
    sdi.priv.use_triggers 0 (le_refl 0) (by decide)
  have hc1 : (Sigma.configure_probes sdi).1
      = (Sigma.configure_probes_loop sdi.priv.cur_samplerate sdi.probes
          { risingmask := 0, fallingmask := 0, simplemask := 0, simplevalue := 0 }
          sdi.priv.use_triggers 0).1 := rfl
  have hc2 : (Sigma.configure_probes sdi).2.priv.trigger
      = (Sigma.configure_probes_loop sdi.priv.cur_samplerate sdi.probes
          { risingmask := 0, fallingmask := 0, simplemask := 0, simplevalue := 0 }
          sdi.priv.use_triggers 0).2.1 := rfl
  rw [hc1, hc2, hcode]
  refine ⟨?_, ?_, ?_⟩
  · simp only [zero_add, Nat.cast_le_one]
    split_ifs with hle
    · exact ⟨fun _ => hle, fun _ => rfl⟩
    · exact ⟨fun hh => absurd hh (by decide), fun hh => absurd hh hle⟩
  · split_ifs
    · exact fun hh => absurd rfl hh
    · exact fun _ => rfl
  · intro hok hidx hnd b
    rw [← hcode] at hok
    have hidx2 : ∀ p ∈ sdi.probes, p.index.toNat < 16 := by
      intro p hp
      have := hidx p hp
      omega
    have hnd2 : (sdi.probes.map fun p => p.index.toNat).Nodup := by
      have hinj : ∀ p ∈ sdi.probes, ∀ q ∈ sdi.probes, p.index.toNat = q.index.toNat →
          p.index = q.index := by
        intro p hp q hq hpq
        have h1 := hidx p hp
        have h2 := hidx q hq
        omega
      have : (sdi.probes.map fun p => p.index.toNat)
          = (sdi.probes.map fun p => p.index).map Int.toNat := by
        rw [List.map_map]; rfl
      rw [this]
      refine List.Nodup.map_on ?_ hnd
      intro x hx y hy hxy
      obtain ⟨p, hp, rfl⟩ := List.mem_map.mp hx
      obtain ⟨q, hq, rfl⟩ := List.mem_map.mp hy
      exact hinj p hp q hq hxy
    have hlt := Sigma.configure_probes_loop_slow_lt sdi.priv.cur_samplerate hsr sdi.probes
      { risingmask := 0, fallingmask := 0, simplemask := 0, simplevalue := 0 }
      sdi.priv.use_triggers 0 (by decide)
    have hconv : ∀ p ∈ sdi.probes, (p.index.toNat = b ↔ p.index = (b : Int)) := by
      intro p hp
      have := hidx p hp
      omega
    by_cases hb : b < 16
    · obtain ⟨i1, i2, i3, i4⟩ := Sigma.configure_probes_loop_slow_bits sdi.priv.cur_samplerate
        hsr b hb sdi.probes
        { risingmask := 0, fallingmask := 0, simplemask := 0, simplevalue := 0 }
        sdi.priv.use_triggers 0 hok hidx2 hnd2
      rw [i1, i2, i3, i4]
      simp only [Nat.zero_testBit, Bool.false_or, Bool.false_and, Bool.or_false,
        List.any_eq_true, Bool.and_eq_true, Bool.or_eq_true, beq_iff_eq, decide_eq_true_eq]
      refine ⟨?_, ?_, ?_, ?_⟩
      all_goals constructor
      all_goals rintro ⟨p, hp, hc, hi⟩
      all_goals first
        | exact ⟨p, hp, hc, (hconv p hp).mp hi⟩
        | exact ⟨p, hp, hc, (hconv p hp).mpr hi⟩
    · have hbig : ∀ m : Nat, m < 65536 → m.testBit b = false := by
        intro m hm
        apply Nat.testBit_lt_two_pow
        exact Nat.lt_of_lt_of_le hm
          (Nat.pow_le_pow_right (show 0 < 2 by decide) (Nat.le_of_not_lt hb))
      rw [hbig _ hlt.1, hbig _ hlt.2.1, hbig _ hlt.2.2.1, hbig _ hlt.2.2.2]
      have hno : ∀ p ∈ sdi.probes, ¬ p.index = (b : Int) := by
        intro p hp
        have := hidx p hp
        omega
      refine ⟨?_, ?_, ?_, ?_⟩
      all_goals constructor
      all_goals first
        | (intro hh; exact absurd hh (by decide))
        | (rintro ⟨p, hp, -, hi⟩; exact absurd hi (hno p hp))

theorem C15_configure_probes_slow_mode_witness :
    (Sigma.configure_probes
        (Sigma.dev_with_triggers Sigma.devc_50mhz [some "r", some "1", some "0", some "1"])).1
      = SR_OK
    ∧ (Sigma.configure_probes
        (Sigma.dev_with_triggers Sigma.devc_50mhz [some "r", some "f"])).1 = SR_ERR :=
  ⟨(C15_configure_probes_slow_mode
      (Sigma.dev_with_triggers Sigma.devc_50mhz [some "r", some "1", some "0", some "1"])
      (by decide)).1.mpr (by decide),
   (C15_configure_probes_slow_mode
      (Sigma.dev_with_triggers Sigma.devc_50mhz [some "r", some "f"]) (by decide)).2.1
      (by decide)⟩

namespace Sigma

/-- Every packet of the loop `while (sent < n)` is a logic packet of at most
2048 units. -/
theorem send_pending_sizes (samples : Nat → Nat) (fuel sent n : Nat) :
    ∀ e ∈ send_pending samples fuel sent n,
      ∃ s k, k ≤ 2048 ∧ e = logic_packet samples s k := by
  induction fuel generalizing sent with
  | zero => intro e he; simp [send_pending] at he
  | succ fuel ih =>
    intro e he
    unfold send_pending at he
    split at he
    · rcases List.mem_cons.mp he with h | h
      · exact ⟨sent, min 2048 (n - sent), Nat.min_le_left _ _, h⟩
      · exact ih _ e h
    · simp at he

/-- The units sent by the step "send samples between previous and this
timestamp": `numpad` copies of the last sample when `numpad` is positive, and
otherwise the `n` units the previous iteration left in the array. -/
theorem pending_units (devc : dev_context) (ts : Nat) (st : decode_state) :
    logic_units (send_pending (pad_samples devc ts st) (pad_n devc ts st) 0 (pad_n devc ts st))
      = if numpad devc ts st.lastts > 0 then
          List.replicate (numpad devc ts st.lastts).toNat st.lastsample
        else (List.range st.n).map st.samples := by
  rw [send_pending_complete _ _ _ _ (Nat.sub_le _ _)]
  unfold pad_n pad_samples
  split_ifs with h
  · simp only [Nat.sub_zero, Nat.zero_add]
    apply List.ext_getElem
    · simp
    · intro j h1 h2
      simp only [List.length_map, List.length_range] at h1
      simp only [List.getElem_map, List.getElem_range, List.getElem_replicate, if_pos h1]
  · simp only [Nat.sub_zero, Nat.zero_add]

end Sigma

set_option maxRecDepth 100000 in
/-- C16, divergence: the step of `decode_chunk_ts` that sends the padding uses the
count `n`, which is set to `numpad` only when `numpad` is positive and is
otherwise what the previous iteration left: the size of the previous cluster.
When `numpad` is positive the units sent before the cluster's own samples are
`numpad` copies of the last sample, in packets of at most 2048 units. When
`numpad` is zero or negative they are the `n` units left in the array, not
none. Example at 50 MHz: two clusters with the contiguous timestamps 7 and 14
(`numpad` 0) and the events 1 to 7 and 8 to 14; the samples 1 to 7 are sent
twice. -/
theorem C16_padding_resends_previous_cluster :
    (∀ (devc : Sigma.dev_context) (ts : Nat) (st : Sigma.decode_state),
        (Sigma.numpad devc ts st.lastts > 0 →
          Sigma.logic_units (Sigma.send_pending (Sigma.pad_samples devc ts st)
              (Sigma.pad_n devc ts st) 0 (Sigma.pad_n devc ts st))
            = List.replicate (Sigma.numpad devc ts st.lastts).toNat st.lastsample)
        ∧ (Sigma.numpad devc ts st.lastts ≤ 0 →
          Sigma.logic_units (Sigma.send_pending (Sigma.pad_samples devc ts st)
              (Sigma.pad_n devc ts st) 0 (Sigma.pad_n devc ts st))
            = (List.range st.n).map st.samples)
        ∧ (∀ e ∈ Sigma.send_pending (Sigma.pad_samples devc ts st)
              (Sigma.pad_n devc ts st) 0 (Sigma.pad_n devc ts st),
            ∃ s k, k ≤ 2048 ∧ e = Sigma.logic_packet (Sigma.pad_samples devc ts st) s k))
    ∧ (∀ (devc : Sigma.dev_context) (buf : Nat → Nat) (triggerts : Int)
        (limit_chunk under i : Nat) (st : Sigma.decode_state),
        (Sigma.decode_cluster devc buf triggerts limit_chunk under i st).2 = true →
        (Sigma.decode_cluster devc buf triggerts limit_chunk under i st).1.n
          = 7 * devc.samples_per_event.toNat)
    ∧ Sigma.numpad Sigma.devc_50mhz 14 7 = 0
    ∧ (Sigma.decode_chunk_ts Sigma.devc_50mhz Sigma.buf_ramp 0 0 (-1) 14 (fun _ => 0) 0).2.2
        = [Sigma.Event.send (SR_DF_LOGIC 14 2 [1, 2, 3, 4, 5, 6, 7]),
           Sigma.Event.send (SR_DF_LOGIC 14 2 [1, 2, 3, 4, 5, 6, 7]),
           Sigma.Event.send (SR_DF_LOGIC 14 2 [8, 9, 10, 11, 12, 13, 14])] := by
  refine ⟨?_, ?_, by decide, by decide⟩
  · intro devc ts st
    refine ⟨?_, ?_, Sigma.send_pending_sizes _ _ _ _⟩
    · intro h
      rw [Sigma.pending_units, if_pos h]
    · intro h
      rw [Sigma.pending_units, if_neg (not_lt.mpr h)]
  · intro devc buf triggerts limit_chunk under i st h
    unfold Sigma.decode_cluster at h ⊢
    by_cases hc : limit_chunk ≠ 0 ∧ Sigma.RL16 buf (i * 16) > limit_chunk
    · rw [if_pos hc] at h
      exact absurd h (by simp)
    · rw [if_neg hc]

namespace Sigma

end Sigma

namespace Sigma

/-- The index at which the loop of `get_trigger_offset` stops: the first index
from `i` on that passes the three tests, or `i + k` when there is none. -/
theorem get_trigger_offset_loop_spec (samples : Nat → Nat) (t : sigma_trigger)
    (k i ls : Nat) :
    i ≤ get_trigger_offset_loop samples t k i ls
    ∧ get_trigger_offset_loop samples t k i ls ≤ i + k
    ∧ (get_trigger_offset_loop samples t k i ls < i + k →
        samples (get_trigger_offset_loop samples t k i ls) &&& t.simplemask = t.simplevalue
        ∧ (if get_trigger_offset_loop samples t k i ls > 0
            then samples (get_trigger_offset_loop samples t k i ls - 1) else ls)
              &&& t.risingmask = 0
        ∧ samples (get_trigger_offset_loop samples t k i ls) &&& t.risingmask = t.risingmask
        ∧ (if get_trigger_offset_loop samples t k i ls > 0
            then samples (get_trigger_offset_loop samples t k i ls - 1) else ls)
              &&& t.fallingmask = t.fallingmask
        ∧ samples (get_trigger_offset_loop samples t k i ls) &&& t.fallingmask = 0)
    ∧ (∀ j, i ≤ j → j < get_trigger_offset_loop samples t k i ls →
        ¬ (samples j &&& t.simplemask = t.simplevalue
          ∧ (if j > 0 then samples (j - 1) else ls) &&& t.risingmask = 0
          ∧ samples j &&& t.risingmask = t.risingmask
          ∧ (if j > 0 then samples (j - 1) else ls) &&& t.fallingmask = t.fallingmask
          ∧ samples j &&& t.fallingmask = 0)) := by
  induction k generalizing i ls with
  | zero =>
    simp only [get_trigger_offset_loop]
    exact ⟨le_refl _, le_refl _, fun h => absurd h (by omega), fun j h1 h2 => absurd h2 (by omega)⟩
  | succ k ih =>
    have hstep : ∀ r, r = get_trigger_offset_loop samples t k (i + 1)
          (if i > 0 then samples (i - 1) else ls) →
        ¬ (samples i &&& t.simplemask = t.simplevalue
          ∧ (if i > 0 then samples (i - 1) else ls) &&& t.risingmask = 0
          ∧ samples i &&& t.risingmask = t.risingmask
          ∧ (if i > 0 then samples (i - 1) else ls) &&& t.fallingmask = t.fallingmask
          ∧ samples i &&& t.fallingmask = 0) →
        i ≤ r ∧ r ≤ i + (k + 1)
        ∧ (r < i + (k + 1) →
            samples r &&& t.simplemask = t.simplevalue
            ∧ (if r > 0 then samples (r - 1) else ls) &&& t.risingmask = 0
            ∧ samples r &&& t.risingmask = t.risingmask
            ∧ (if r > 0 then samples (r - 1) else ls) &&& t.fallingmask = t.fallingmask
            ∧ samples r &&& t.fallingmask = 0)
        ∧ (∀ j, i ≤ j → j < r →
            ¬ (samples j &&& t.simplemask = t.simplevalue
              ∧ (if j > 0 then samples (j - 1) else ls) &&& t.risingmask = 0
              ∧ samples j &&& t.risingmask = t.risingmask
              ∧ (if j > 0 then samples (j - 1) else ls) &&& t.fallingmask = t.fallingmask
              ∧ samples j &&& t.fallingmask = 0)) := by
      intro r hr hfail
      obtain ⟨h1, h2, h3, h4⟩ := ih (i + 1) (if i > 0 then samples (i - 1) else ls)
      rw [← hr] at h1 h2 h3 h4
      have hrpos : r > 0 := by omega
      refine ⟨by omega, by omega, ?_, ?_⟩
      · intro hlt
        have := h3 (by omega)
        simpa only [if_pos hrpos] using this
      · intro j hij hjr
        by_cases hji : j = i
        · subst hji
          exact hfail
        · have hjpos : j > 0 := by omega
          have := h4 j (by omega) hjr
          simpa only [if_pos hjpos] using this
    unfold get_trigger_offset_loop
    simp only []
    by_cases c1 : samples i &&& t.simplemask ≠ t.simplevalue
    · rw [if_pos c1]
      exact hstep _ rfl (fun h => c1 h.1)
    · rw [if_neg c1]
      by_cases c2 : (if i > 0 then samples (i - 1) else ls) &&& t.risingmask ≠ 0
          ∨ samples i &&& t.risingmask ≠ t.risingmask
      · rw [if_pos c2]
        exact hstep _ rfl (fun h => by
          rcases c2 with c | c
          · exact c h.2.1
          · exact c h.2.2.1)
      · rw [if_neg c2]
        by_cases c3 : (if i > 0 then samples (i - 1) else ls) &&& t.fallingmask ≠ t.fallingmask
            ∨ samples i &&& t.fallingmask ≠ 0
        · rw [if_pos c3]
          exact hstep _ rfl (fun h => by
            rcases c3 with c | c
            · exact c h.2.2.2.1
            · exact c h.2.2.2.2)
        · rw [if_neg c3]
          refine ⟨le_refl _, by omega, fun _ => ?_, fun j h1 h2 => absurd h2 (by omega)⟩
          have c2' := not_or.mp c2
          have c3' := not_or.mp c3
          exact ⟨not_not.mp c1, not_not.mp c2'.1, not_not.mp c2'.2, not_not.mp c3'.1,
            not_not.mp c3'.2⟩

end Sigma

/-- C18: with `Q i` the condition tested at index `i` (the sample matches the
simple value under the simple mask; under the rising mask the preceding sample
is all zeroes and the sample all ones; under the falling mask the preceding
sample is all ones and the sample all zeroes; the preceding sample being
`last_sample` for `i = 0` and `samples[i - 1]` otherwise), `get_trigger_offset` returns
the least index in 0..7 for which `Q` holds, and 0 when there is none; the
result is at most 7. -/
theorem C18_get_trigger_offset_least (samples : Nat → Nat) (last_sample : Nat)
    (t : Sigma.sigma_trigger) (Q : Nat → Prop)
    (hQ : ∀ i, Q i ↔
      (samples i &&& t.simplemask = t.simplevalue
        ∧ (if i > 0 then samples (i - 1) else last_sample) &&& t.risingmask = 0
        ∧ samples i &&& t.risingmask = t.risingmask
        ∧ (if i > 0 then samples (i - 1) else last_sample) &&& t.fallingmask = t.fallingmask
        ∧ samples i &&& t.fallingmask = 0)) :
    (∀ i, i < 8 → Q i → (∀ j, j < i → ¬ Q j) →
        Sigma.get_trigger_offset samples last_sample t = i)
    ∧ ((∀ i, i < 8 → ¬ Q i) → Sigma.get_trigger_offset samples last_sample t = 0)
    ∧ Sigma.get_trigger_offset samples last_sample t ≤ 7 := by
  obtain ⟨-, h2, h3, h4⟩ := Sigma.get_trigger_offset_loop_spec samples t 8 0 last_sample
  have hand : ∀ r : Nat, r < 8 → r &&& 0x7 = r := by
    intro r hr
    rw [show (0x7 : Nat) = 2 ^ 3 - 1 from rfl, Nat.and_pow_two_sub_one_eq_mod]
    exact Nat.mod_eq_of_lt hr
  unfold Sigma.get_trigger_offset
  generalize Sigma.get_trigger_offset_loop samples t 8 0 last_sample = r at h2 h3 h4
  refine ⟨?_, ?_, Nat.and_le_right⟩
  · intro i hi hqi hleast
    have hri : r = i := by
      by_contra hne
      rcases Nat.lt_or_gt_of_ne hne with hlt | hgt
      · exact hleast r hlt ((hQ r).mpr (h3 (by omega)))
      · exact h4 i (Nat.zero_le _) hgt ((hQ i).mp hqi)
    rw [hri]
    exact hand i hi
  · intro hnone
    have hr8 : r = 8 := by
      by_contra hne
      have hlt : r < 8 := by omega
      exact hnone r hlt ((hQ r).mpr (h3 (by omega)))
    rw [hr8]
    rfl

theorem C18_get_trigger_offset_least_witness :
    Sigma.get_trigger_offset (fun j => if j = 2 then 1 else 0) 0
      { risingmask := 1, fallingmask := 0, simplemask := 0, simplevalue := 0 } = 2 :=
  (C18_get_trigger_offset_least (fun j => if j = 2 then 1 else 0) 0
    { risingmask := 1, fallingmask := 0, simplemask := 0, simplevalue := 0 }
    (fun i => i = 2)
    (fun i => by
      by_cases h : i = 2
      · subst h; decide
      · simp [h])).1 2 (by decide) rfl (fun j hj hq => absurd hq (by omega))

namespace Sigma

/-- Below 100 MHz the loop of `configure_probes` leaves the flag `use_triggers` as it
was when no probe has an edge trigger. -/
theorem configure_probes_loop_slow_flag (sr : Nat) (hsr : ¬ sr ≥ SR_MHZ 100)
    (l : List sr_probe) (t : sigma_trigger) (u : Int)
    (hno : (l.countP fun p => trigger_char p == some 'r' || trigger_char p == some 'f') = 0) :
    (configure_probes_loop sr l t u 0).2.2 = u := by
  induction l generalizing t with
  | nil => simp [configure_probes_loop]
  | cons p l ih =>
    cases h : trigger_char p with
    | none =>
      rw [List.countP_cons_of_neg _ _ (by simp [h])] at hno
      rw [configure_probes_loop_skip sr p l t u 0 h]
      exact ih t hno
    | some c =>
      rw [List.countP_cons] at hno
      have hedge : ¬ (trigger_char p == some 'r' || trigger_char p == some 'f') = true := by
        intro he
        simp only [he, if_true] at hno
        omega
      simp only [hedge, if_false, Nat.add_zero] at hno
      rw [h] at hedge
      have hr : c ≠ 'r' := fun e => hedge (by subst e; decide)
      have hf : c ≠ 'f' := fun e => hedge (by subst e; decide)
      rw [configure_probes_loop_slow sr p l t u 0 c hsr h]
      simp only [if_neg hr, if_neg hf, gt_iff_lt, ne_eq, not_true_eq_false, if_false,
        show ¬ ((0 : Int) < 0 ∧ True) from by decide, show ¬ ((1 : Int) < 0) from by decide]
      split_ifs
      all_goals exact ih _ hno

/-- Without the flag `use_triggers` an iteration of `decode_chunk_ts` sends no
Trigger packet. -/
theorem cluster_out_no_trigger (devc : dev_context) (buf : Nat → Nat) (triggerts : Int)
    (i : Nat) (st : decode_state) (hu : devc.use_triggers = 0) :
    Event.send SR_DF_TRIGGER ∉ cluster_out devc buf triggerts i st := by
  intro hmem
  unfold cluster_out at hmem
  simp only [List.mem_append] at hmem
  rcases hmem with h | h
  · obtain ⟨s, k, -, he⟩ := send_pending_sizes _ _ _ _ _ h
    rw [logic_packet] at he
    exact absurd he (by simp)
  · split_ifs at h
    · simp only [List.mem_append, trigger_out, rest_out, hu, ne_eq, not_true_eq_false,
        if_false, List.not_mem_nil, or_false] at h
      rcases h with h | h
      · split_ifs at h
        · simp [logic_packet] at h
        · simp at h
      · split_ifs at h
        · simp [logic_packet] at h
        · simp at h
    · simp only [rest_out] at h
      split_ifs at h
      · simp [logic_packet] at h
      · simp at h

end Sigma

set_option maxRecDepth 100000 in
/-- C19, divergence: `configure_probes` sets the flag `use_triggers` only when it has
counted an edge trigger. Below 100 MHz a configuration whose only triggers are
level triggers (`0`, `1`) is accepted with `SR_OK` and leaves the flag as it was,
and without the flag no iteration of `decode_chunk_ts` sends a Trigger packet.
Example at 50 MHz: trigger `1` on probe 0 of a scanned device (flag 0); the
trigger cluster is cluster 1, the software trigger gives the offset 1; the
sample 8 and the samples 9 to 14 are sent as two logic packets with no Trigger
packet between them. -/
theorem C19_level_trigger_sends_no_trigger_packet :
    (∀ sdi : sr_dev_inst Sigma.dev_context, sdi.priv.cur_samplerate < SR_MHZ 100 →
        (sdi.probes.countP fun p =>
          Sigma.trigger_char p == some 'r' || Sigma.trigger_char p == some 'f') = 0 →
        (Sigma.configure_probes sdi).1 = SR_OK
        ∧ (Sigma.configure_probes sdi).2.priv.use_triggers = sdi.priv.use_triggers)
    ∧ (∀ (devc : Sigma.dev_context) (buf : Nat → Nat) (triggerts : Int) (i : Nat)
        (st : Sigma.decode_state), devc.use_triggers = 0 →
        Sigma.Event.send SR_DF_TRIGGER ∉ Sigma.cluster_out devc buf triggerts i st)
    ∧ (Sigma.configure_probes (Sigma.dev_with_triggers Sigma.devc_50mhz [some "1"])).1 = SR_OK
    ∧ (Sigma.configure_probes
        (Sigma.dev_with_triggers Sigma.devc_50mhz [some "1"])).2.priv.trigger
        = { risingmask := 0, fallingmask := 0, simplemask := 1, simplevalue := 1 }
    ∧ (Sigma.configure_probes
        (Sigma.dev_with_triggers Sigma.devc_50mhz [some "1"])).2.priv.use_triggers = 0
    ∧ Sigma.trigger_cluster
        (Sigma.configure_probes (Sigma.dev_with_triggers Sigma.devc_50mhz [some "1"])).2.priv 14
        = 1
    ∧ (Sigma.decode_chunk_ts
        (Sigma.configure_probes (Sigma.dev_with_triggers Sigma.devc_50mhz [some "1"])).2.priv
        Sigma.buf_ramp 0 0 14 14 (fun _ => 0) 0).2.2
        = [Sigma.Event.send (SR_DF_LOGIC 14 2 [1, 2, 3, 4, 5, 6, 7]),
           Sigma.Event.send (SR_DF_LOGIC 14 2 [1, 2, 3, 4, 5, 6, 7]),
           Sigma.Event.send (SR_DF_LOGIC 2 2 [8]),
           Sigma.Event.send (SR_DF_LOGIC 12 2 [9, 10, 11, 12, 13, 14])] := by
  refine ⟨?_, ?_, by decide, by decide, by decide, by decide, by decide⟩
  · intro sdi hlow hno
    have hsr : ¬ sdi.priv.cur_samplerate ≥ SR_MHZ 100 := not_le.mpr hlow
    constructor
    · have hcode := Sigma.configure_probes_loop_slow_code sdi.priv.cur_samplerate hsr
        sdi.probes { risingmask := 0, fallingmask := 0, simplemask := 0, simplevalue := 0 }
        sdi.priv.use_triggers 0 (le_refl 0) (by decide)
      rw [hno] at hcode
      exact hcode
    · exact Sigma.configure_probes_loop_slow_flag sdi.priv.cur_samplerate hsr sdi.probes _ _ hno
  · intro devc buf triggerts i st hu
    exact Sigma.cluster_out_no_trigger devc buf triggerts i st hu

namespace Sigma

/-- With a nonzero limit, the loop "for each ts" returns at the first cluster
whose timestamp exceeds the limit: it has then done what the loop over the
clusters before it does, and stored the timestamp. -/
theorem decode_loop_clip (devc : dev_context) (buf : Nat → Nat) (triggerts : Int)
    (limit_chunk under : Nat) (hl : limit_chunk ≠ 0) (c m i : Nat) (st : decode_state)
    (hbefore : ∀ j, j < c → RL16 buf ((i + j) * 16) ≤ limit_chunk)
    (hclip : RL16 buf ((i + c) * 16) > limit_chunk) :
    decode_loop devc buf triggerts limit_chunk under (c + (m + 1)) i st
      = { decode_loop devc buf triggerts limit_chunk under c i st with
          lastts := RL16 buf ((i + c) * 16) } := by
  induction c generalizing i st with
  | zero =>
    have hc : limit_chunk ≠ 0 ∧ RL16 buf (i * 16) > limit_chunk := ⟨hl, by simpa using hclip⟩
    rw [Nat.zero_add]
    unfold decode_loop
    unfold decode_cluster
    simp only [if_pos hc, Nat.add_zero]
    rfl
  | succ c ih =>
    have h0 : RL16 buf (i * 16) ≤ limit_chunk := by simpa using hbefore 0 (Nat.succ_pos _)
    have hc : ¬ (limit_chunk ≠ 0 ∧ RL16 buf (i * 16) > limit_chunk) :=
      fun h => absurd h.2 (not_lt.mpr h0)
    have hflag : (decode_cluster devc buf triggerts limit_chunk under i st).2 = true := by
      unfold decode_cluster
      rw [if_neg hc]
    have e1 : c + 1 + (m + 1) = (c + (m + 1)) + 1 := by omega
    have e2 : i + (c + 1) = i + 1 + c := by omega
    rw [e1, e2]
    conv_lhs => unfold decode_loop
    conv_rhs => unfold decode_loop
    simp only [hflag, if_true]
    apply ih
    · intro j hj
      have := hbefore (j + 1) (by omega)
      rw [show i + (j + 1) = i + 1 + j by omega] at this
      exact this
    · rw [← e2]
      exact hclip

/-- With the limit 0 no cluster is clipped. -/
theorem decode_cluster_no_limit (devc : dev_context) (buf : Nat → Nat) (triggerts : Int)
    (under i : Nat) (st : decode_state) :
    (decode_cluster devc buf triggerts 0 under i st).2 = true := by
  unfold decode_cluster
  rw [if_neg (fun h => h.1 rfl)]

end Sigma

set_option maxRecDepth 100000 in
/-- C20, counterexample: a device in the download state reports the stop position
512 (raw 513) and its sample memory starts with the timestamp 1. `receive_data`
sets the last timestamp to 0 and computes the limit `512 % 512 + 0 = 0` for
this last chunk. The first cluster has the timestamp 1, above that limit, yet
nothing is clipped: the chunk is decoded to its end and 889 samples are
sent. -/
theorem C20_zero_limit_clips_nothing :
    (Sigma.sigma_read_pos Sigma.io_ramp.pos).1 = 512
    ∧ wrap_dec 16 (Sigma.RL16 Sigma.io_ramp.dram 0) = 0
    ∧ Sigma.RL16 Sigma.io_ramp.dram 0 > 512 % 512 + 0
    ∧ (Sigma.receive_data Sigma.io_ramp Sigma.downloading_50mhz).1.priv.state.chunks_downloaded
        = 1
    ∧ (Sigma.logic_units (Sigma.receive_data Sigma.io_ramp Sigma.downloading_50mhz).2).length
        = 889 := by
  decide

/-- C20, amended: for the last chunk `receive_data` passes to `decode_chunk_ts` the limit
`(stoppos mod 512 + lastts) mod 2^16`, the parameter being a 16-bit value. When
that limit `L` is not zero and cluster `c` is the first whose timestamp exceeds
`L`, `decode_chunk_ts` sends what the loop over the clusters 0 to `c - 1` sends and nothing
else: no sample, real or padding, of cluster `c` or of a later cluster. When
the limit is zero no cluster is clipped. -/
theorem C20_clip_limit_16_bit (devc : Sigma.dev_context) (buf : Nat → Nat) :
    (∀ (io : Sigma.rd_io) (numchunks : Int) (k i : Nat) (out : List Sigma.Event),
        devc.state.chunks_downloaded = numchunks - 1 →
        ∃ triggerpos : Int,
          Sigma.download_loop io numchunks (k + 1) i devc out
            = Sigma.download_loop io numchunks k (i + 1)
                { devc with state :=
                  { devc.state with
                    lastts :=
                      (Sigma.decode_chunk_ts devc (fun j => io.dram (i * Sigma.CHUNK_SIZE + j))
                        devc.state.lastts devc.state.lastsample triggerpos
                        ((devc.state.stoppos % 512 + devc.state.lastts) % 65536)
                        (io.stack i) (io.under i)).1
                    lastsample :=
                      (Sigma.decode_chunk_ts devc (fun j => io.dram (i * Sigma.CHUNK_SIZE + j))
                        devc.state.lastts devc.state.lastsample triggerpos
                        ((devc.state.stoppos % 512 + devc.state.lastts) % 65536)
                        (io.stack i) (io.under i)).2.1
                    chunks_downloaded := devc.state.chunks_downloaded + 1 } }
                (out ++
                  (Sigma.decode_chunk_ts devc (fun j => io.dram (i * Sigma.CHUNK_SIZE + j))
                    devc.state.lastts devc.state.lastsample triggerpos
                    ((devc.state.stoppos % 512 + devc.state.lastts) % 65536)
                    (io.stack i) (io.under i)).2.2))
    ∧ (∀ (lastts lastsample : Nat) (triggerpos : Int) (limit_chunk : Nat) (stack : Nat → Nat)
        (under c : Nat), limit_chunk ≠ 0 → c < 64 →
        (∀ j, j < c → Sigma.RL16 buf (j * 16) ≤ limit_chunk) →
        Sigma.RL16 buf (c * 16) > limit_chunk →
        (Sigma.decode_chunk_ts devc buf lastts lastsample triggerpos limit_chunk stack
            under).2.2
          = (Sigma.decode_loop devc buf (Sigma.trigger_cluster devc triggerpos) limit_chunk
              under c 0
              { lastts := lastts, lastsample := lastsample, samples := stack, n := 0,
                out := [] }).out)
    ∧ (∀ (triggerts : Int) (under i : Nat) (st : Sigma.decode_state),
        (Sigma.decode_cluster devc buf triggerts 0 under i st).2 = true) := by
  refine ⟨?_, ?_, ?_⟩
  · intro io numchunks k i out h
    refine ⟨if devc.state.chunks_downloaded + i = devc.state.triggerchunk then
        ((devc.state.triggerpos &&& 0x1ff : Nat) : Int) else -1, ?_⟩
    conv_lhs => unfold Sigma.download_loop
    simp only [if_pos h, Int.toNat_ofNat]
  · intro lastts lastsample triggerpos limit_chunk stack under c hl hc hbefore hclip
    unfold Sigma.decode_chunk_ts
    simp only []
    have hsplit : 64 = c + ((63 - c) + 1) := by omega
    rw [hsplit, Sigma.decode_loop_clip devc buf _ limit_chunk under hl c (63 - c) 0 _
      (by simpa using hbefore) (by simpa using hclip)]
  · intro triggerts under i st
    exact Sigma.decode_cluster_no_limit devc buf triggerts under i st

theorem C20_clip_limit_16_bit_witness :
    (Sigma.decode_chunk_ts Sigma.devc_50mhz Sigma.buf_ramp 0 0 (-1) 14 (fun _ => 0) 0).2.2
      = (Sigma.decode_loop Sigma.devc_50mhz Sigma.buf_ramp
          (Sigma.trigger_cluster Sigma.devc_50mhz (-1)) 14 0 2 0
          { lastts := 0, lastsample := 0, samples := fun _ => 0, n := 0, out := [] }).out :=
  (C20_clip_limit_16_bit Sigma.devc_50mhz Sigma.buf_ramp).2.1 0 0 (-1) 14 (fun _ => 0) 0 2
    (by decide) (by decide) (by decide) (by decide)

namespace Sigma

/-- The context `set_samplerate` leaves for a supported rate: the context `d` left by
`upload_firmware` with the probe count, the rate, the period, the samples per event
and the idle state written over it. -/
theorem set_samplerate_supported (past : Nat) (fw : fw_io) (devc : dev_context)
    (rate : Nat) (idx np : Int) (hnz : rate ≠ 0) (hnp : np ≠ 0)
    (hat : samplerates_at past (samplerate_index rate) ≠ 0)
    (htier : (rate ≤ SR_MHZ 50 ∧ idx = 0 ∧ np = 16 ∧ rate ≠ SR_MHZ 100 ∧ rate ≠ SR_MHZ 200)
      ∨ (rate = SR_MHZ 100 ∧ idx = 1 ∧ np = 8) ∨ (rate = SR_MHZ 200 ∧ idx = 2 ∧ np = 4)) :
    set_samplerate past fw devc rate =
      (upload_firmware fw idx devc).map fun r =>
        (r.1,
          { r.2.1 with
            num_probes := np
            cur_samplerate := rate
            period_ps := 1000000000000 / rate
            samples_per_event := Int.tdiv 16 np
            state := { r.2.1.state with state := SIGMA_IDLE } },
          r.2.2) := by
  unfold set_samplerate
  rw [if_neg hat]
  rcases htier with ⟨h50, rfl, rfl, h100, h200⟩ | ⟨rfl, rfl, rfl⟩ | ⟨rfl, rfl, rfl⟩
  · simp only [if_pos h50, if_neg h100, if_neg h200]
    cases upload_firmware fw 0 devc with
    | none => rfl
    | some r => simp [hnz]
  · simp only [show ¬ SR_MHZ 100 ≤ SR_MHZ 50 from by decide, if_false, if_true,
      Option.some_bind]
    cases upload_firmware fw 1 devc with
    | none => rfl
    | some r => simp
  · simp only [show ¬ SR_MHZ 200 ≤ SR_MHZ 50 from by decide,
      show ¬ SR_MHZ 200 = SR_MHZ 100 from by decide, if_false, if_true, Option.some_bind]
    cases upload_firmware fw 2 devc with
    | none => rfl
    | some r => simp

/-- A supported rate is found by the search loop at its place in the table and is
not zero. -/
theorem samplerates_at_supported (past : Nat) (rate : Nat) (h : rate ∈ samplerates) :
    samplerates_at past (samplerate_index rate) = rate ∧ rate ≠ 0
    ∧ (rate ≤ SR_MHZ 50 ∧ rate ≠ SR_MHZ 100 ∧ rate ≠ SR_MHZ 200
        ∨ rate = SR_MHZ 100 ∨ rate = SR_MHZ 200) := by
  have hlt : samplerate_index rate < samplerates.length :=
    List.findIdx_lt_length_of_exists ⟨rate, h, by simp⟩
  have hget := List.findIdx_getElem (w := hlt)
  have hall : ∀ r ∈ samplerates, r ≠ 0
      ∧ (r ≤ SR_MHZ 50 ∧ r ≠ SR_MHZ 100 ∧ r ≠ SR_MHZ 200 ∨ r = SR_MHZ 100 ∨ r = SR_MHZ 200) := by
    decide
  refine ⟨?_, (hall rate h).1, (hall rate h).2⟩
  unfold samplerates_at
  rw [List.getD_eq_getElem?_getD, List.getElem?_eq_getElem hlt, Option.getD_some]
  simpa using hget

end Sigma

/-- C21: for every rate of the table `samplerates[]`, `set_samplerate` is `upload_firmware` of the
tier's firmware followed by the tier's settings: firmware 0, 16 probes, 1 sample
per event at 50 MHz and below; firmware 1, 8 probes, 2 samples per event at
100 MHz; firmware 2, 4 probes, 4 samples per event at 200 MHz. It returns
whenever `upload_firmware` returns (no division by zero), and in the context it leaves
`num_probes * samples_per_event = 16`, `cur_samplerate` is the rate requested and `period_ps` is
`10^12 / rate`. -/
theorem C21_set_samplerate_tiers (past : Nat) (fw : Sigma.fw_io) (devc : Sigma.dev_context)
    (rate : Nat) (hsup : rate ∈ Sigma.samplerates) :
    ∃ idx np spe : Int,
      ((rate ≤ SR_MHZ 50 ∧ idx = 0 ∧ np = 16 ∧ spe = 1)
        ∨ (rate = SR_MHZ 100 ∧ idx = 1 ∧ np = 8 ∧ spe = 2)
        ∨ (rate = SR_MHZ 200 ∧ idx = 2 ∧ np = 4 ∧ spe = 4))
      ∧ Sigma.set_samplerate past fw devc rate =
          (Sigma.upload_firmware fw idx devc).map (fun r =>
            (r.1,
              { r.2.1 with
                num_probes := np
                cur_samplerate := rate
                period_ps := 1000000000000 / rate
                samples_per_event := spe
                state := { r.2.1.state with state := Sigma.SIGMA_IDLE } },
              r.2.2))
      ∧ ((Sigma.upload_firmware fw idx devc).isSome = true →
          (Sigma.set_samplerate past fw devc rate).isSome = true)
      ∧ (∀ r, Sigma.set_samplerate past fw devc rate = some r →
          r.2.1.num_probes = np ∧ r.2.1.samples_per_event = spe
          ∧ r.2.1.num_probes * r.2.1.samples_per_event = 16
          ∧ r.2.1.cur_samplerate = rate
          ∧ r.2.1.period_ps = 1000000000000 / rate) := by
  obtain ⟨hat, hnz, htier⟩ := Sigma.samplerates_at_supported past rate hsup
  have hat2 : Sigma.samplerates_at past (Sigma.samplerate_index rate) ≠ 0 := by
    rw [hat]; exact hnz
  have key : ∀ idx np spe : Int, np ≠ 0 → Int.tdiv 16 np = spe → np * spe = 16 →
      ((rate ≤ SR_MHZ 50 ∧ idx = 0 ∧ np = 16 ∧ rate ≠ SR_MHZ 100 ∧ rate ≠ SR_MHZ 200)
        ∨ (rate = SR_MHZ 100 ∧ idx = 1 ∧ np = 8) ∨ (rate = SR_MHZ 200 ∧ idx = 2 ∧ np = 4)) →
      Sigma.set_samplerate past fw devc rate =
          (Sigma.upload_firmware fw idx devc).map (fun r =>
            (r.1,
              { r.2.1 with
                num_probes := np
                cur_samplerate := rate
                period_ps := 1000000000000 / rate
                samples_per_event := spe
                state := { r.2.1.state with state := Sigma.SIGMA_IDLE } },
              r.2.2))
      ∧ ((Sigma.upload_firmware fw idx devc).isSome = true →
          (Sigma.set_samplerate past fw devc rate).isSome = true)
      ∧ (∀ r, Sigma.set_samplerate past fw devc rate = some r →
          r.2.1.num_probes = np ∧ r.2.1.samples_per_event = spe
          ∧ r.2.1.num_probes * r.2.1.samples_per_event = 16
          ∧ r.2.1.cur_samplerate = rate
          ∧ r.2.1.period_ps = 1000000000000 / rate) := by
    intro idx np spe hnp hspe hmul ht
    have e := Sigma.set_samplerate_supported past fw devc rate idx np hnz hnp hat2 ht
    rw [hspe] at e
    refine ⟨e, ?_, ?_⟩
    · intro hs
      rw [e]
      cases hu : Sigma.upload_firmware fw idx devc with
      | none => rw [hu] at hs; exact absurd hs (by simp)
      | some r => rfl
    · intro r hr
      rw [e] at hr
      cases hu : Sigma.upload_firmware fw idx devc with
      | none => rw [hu] at hr; exact absurd hr (by simp)
      | some q =>
        rw [hu] at hr
        simp only [Option.map_some', Option.some.injEq] at hr
        rw [← hr]
        exact ⟨rfl, rfl, hmul, rfl, rfl⟩
  rcases htier with ⟨h50, h100, h200⟩ | h100 | h200
  · exact ⟨0, 16, 1, Or.inl ⟨h50, rfl, rfl, rfl⟩,
      key 0 16 1 (by decide) (by decide) (by decide) (Or.inl ⟨h50, rfl, rfl, h100, h200⟩)⟩
  · exact ⟨1, 8, 2, Or.inr (Or.inl ⟨h100, rfl, rfl, rfl⟩),
      key 1 8 2 (by decide) (by decide) (by decide) (Or.inr (Or.inl ⟨h100, rfl, rfl⟩))⟩
  · exact ⟨2, 4, 4, Or.inr (Or.inr ⟨h200, rfl, rfl, rfl⟩),
      key 2 4 4 (by decide) (by decide) (by decide) (Or.inr (Or.inr ⟨h200, rfl, rfl⟩))⟩

theorem C21_set_samplerate_tiers_witness :
    (Sigma.set_samplerate 0 Sigma.fw_ok Sigma.devc_100mhz (SR_MHZ 200)).isSome = true
    ∧ ∀ r, Sigma.set_samplerate 0 Sigma.fw_ok Sigma.devc_100mhz (SR_MHZ 200) = some r →
        r.2.1.num_probes = 4 ∧ r.2.1.samples_per_event = 4 := by
  obtain ⟨idx, np, spe, ht, -, hs, hr⟩ :=
    C21_set_samplerate_tiers 0 Sigma.fw_ok Sigma.devc_100mhz (SR_MHZ 200) (by decide)
  have h : idx = 2 ∧ np = 4 ∧ spe = 4 := by
    rcases ht with ⟨h, -⟩ | ⟨h, -⟩ | ⟨-, h⟩
    · exact absurd h (by decide)
    · exact absurd h (by decide)
    · exact h
  obtain ⟨rfl, rfl, rfl⟩ := h
  exact ⟨hs (by decide), fun r h => ⟨(hr r h).1, (hr r h).2.1⟩⟩

/-- C22, divergence: `sigma_read_pos` reports the stop position as the 24-bit value read
minus one and the trigger position as the 24-bit value read, not decremented:
`--*stoppos` decrements the value, `*--triggerpos` moves the local pointer. Neither
is lowered by 64: both `-= 64` act on the local pointers. Example: the device
answers the trigger position 5 and the stop position 0x200; the stop position
reported is 0x1ff (low nine bits all ones, not 0x1bf) and the trigger position
reported is 5 (not 4); with the trigger position 0x200 read, 0x200 is
reported (not 0x1bf). -/
theorem C22_sigma_read_pos_no_correction :
    (∀ result : List Nat,
        (Sigma.sigma_read_pos result).1
          = wrap_dec 32 (result.getD 3 0 % 256 + (result.getD 4 0 % 256) * 256
              + (result.getD 5 0 % 256) * 65536)
        ∧ (Sigma.sigma_read_pos result).2
          = result.getD 0 0 % 256 + (result.getD 1 0 % 256) * 256
              + (result.getD 2 0 % 256) * 65536)
    ∧ Sigma.sigma_read_pos [5, 0, 0, 0, 2, 0] = (0x1ff, 5)
    ∧ 0x1ff &&& 0x1ff = 0x1ff
    ∧ Sigma.sigma_read_pos [0, 2, 0, 7, 0, 0] = (6, 0x200) := by
  refine ⟨fun result => ⟨rfl, rfl⟩, by decide, by decide, by decide⟩

namespace Ols

/-- The test of a flag after `flag_reg |= flag`, for a one-bit flag below bit 32. -/
theorem set_flag_on (flag_reg k : Nat) (hk : k < 32) :
    set_flag flag_reg (2 ^ k) true &&& 2 ^ k ≠ 0 := by
  unfold set_flag
  rw [if_pos rfl, Nat.and_two_pow, Nat.testBit_mod_two_pow, Nat.testBit_or,
    Nat.testBit_two_pow_self]
  simp [hk]

/-- The test of a flag after `flag_reg &= ~flag`, for a one-bit flag below bit 32. -/
theorem set_flag_off (flag_reg k : Nat) (hk : k < 32) :
    set_flag flag_reg (2 ^ k) false &&& 2 ^ k = 0 := by
  unfold set_flag
  rw [if_neg (by simp), Nat.and_two_pow, Nat.testBit_and, Nat.testBit_xor,
    Nat.testBit_two_pow_self, show (0xffffffff : Nat) = 2 ^ 32 - 1 from rfl,
    Nat.testBit_two_pow_sub_one]
  simp [hk]

/-- Setting one flag leaves the test of another one-bit flag as it was. -/
theorem set_flag_other (flag_reg k j : Nat) (hj : j < 32) (hkj : k ≠ j) :
    (set_flag flag_reg (2 ^ k) true &&& 2 ^ j ≠ 0) ↔ (flag_reg &&& 2 ^ j ≠ 0) := by
  unfold set_flag
  rw [if_pos rfl, Nat.and_two_pow, Nat.and_two_pow, Nat.testBit_mod_two_pow, Nat.testBit_or,
    Nat.testBit_two_pow_of_ne hkj]
  simp [hj]

end Ols

/-- C23, divergence: `config_set` of the pattern mode only sets the bit of the mode
asked for and never clears the other one, and `config_get` tests the external
bit first. On the Active device that is in external test mode (reached by
setting "external"), setting "internal" returns `SR_OK` and the following get
returns `SR_OK` with "external". The capture ratio is kept in an `int`: setting
`2^32 + 5` returns `SR_OK` and the following get returns 5. What does hold, from
every Active state: a sample limit, a capture ratio below `2^32`, an RLE flag
and the pattern mode "external" that were set with `SR_OK` are read back, and
"internal" is read back exactly when the external bit was not set before. -/
theorem C23_ols_pattern_mode_not_read_back
    (f : Ols.dev_context → Nat → Int × Ols.dev_context) :
    Ols.dev_external.status = SR_ST_ACTIVE
    ∧ Ols.dev_external.priv.flag_reg = Ols.FLAG_EXTERNAL_TEST_MODE
    ∧ (Ols.config_set f SR_CONF_PATTERN_MODE (GVariant.string "internal" : GVariant Unit)
        Ols.dev_external).1 = SR_OK
    ∧ Ols.config_get SR_CONF_PATTERN_MODE
        (some (Ols.config_set f SR_CONF_PATTERN_MODE
          (GVariant.string "internal" : GVariant Unit) Ols.dev_external).2)
        = (SR_OK, some (GVariant.string "external" : GVariant Unit))
    ∧ (Ols.config_set f SR_CONF_CAPTURE_RATIO (GVariant.uint64 (2 ^ 32 + 5) : GVariant Unit)
        (Ols.dev0 SR_ST_ACTIVE)).1 = SR_OK
    ∧ Ols.config_get SR_CONF_CAPTURE_RATIO
        (some (Ols.config_set f SR_CONF_CAPTURE_RATIO
          (GVariant.uint64 (2 ^ 32 + 5) : GVariant Unit) (Ols.dev0 SR_ST_ACTIVE)).2)
        = (SR_OK, some (GVariant.uint64 5 : GVariant Unit))
    ∧ (∀ (sdi : sr_dev_inst Ols.dev_context) (v : Nat), v < 2 ^ 64 →
        (Ols.config_set f SR_CONF_LIMIT_SAMPLES (GVariant.uint64 v : GVariant Unit) sdi).1
          = SR_OK →
        Ols.config_get SR_CONF_LIMIT_SAMPLES
          (some (Ols.config_set f SR_CONF_LIMIT_SAMPLES (GVariant.uint64 v : GVariant Unit)
            sdi).2)
          = (SR_OK, some (GVariant.uint64 v : GVariant Unit)))
    ∧ (∀ (sdi : sr_dev_inst Ols.dev_context) (v : Nat), v < 2 ^ 32 →
        (Ols.config_set f SR_CONF_CAPTURE_RATIO (GVariant.uint64 v : GVariant Unit) sdi).1
          = SR_OK →
        Ols.config_get SR_CONF_CAPTURE_RATIO
          (some (Ols.config_set f SR_CONF_CAPTURE_RATIO (GVariant.uint64 v : GVariant Unit)
            sdi).2)
          = (SR_OK, some (GVariant.uint64 v : GVariant Unit)))
    ∧ (∀ (sdi : sr_dev_inst Ols.dev_context) (b : Bool),
        (Ols.config_set f SR_CONF_RLE (GVariant.boolean b : GVariant Unit) sdi).1 = SR_OK →
        Ols.config_get SR_CONF_RLE
          (some (Ols.config_set f SR_CONF_RLE (GVariant.boolean b : GVariant Unit) sdi).2)
          = (SR_OK, some (GVariant.boolean b : GVariant Unit)))
    ∧ (∀ sdi : sr_dev_inst Ols.dev_context,
        (Ols.config_set f SR_CONF_PATTERN_MODE (GVariant.string "external" : GVariant Unit)
          sdi).1 = SR_OK →
        Ols.config_get SR_CONF_PATTERN_MODE
          (some (Ols.config_set f SR_CONF_PATTERN_MODE
            (GVariant.string "external" : GVariant Unit) sdi).2)
          = (SR_OK, some (GVariant.string "external" : GVariant Unit)))
    ∧ (∀ sdi : sr_dev_inst Ols.dev_context,
        (Ols.config_set f SR_CONF_PATTERN_MODE (GVariant.string "internal" : GVariant Unit)
          sdi).1 = SR_OK →
        Ols.config_get SR_CONF_PATTERN_MODE
          (some (Ols.config_set f SR_CONF_PATTERN_MODE
            (GVariant.string "internal" : GVariant Unit) sdi).2)
          = (SR_OK, some (GVariant.string
              (if sdi.priv.flag_reg &&& Ols.FLAG_EXTERNAL_TEST_MODE ≠ 0 then "external"
               else "internal") : GVariant Unit))) := by
  have hact : ∀ (id : Int) (data : GVariant Unit) (sdi : sr_dev_inst Ols.dev_context),
      (Ols.config_set f id data sdi).1 = SR_OK → sdi.status = SR_ST_ACTIVE := by
    intro id data sdi h
    by_contra hs
    unfold Ols.config_set at h
    rw [if_pos hs] at h
    exact absurd (show SR_ERR_DEV_CLOSED = SR_OK from h) (by decide)
  have hratio : ∀ (sdi : sr_dev_inst Ols.dev_context) (v : Nat),
      (Ols.config_set f SR_CONF_CAPTURE_RATIO (GVariant.uint64 v : GVariant Unit) sdi).1
        = SR_OK →
      Ols.config_get SR_CONF_CAPTURE_RATIO
        (some (Ols.config_set f SR_CONF_CAPTURE_RATIO (GVariant.uint64 v : GVariant Unit)
          sdi).2)
        = (SR_OK, some (GVariant.uint64
            (Ols.uint64_of_int (Sigma.int_of_uint64 (v % 2 ^ 64))) : GVariant Unit)) := by
    intro sdi v h
    have hs := hact _ _ _ h
    have hg : g_variant_get_uint64 (GVariant.uint64 v : GVariant Unit) = v % 2 ^ 64 := rfl
    unfold Ols.config_set at h ⊢
    simp only [hs, ne_eq, not_true_eq_false, if_false, hg,
      show ¬ ( SR_CONF_CAPTURE_RATIO = SR_CONF_SAMPLERATE) from by decide,
      show ¬ ( SR_CONF_CAPTURE_RATIO = SR_CONF_LIMIT_SAMPLES) from by decide, if_true] at h ⊢
    by_cases hbad : Sigma.int_of_uint64 (v % 2 ^ 64) < 0 ∨ Sigma.int_of_uint64 (v % 2 ^ 64) > 100
    · rw [if_pos hbad] at h
      exact absurd (show SR_ERR = SR_OK from h) (by decide)
    · rw [if_neg hbad]
      simp [Ols.config_get]
  have hint : ∀ sdi : sr_dev_inst Ols.dev_context,
      (Ols.config_set f SR_CONF_PATTERN_MODE (GVariant.string "internal" : GVariant Unit)
        sdi).1 = SR_OK →
      Ols.config_get SR_CONF_PATTERN_MODE
        (some (Ols.config_set f SR_CONF_PATTERN_MODE
          (GVariant.string "internal" : GVariant Unit) sdi).2)
        = (SR_OK, some (GVariant.string
            (if sdi.priv.flag_reg &&& Ols.FLAG_EXTERNAL_TEST_MODE ≠ 0 then "external"
             else "internal") : GVariant Unit)) := by
    intro sdi h
    have hs := hact _ _ _ h
    have hg : g_variant_get_string (GVariant.string "internal" : GVariant Unit)
        = Ols.STR_PATTERN_INTERNAL := rfl
    have hext : (Ols.set_flag sdi.priv.flag_reg Ols.FLAG_INTERNAL_TEST_MODE true
          &&& Ols.FLAG_EXTERNAL_TEST_MODE ≠ 0)
        ↔ (sdi.priv.flag_reg &&& Ols.FLAG_EXTERNAL_TEST_MODE ≠ 0) :=
      Ols.set_flag_other sdi.priv.flag_reg 11 10 (by decide) (by decide)
    have hon : Ols.set_flag sdi.priv.flag_reg Ols.FLAG_INTERNAL_TEST_MODE true
        &&& Ols.FLAG_INTERNAL_TEST_MODE ≠ 0 :=
      Ols.set_flag_on sdi.priv.flag_reg 11 (by decide)
    unfold Ols.config_set
    simp only [hs, ne_eq, not_true_eq_false, if_false, hg,
      show ¬ (SR_CONF_PATTERN_MODE = SR_CONF_SAMPLERATE) from by decide,
      show ¬ (SR_CONF_PATTERN_MODE = SR_CONF_LIMIT_SAMPLES) from by decide,
      show ¬ (SR_CONF_PATTERN_MODE = SR_CONF_CAPTURE_RATIO) from by decide,
      show ¬ (SR_CONF_PATTERN_MODE = SR_CONF_EXTERNAL_CLOCK) from by decide, if_true]
    unfold Ols.config_get
    simp only [show ¬ (SR_CONF_PATTERN_MODE = SR_CONF_SAMPLERATE) from by decide,
      show ¬ (SR_CONF_PATTERN_MODE = SR_CONF_LIMIT_SAMPLES) from by decide,
      show ¬ (SR_CONF_PATTERN_MODE = SR_CONF_CAPTURE_RATIO) from by decide, if_false, if_true]
    by_cases he : sdi.priv.flag_reg &&& Ols.FLAG_EXTERNAL_TEST_MODE ≠ 0
    · rw [if_pos (hext.mpr he), if_pos he]
    · rw [if_neg (fun h2 => he (hext.mp h2)), if_pos hon, if_neg he]
  refine ⟨rfl, rfl, rfl, ?_, rfl, ?_, ?_, ?_, ?_, ?_, hint⟩
  · exact hint Ols.dev_external rfl
  · exact hratio (Ols.dev0 SR_ST_ACTIVE) (2 ^ 32 + 5) rfl
  · intro sdi v hv h
    have hs := hact _ _ _ h
    have hg : g_variant_get_uint64 (GVariant.uint64 v : GVariant Unit) = v :=
      Nat.mod_eq_of_lt hv
    unfold Ols.config_set at h ⊢
    simp only [hs, ne_eq, not_true_eq_false, if_false, hg,
      show ¬ (SR_CONF_LIMIT_SAMPLES = SR_CONF_SAMPLERATE) from by decide, if_true] at h ⊢
    by_cases hmin : v < Ols.MIN_NUM_SAMPLES
    · rw [if_pos hmin] at h
      exact absurd (show SR_ERR = SR_OK from h) (by decide)
    · rw [if_neg hmin]
      simp [Ols.config_get]
  · intro sdi v hv h
    rw [hratio sdi v h]
    have hbad : ¬ (Sigma.int_of_uint64 (v % 2 ^ 64) < 0
        ∨ Sigma.int_of_uint64 (v % 2 ^ 64) > 100) := by
      intro hbad
      have hs := hact _ _ _ h
      have hg : g_variant_get_uint64 (GVariant.uint64 v : GVariant Unit) = v % 2 ^ 64 := rfl
      unfold Ols.config_set at h
      simp only [hs, ne_eq, not_true_eq_false, if_false, hg,
        show ¬ ( SR_CONF_CAPTURE_RATIO = SR_CONF_SAMPLERATE) from by decide,
        show ¬ ( SR_CONF_CAPTURE_RATIO = SR_CONF_LIMIT_SAMPLES) from by decide, if_true,
        if_pos hbad] at h
      exact absurd (show SR_ERR = SR_OK from h) (by decide)
    have h64 : v % 2 ^ 64 = v := Nat.mod_eq_of_lt (Nat.lt_of_lt_of_le hv (by decide))
    have h32 : v % 2 ^ 32 = v := Nat.mod_eq_of_lt hv
    rw [h64] at hbad ⊢
    unfold Sigma.int_of_uint64 at hbad ⊢
    rw [h32] at hbad ⊢
    have hsmall : v < 2 ^ 31 := by
      by_contra hge
      rw [if_neg hge] at hbad
      apply hbad
      left
      have : (v : Int) < 2 ^ 32 := by exact_mod_cast hv
      omega
    rw [if_pos hsmall]
    unfold Ols.uint64_of_int
    have : ((v : Int) % 2 ^ 64).toNat = v := by
      have h1 : (v : Int) % 2 ^ 64 = v := by
        apply Int.emod_eq_of_lt (Int.ofNat_nonneg v)
        have : (v : Int) < 2 ^ 32 := by exact_mod_cast hv
        omega
      rw [h1]
      exact Int.toNat_ofNat v
    rw [this]
  · intro sdi b h
    have hs := hact _ _ _ h
    have hg : g_variant_get_boolean (GVariant.boolean b : GVariant Unit) = b := rfl
    unfold Ols.config_set
    simp only [hs, ne_eq, not_true_eq_false, if_false, hg,
      show ¬ (SR_CONF_RLE = SR_CONF_SAMPLERATE) from by decide,
      show ¬ (SR_CONF_RLE = SR_CONF_LIMIT_SAMPLES) from by decide,
      show ¬ (SR_CONF_RLE = SR_CONF_CAPTURE_RATIO) from by decide,
      show ¬ (SR_CONF_RLE = SR_CONF_EXTERNAL_CLOCK) from by decide,
      show ¬ (SR_CONF_RLE = SR_CONF_PATTERN_MODE) from by decide,
      show ¬ (SR_CONF_RLE = SR_CONF_SWAP) from by decide, if_true]
    unfold Ols.config_get
    simp only [show ¬ (SR_CONF_RLE = SR_CONF_SAMPLERATE) from by decide,
      show ¬ (SR_CONF_RLE = SR_CONF_LIMIT_SAMPLES) from by decide,
      show ¬ (SR_CONF_RLE = SR_CONF_CAPTURE_RATIO) from by decide,
      show ¬ (SR_CONF_RLE = SR_CONF_PATTERN_MODE) from by decide, if_false, if_true]
    cases b with
    | true =>
      have := Ols.set_flag_on sdi.priv.flag_reg 8 (by decide)
      simp only [Prod.mk.injEq, Option.some.injEq, GVariant.boolean.injEq, true_and]
      simpa using this
    | false =>
      have := Ols.set_flag_off sdi.priv.flag_reg 8 (by decide)
      simp only [Prod.mk.injEq, Option.some.injEq, GVariant.boolean.injEq, true_and]
      simpa using this
  · intro sdi h
    have hs := hact _ _ _ h
    have hg : g_variant_get_string (GVariant.string "external" : GVariant Unit)
        = Ols.STR_PATTERN_EXTERNAL := rfl
    have hon : Ols.set_flag sdi.priv.flag_reg Ols.FLAG_EXTERNAL_TEST_MODE true
        &&& Ols.FLAG_EXTERNAL_TEST_MODE ≠ 0 :=
      Ols.set_flag_on sdi.priv.flag_reg 10 (by decide)
    unfold Ols.config_set
    simp only [hs, ne_eq, not_true_eq_false, if_false, hg,
      show ¬ (SR_CONF_PATTERN_MODE = SR_CONF_SAMPLERATE) from by decide,
      show ¬ (SR_CONF_PATTERN_MODE = SR_CONF_LIMIT_SAMPLES) from by decide,
      show ¬ (SR_CONF_PATTERN_MODE = SR_CONF_CAPTURE_RATIO) from by decide,
      show ¬ (SR_CONF_PATTERN_MODE = SR_CONF_EXTERNAL_CLOCK) from by decide,
      show ¬ (Ols.STR_PATTERN_EXTERNAL = Ols.STR_PATTERN_INTERNAL) from by decide, if_true]
    unfold Ols.config_get
    simp only [show ¬ (SR_CONF_PATTERN_MODE = SR_CONF_SAMPLERATE) from by decide,
      show ¬ (SR_CONF_PATTERN_MODE = SR_CONF_LIMIT_SAMPLES) from by decide,
      show ¬ (SR_CONF_PATTERN_MODE = SR_CONF_CAPTURE_RATIO) from by decide, if_false, if_true]
    rw [if_pos hon]

/-- What the scan loop of the catalog lookups returns is the index of an entry
of nonzero key that passes the test. -/
theorem config_info_scan_some (test : sr_config_info → Bool) (l : List sr_config_info)
    (i j : Nat) (h : config_info_scan test l i = some j) :
    i ≤ j ∧ ∃ e, l[j - i]? = some e ∧ e.key ≠ 0 ∧ test e = true := by
  induction l generalizing i with
  | nil => simp [config_info_scan] at h
  | cons e l ih =>
    unfold config_info_scan at h
    by_cases h0 : e.key = 0
    · rw [if_pos h0] at h
      exact absurd h (by simp)
    · rw [if_neg h0] at h
      by_cases ht : test e = true
      · rw [if_pos ht] at h
        have hij : i = j := by simpa using h
        subst hij
        exact ⟨le_refl _, e, by simp, h0, ht⟩
      · rw [if_neg ht] at h
        obtain ⟨hle, e2, hget, hk, hp⟩ := ih (i + 1) h
        refine ⟨by omega, e2, ?_, hk, hp⟩
        have : j - i = (j - (i + 1)) + 1 := by omega
        rw [this, List.getElem?_cons_succ]
        exact hget

/-- C24: the catalog lookups are exact. `sr_config_info_get(key)` and `sr_config_info_name_get(name)` return
an entry before the terminator whose key, respectively id, is the one asked
for; they return `NULL` when no entry has it, in particular for the key 0; and
for each of the 28 entries the lookup of its key and the lookup of its id
return that entry (keys and ids are unique in the table). -/
theorem C24_config_info_lookups_exact :
    (∀ (key : Int) (j : Nat), sr_config_info_get key = some j →
        j < 28 ∧ (sr_config_info_data[j]?).map (fun e => e.key) = some key)
    ∧ (∀ key : Int, (∀ j, j < 28 → (sr_config_info_data[j]?).map (fun e => e.key) ≠ some key) →
        sr_config_info_get key = none)
    ∧ sr_config_info_get 0 = none
    ∧ (∀ (name : String) (j : Nat), sr_config_info_name_get name = some j →
        j < 28 ∧ (sr_config_info_data[j]?).bind (fun e => e.id) = some name)
    ∧ (∀ name : String,
        (∀ j, j < 28 → (sr_config_info_data[j]?).bind (fun e => e.id) ≠ some name) →
        sr_config_info_name_get name = none)
    ∧ (∀ j, j < 28 →
        (sr_config_info_data[j]?).bind (fun e => sr_config_info_get e.key) = some j
        ∧ ((sr_config_info_data[j]?).bind (fun e => e.id)).bind sr_config_info_name_get
            = some j) := by
  have hlen : sr_config_info_data.length = 29 := by decide
  have hterm : (sr_config_info_data[28]?).map (fun e => e.key) = some 0 := by decide
  have hkey : ∀ (test : sr_config_info → Bool) (j : Nat),
      config_info_scan test sr_config_info_data 0 = some j →
      j < 28 ∧ ∃ e, sr_config_info_data[j]? = some e ∧ test e = true := by
    intro test j h
    obtain ⟨-, e, hget, hk, ht⟩ := config_info_scan_some test _ 0 j h
    rw [Nat.sub_zero] at hget
    refine ⟨?_, e, hget, ht⟩
    have hj : j < 29 := by
      rw [← hlen]
      exact (List.getElem?_eq_some_iff.mp hget).1
    by_contra hge
    have : j = 28 := by omega
    subst this
    rw [hget] at hterm
    simp only [Option.map_some', Option.some.injEq] at hterm
    exact hk hterm
  have h1 : ∀ (key : Int) (j : Nat), sr_config_info_get key = some j →
      j < 28 ∧ (sr_config_info_data[j]?).map (fun e => e.key) = some key := by
    intro key j h
    obtain ⟨hj, e, hget, ht⟩ := hkey _ j h
    refine ⟨hj, ?_⟩
    rw [hget]
    simpa using ht
  have h2 : ∀ (name : String) (j : Nat), sr_config_info_name_get name = some j →
      j < 28 ∧ (sr_config_info_data[j]?).bind (fun e => e.id) = some name := by
    intro name j h
    obtain ⟨hj, e, hget, ht⟩ := hkey _ j h
    refine ⟨hj, ?_⟩
    rw [hget]
    simpa using ht
  refine ⟨h1, ?_, by decide, h2, ?_, by decide⟩
  · intro key hno
    cases hg : sr_config_info_get key with
    | none => rfl
    | some j => exact absurd (h1 key j hg).2 (hno j (h1 key j hg).1)
  · intro name hno
    cases hg : sr_config_info_name_get name with
    | none => rfl
    | some j => exact absurd (h2 name j hg).2 (hno j (h2 name j hg).1)

theorem C24_config_info_lookups_exact_witness :
    2 < 28 ∧ (sr_config_info_data[2]?).map (fun e => e.key) = some SR_CONF_SAMPLERATE :=
  C24_config_info_lookups_exact.1 SR_CONF_SAMPLERATE 2 (by decide)

namespace Sigma

/-- The tables of `build_basic_trigger` that depend on the edge masks, for a single
rising or falling edge bit and for none. -/
theorem build_basic_trigger_edges :
    (∀ i, i < 16 →
      (basic_trigger_writes
          { risingmask := 1 <<< i, fallingmask := 0, simplemask := 0, simplevalue := 0 }
          = [1 <<< i]
        ∧ (build_basic_trigger { devc_50mhz with trigger :=
            { risingmask := 1 <<< i, fallingmask := 0, simplemask := 0, simplevalue := 0 } }).m3
          = 0x2222)
      ∧ (basic_trigger_writes
          { risingmask := 0, fallingmask := 1 <<< i, simplemask := 0, simplevalue := 0 }
          = [1 <<< i]
        ∧ (build_basic_trigger { devc_50mhz with trigger :=
            { risingmask := 0, fallingmask := 1 <<< i, simplemask := 0, simplevalue := 0 } }).m3
          = 0x4444))
    ∧ basic_trigger_writes
        { risingmask := 0, fallingmask := 0, simplemask := 0, simplevalue := 0 } = []
    ∧ (build_basic_trigger { devc_50mhz with trigger :=
        { risingmask := 0, fallingmask := 0, simplemask := 0, simplevalue := 0 } }).m3 = 0xffff
    ∧ build_lut_entry 0 0 = [0xffff, 0xffff, 0xffff, 0xffff] := by
  decide

end Sigma

/-- C25: for a trigger configuration with at most one edge-trigger bit (none, or
bit `i < 16` in the rising mask only, or in the falling mask only),
`build_basic_trigger` gives `m2d = build_lut_entry(simplevalue, simplemask)`, `m4 = 0xa000`, `selres = 3`,
`m1d` all `0xffff`, and: without edge `m0d` all `0xffff` and `m3 = 0xffff`; for a
rising edge `m0d = build_lut_entry(e, e)` with `e = 1 << i` and `m3 = 0x2222`; for a falling
edge the same `m0d` and `m3 = 0x4444`. The loop writes at most one value to
`masks[]`, so its write index stays below 2; `m0d` and `m1d` are built from
`masks[0]` and `masks[1]`. -/
theorem C25_build_basic_trigger_single_edge (devc : Sigma.dev_context) (i : Nat)
    (hi : i < 16)
    (hpre : (devc.trigger.risingmask = 0 ∧ devc.trigger.fallingmask = 0)
      ∨ (devc.trigger.risingmask = 1 <<< i ∧ devc.trigger.fallingmask = 0)
      ∨ (devc.trigger.risingmask = 0 ∧ devc.trigger.fallingmask = 1 <<< i)) :
    (Sigma.build_basic_trigger devc).m2d
        = Sigma.build_lut_entry devc.trigger.simplevalue devc.trigger.simplemask
    ∧ (Sigma.build_basic_trigger devc).m4 = 0xa000
    ∧ (Sigma.build_basic_trigger devc).params.selres = 3
    ∧ (Sigma.build_basic_trigger devc).m1d = [0xffff, 0xffff, 0xffff, 0xffff]
    ∧ (devc.trigger.risingmask = 0 ∧ devc.trigger.fallingmask = 0 →
        (Sigma.build_basic_trigger devc).m0d = [0xffff, 0xffff, 0xffff, 0xffff]
        ∧ (Sigma.build_basic_trigger devc).m3 = 0xffff)
    ∧ (devc.trigger.risingmask = 1 <<< i ∧ devc.trigger.fallingmask = 0 →
        (Sigma.build_basic_trigger devc).m0d = Sigma.build_lut_entry (1 <<< i) (1 <<< i)
        ∧ (Sigma.build_basic_trigger devc).m3 = 0x2222)
    ∧ (devc.trigger.risingmask = 0 ∧ devc.trigger.fallingmask = 1 <<< i →
        (Sigma.build_basic_trigger devc).m0d = Sigma.build_lut_entry (1 <<< i) (1 <<< i)
        ∧ (Sigma.build_basic_trigger devc).m3 = 0x4444)
    ∧ (Sigma.basic_trigger_writes devc.trigger).length < 2
    ∧ (Sigma.build_basic_trigger devc).m0d
        = Sigma.build_lut_entry ((Sigma.basic_trigger_writes devc.trigger).getD 0 0)
            ((Sigma.basic_trigger_writes devc.trigger).getD 0 0)
    ∧ (Sigma.build_basic_trigger devc).m1d
        = Sigma.build_lut_entry ((Sigma.basic_trigger_writes devc.trigger).getD 1 0)
            ((Sigma.basic_trigger_writes devc.trigger).getD 1 0) := by
  obtain ⟨hedge, hnone, hm3none, hlut0⟩ := Sigma.build_basic_trigger_edges
  have hw : ∀ r f : Nat, devc.trigger.risingmask = r → devc.trigger.fallingmask = f →
      Sigma.basic_trigger_writes devc.trigger
        = Sigma.basic_trigger_writes
            { risingmask := r, fallingmask := f, simplemask := 0, simplevalue := 0 } := by
    intro r f hr hf
    subst hr hf
    rfl
  have hm3 : ∀ r f : Nat, devc.trigger.risingmask = r → devc.trigger.fallingmask = f →
      (Sigma.build_basic_trigger devc).m3
        = (Sigma.build_basic_trigger { Sigma.devc_50mhz with trigger :=
            { risingmask := r, fallingmask := f, simplemask := 0, simplevalue := 0 } }).m3 := by
    intro r f hr hf
    subst hr hf
    rfl
  have hm0 : (Sigma.build_basic_trigger devc).m0d
      = Sigma.build_lut_entry ((Sigma.basic_trigger_writes devc.trigger).getD 0 0)
          ((Sigma.basic_trigger_writes devc.trigger).getD 0 0) := rfl
  have hm1 : (Sigma.build_basic_trigger devc).m1d
      = Sigma.build_lut_entry ((Sigma.basic_trigger_writes devc.trigger).getD 1 0)
          ((Sigma.basic_trigger_writes devc.trigger).getD 1 0) := rfl
  have hcases : Sigma.basic_trigger_writes devc.trigger = []
      ∨ Sigma.basic_trigger_writes devc.trigger = [1 <<< i] := by
    rcases hpre with ⟨hr, hf⟩ | ⟨hr, hf⟩ | ⟨hr, hf⟩
    · exact Or.inl ((hw 0 0 hr hf).trans hnone)
    · exact Or.inr ((hw _ _ hr hf).trans (hedge i hi).1.1)
    · exact Or.inr ((hw _ _ hr hf).trans (hedge i hi).2.1)
  refine ⟨rfl, rfl, rfl, ?_, ?_, ?_, ?_, ?_, hm0, hm1⟩
  · rw [hm1]
    rcases hcases with h | h
    · rw [h]; exact hlut0
    · rw [h]; exact hlut0
  · rintro ⟨hr, hf⟩
    constructor
    · rw [hm0, (hw 0 0 hr hf).trans hnone]; exact hlut0
    · rw [hm3 0 0 hr hf]; exact hm3none
  · rintro ⟨hr, hf⟩
    constructor
    · rw [hm0, (hw _ _ hr hf).trans (hedge i hi).1.1]; rfl
    · rw [hm3 _ _ hr hf]; exact (hedge i hi).1.2
  · rintro ⟨hr, hf⟩
    constructor
    · rw [hm0, (hw _ _ hr hf).trans (hedge i hi).2.1]; rfl
    · rw [hm3 _ _ hr hf]; exact (hedge i hi).2.2
  · rcases hcases with h | h
    · rw [h]; exact Nat.zero_lt_two
    · rw [h]; exact Nat.one_lt_two

theorem C25_build_basic_trigger_single_edge_witness :
    (Sigma.build_basic_trigger
        { Sigma.devc_50mhz with trigger :=
          { risingmask := 4, fallingmask := 0, simplemask := 3, simplevalue := 1 } }).m3
      = 0x2222 :=
  ((C25_build_basic_trigger_single_edge
      { Sigma.devc_50mhz with trigger :=
        { risingmask := 4, fallingmask := 0, simplemask := 3, simplevalue := 1 } } 2
      (by decide) (Or.inr (Or.inl ⟨rfl, rfl⟩))).2.2.2.2.2.1 ⟨rfl, rfl⟩).2

namespace Sigma

/-- After `j` iterations of the download loop the counter of downloaded chunks
has advanced by `j`, as has the position in the batch; the trigger chunk, the
trigger position and the stop position are the same. -/
theorem download_loop_unroll (io : rd_io) (numchunks : Int) (j k i : Nat) (devc : dev_context)
    (out : List Event) :
    ∃ (devcj : dev_context) (outj : List Event),
      download_loop io numchunks (j + k) i devc out
        = download_loop io numchunks k (i + j) devcj outj
      ∧ devcj.state.chunks_downloaded = devc.state.chunks_downloaded + j
      ∧ devcj.state.triggerchunk = devc.state.triggerchunk
      ∧ devcj.state.triggerpos = devc.state.triggerpos
      ∧ devcj.state.stoppos = devc.state.stoppos := by
  induction j generalizing i devc out with
  | zero => exact ⟨devc, out, by simp, by simp, rfl, rfl, rfl⟩
  | succ j ih =>
    have e : j + 1 + k = (j + k) + 1 := by omega
    rw [e]
    conv => enter [1, devcj, 1, outj, 1, 1]; unfold download_loop
    simp only []
    obtain ⟨devcj, outj, h1, h2, h3, h4, h5⟩ := ih (i + 1) _ _
    refine ⟨devcj, outj, ?_, ?_, ?_, ?_, ?_⟩
    · rw [h1]
      have : i + 1 + j = i + (j + 1) := by omega
      rw [this]
    · rw [h2]
      simp only [Nat.cast_add, Nat.cast_one]
      omega
    · rw [h3]
    · rw [h4]
    · rw [h5]

end Sigma

set_option maxRecDepth 100000 in
/-- C26, divergence: the download loop tests `chunks_downloaded + i == triggerchunk` while it
also increments `chunks_downloaded` in each iteration. In a batch that starts with `c0` chunks
downloaded, the chunk at batch position `j`, whose absolute index is `c0 + j`,
is decoded with the trigger position exactly when `c0 + 2 * j` equals the
trigger chunk, and with -1 otherwise. Examples at 50 MHz with the flag
`use_triggers` set: with the trigger in chunk 1 of 2, no Trigger packet is sent
although cluster 0 of chunk 1 is decoded; with the trigger in chunk 2 of 3,
the Trigger packet is sent after the 889 samples of chunk 0, at the head of
chunk 1. -/
theorem C26_trigger_chunk_test_counts_position_twice :
    (∀ (io : Sigma.rd_io) (numchunks : Int) (j k : Nat) (devc : Sigma.dev_context)
        (out : List Sigma.Event),
        ∃ (devcj : Sigma.dev_context) (outj : List Sigma.Event) (limit : Nat),
          devcj.state.chunks_downloaded = devc.state.chunks_downloaded + j
          ∧ Sigma.download_loop io numchunks (j + (k + 1)) 0 devc out
            = Sigma.download_loop io numchunks k (j + 1)
                { devcj with state :=
                  { devcj.state with
                    lastts :=
                      (Sigma.decode_chunk_ts devcj (fun x => io.dram (j * Sigma.CHUNK_SIZE + x))
                        devcj.state.lastts devcj.state.lastsample
                        (if devc.state.chunks_downloaded + 2 * (j : Int)
                            = devc.state.triggerchunk
                          then ((devc.state.triggerpos &&& 0x1ff : Nat) : Int) else -1)
                        limit (io.stack j) (io.under j)).1
                    lastsample :=
                      (Sigma.decode_chunk_ts devcj (fun x => io.dram (j * Sigma.CHUNK_SIZE + x))
                        devcj.state.lastts devcj.state.lastsample
                        (if devc.state.chunks_downloaded + 2 * (j : Int)
                            = devc.state.triggerchunk
                          then ((devc.state.triggerpos &&& 0x1ff : Nat) : Int) else -1)
                        limit (io.stack j) (io.under j)).2.1
                    chunks_downloaded := devcj.state.chunks_downloaded + 1 } }
                (outj ++
                  (Sigma.decode_chunk_ts devcj (fun x => io.dram (j * Sigma.CHUNK_SIZE + x))
                    devcj.state.lastts devcj.state.lastsample
                    (if devc.state.chunks_downloaded + 2 * (j : Int)
                        = devc.state.triggerchunk
                      then ((devc.state.triggerpos &&& 0x1ff : Nat) : Int) else -1)
                    limit (io.stack j) (io.under j)).2.2))
    ∧ (Sigma.receive_data (Sigma.io_triggered 1 613)
        Sigma.capturing_50mhz).1.priv.state.triggerchunk = 1
    ∧ (Sigma.receive_data (Sigma.io_triggered 1 613)
        Sigma.capturing_50mhz).1.priv.state.chunks_downloaded = 2
    ∧ (Sigma.logic_units
        (Sigma.receive_data (Sigma.io_triggered 1 613) Sigma.capturing_50mhz).2).length = 1078
    ∧ SR_DF_TRIGGER ∉
        Sigma.packets (Sigma.receive_data (Sigma.io_triggered 1 613) Sigma.capturing_50mhz).2
    ∧ (Sigma.receive_data (Sigma.io_triggered 2 1125)
        Sigma.capturing_50mhz).1.priv.state.triggerchunk = 2
    ∧ (Sigma.packets (Sigma.receive_data (Sigma.io_triggered 2 1125)
        Sigma.capturing_50mhz).2).count SR_DF_TRIGGER = 1
    ∧ (Sigma.logic_units
        ((Sigma.receive_data (Sigma.io_triggered 2 1125) Sigma.capturing_50mhz).2.takeWhile
          fun e => e != Sigma.Event.send SR_DF_TRIGGER)).length = 889 := by
  refine ⟨?_, by decide, by decide, by decide, by decide, by decide, by decide, by decide⟩
  intro io numchunks j k devc out
  obtain ⟨devcj, outj, h1, h2, h3, h4, -⟩ :=
    Sigma.download_loop_unroll io numchunks j (k + 1) 0 devc out
  have hcond : (devcj.state.chunks_downloaded + ((0 + j : Nat) : Int) = devcj.state.triggerchunk)
      ↔ (devc.state.chunks_downloaded + 2 * (j : Int) = devc.state.triggerchunk) := by
    rw [h2, h3]
    constructor <;> intro h <;> push_cast at h ⊢ <;> omega
  refine ⟨devcj, outj,
    ((if devcj.state.chunks_downloaded = numchunks - 1 then
        ((devcj.state.stoppos % 512 + devcj.state.lastts : Nat) : Int)
      else 0).toNat % 65536), h2, ?_⟩
  rw [h1]
  conv_lhs => unfold Sigma.download_loop
  simp only [Nat.zero_add, h4]
  simp only [Nat.zero_add] at hcond
  by_cases hc : devc.state.chunks_downloaded + 2 * (j : Int) = devc.state.triggerchunk
  · rw [if_pos hc, if_pos (hcond.mpr hc)]
  · rw [if_neg hc, if_neg (fun h => hc (hcond.mp h))]

namespace Sigma

end Sigma

/-- C29, divergence: the search loop of `set_samplerate` ends with `i = ARRAY_SIZE(samplerates)`
for a rate that is not in the table, and the test `samplerates[i] == 0` then reads
index 10 of a table of ten entries; the table has no terminating zero. The
outcome is decided by the word `past` that follows the table in memory: when
it is zero the call returns `SR_ERR_SAMPLERATE` and changes nothing; when it is not, the
rate is taken as supported. Example with `past = 1`: the rate 300 kHz uploads
firmware 0 and returns `SR_OK` with `cur_samplerate = 300000` and 16 probes; the
rate 0 ends in the division `1000000000000 / 0`. -/
theorem C29_unsupported_rate_reads_past_table :
    Sigma.samplerates.length = 10
    ∧ (∀ rate, rate ∉ Sigma.samplerates → Sigma.samplerate_index rate = 10)
    ∧ (∀ past, Sigma.samplerates_at past 10 = past)
    ∧ (∀ (fw : Sigma.fw_io) (devc : Sigma.dev_context) (rate : Nat),
        rate ∉ Sigma.samplerates →
        Sigma.set_samplerate 0 fw devc rate = some (SR_ERR_SAMPLERATE, devc, []))
    ∧ (300000 : Nat) ∉ Sigma.samplerates
    ∧ (Sigma.set_samplerate 1 Sigma.fw_ok Sigma.devc_100mhz 300000).map
        (fun r => (r.1, r.2.1.cur_samplerate, r.2.1.num_probes, r.2.1.cur_firmware,
          r.2.2.length))
      = some (SR_OK, 300000, 16, 0, 7)
    ∧ (Sigma.set_samplerate 1 Sigma.fw_ok Sigma.devc_100mhz 0).isSome = false := by
  have hidx : ∀ rate, rate ∉ Sigma.samplerates → Sigma.samplerate_index rate = 10 := by
    intro rate h
    unfold Sigma.samplerate_index
    have : List.findIdx (fun r => r == rate) Sigma.samplerates = Sigma.samplerates.length := by
      rw [List.findIdx_eq_length]
      intro x hx
      have : x ≠ rate := fun e => h (e ▸ hx)
      simpa using this
    rw [this]
    decide
  have hat : ∀ past, Sigma.samplerates_at past 10 = past := by
    intro past
    simp [Sigma.samplerates_at, Sigma.samplerates]
  refine ⟨by decide, hidx, hat, ?_, by decide, by decide, by decide⟩
  intro fw devc rate h
  unfold Sigma.set_samplerate
  rw [hidx rate h, hat 0, if_pos rfl]

/-- The loop of `get_trigger_offset` reads the array only at indices below the
bound of the loop: two arrays that agree there give the same result. -/
theorem Sigma.get_trigger_offset_loop_congr (f g : Nat → Nat) (t : Sigma.sigma_trigger) (b : Nat)
    (hfg : ∀ j < b, f j = g j) (k i ls : Nat) (hb : i + k ≤ b) :
    Sigma.get_trigger_offset_loop f t k i ls = Sigma.get_trigger_offset_loop g t k i ls := by
  induction k generalizing i ls with
  | zero => rfl
  | succ k ih =>
    have hi : f i = g i := hfg i (by omega)
    have hl : (if i > 0 then f (i - 1) else ls) = (if i > 0 then g (i - 1) else ls) := by
      by_cases c : i > 0
      · rw [if_pos c, if_pos c, hfg (i - 1) (by omega)]
      · rw [if_neg c, if_neg c]
    simp only [Sigma.get_trigger_offset_loop, hi, hl, ih (i + 1) _ (by omega)]

/-- C30, divergence: `get_trigger_offset` reads `samples[0]` to `samples[7]`, and at
one sample per event (all rates up to 50 MHz) a cluster fills only
`samples[0]` to `samples[6]`: `samples[7]` is what an earlier step left in the
array. With two or more samples per event the offset does not depend on the
earlier contents. Example at 50 MHz with the level trigger "probe 0 high" on
cluster 0 of a chunk whose samples all have probe 0 low: with `samples[7] = 0`
left in the array the offset is 0 and the trigger packet precedes the seven
samples; with `samples[7] = 1` the offset is 7 and the trigger packet follows
them. The cluster, the last sample and the trigger are the same in both. -/
theorem C30_trigger_offset_reads_past_cluster :
    (∀ (devc : Sigma.dev_context) (buf : Nat → Nat) (i : Nat) (s1 s2 : Nat → Nat) (ls : Nat)
        (t : Sigma.sigma_trigger), 2 ≤ devc.samples_per_event →
        Sigma.get_trigger_offset (Sigma.cluster_samples devc buf i s1) ls t
          = Sigma.get_trigger_offset (Sigma.cluster_samples devc buf i s2) ls t)
    ∧ (∀ (devc : Sigma.dev_context) (buf : Nat → Nat) (i : Nat) (s : Nat → Nat),
        devc.samples_per_event = 1 → Sigma.cluster_samples devc buf i s 7 = s 7)
    ∧ Sigma.devc_50mhz_level.samples_per_event = 1
    ∧ (List.range 7).map (Sigma.cluster_samples Sigma.devc_50mhz_level Sigma.buf_even 0 (fun _ => 0))
        = [2, 4, 6, 8, 10, 12, 14]
    ∧ Sigma.get_trigger_offset
        (Sigma.cluster_samples Sigma.devc_50mhz_level Sigma.buf_even 0 (fun _ => 0)) 0
        Sigma.devc_50mhz_level.trigger = 0
    ∧ Sigma.get_trigger_offset
        (Sigma.cluster_samples Sigma.devc_50mhz_level Sigma.buf_even 0
          (fun j => if j = 7 then 1 else 0)) 0
        Sigma.devc_50mhz_level.trigger = 7
    ∧ (Sigma.decode_chunk_ts Sigma.devc_50mhz_level Sigma.buf_even 0 0 0 7 (fun _ => 0) 0).2.2
        = [Sigma.Event.send SR_DF_TRIGGER,
           Sigma.Event.send (SR_DF_LOGIC 14 2 [2, 4, 6, 8, 10, 12, 14])]
    ∧ (Sigma.decode_chunk_ts Sigma.devc_50mhz_level Sigma.buf_even 0 0 0 7
          (fun j => if j = 7 then 1 else 0) 0).2.2
        = [Sigma.Event.send (SR_DF_LOGIC 14 2 [2, 4, 6, 8, 10, 12, 14]),
           Sigma.Event.send SR_DF_TRIGGER] := by
  refine ⟨?_, ?_, by decide, by decide, by decide, by decide, by decide, by decide⟩
  · intro devc buf i s1 s2 ls t h
    unfold Sigma.get_trigger_offset
    rw [Sigma.get_trigger_offset_loop_congr _ _ t 8 ?_ 8 0 ls (by omega)]
    intro j hj
    have hlt : j < 7 * devc.samples_per_event.toNat := by omega
    simp only [Sigma.cluster_samples, if_pos hlt]
  · intro devc buf i s h
    have hn : ¬ 7 < 7 * devc.samples_per_event.toNat := by rw [h]; decide
    simp only [Sigma.cluster_samples, if_neg hn]

end Sigrok
